import Mathlib

/-!
# Verification of the BioDynaMo diffusion-grid specification

The repository's `DiffusionGrid` component (spec sections 3-8) is exercised by
`test/unit/diffusion_test.cc`.  The implementation file itself is not part of
the source tree here, so the operational definitions below are modelled from
the specification, with the unit test's asserted values (the only
authoritative code) fixing every behavioural detail they pin down.

Two complementary embeddings are developed:

* an exact binary64 (IEEE-754 double) replay of the `LeakingEdge` /
  `CopyOldData` test scenario, with floating-point numbers represented as
  packed significand/exponent pairs and every operation rounded to 53 bits
  (round to nearest, ties to even), exactly as C++ `double` arithmetic does
  in the normal range; and

* an exact-arithmetic (rational) model `DField` of the component's data model
  and operations (`Initialize`, `Update`, `IncreaseConcentrationAt`,
  `DiffuseStep`, `CalculateGradient`, `GetBoxIndex`), over which the
  structural and algebraic claims are settled.
-/

/-! ## Strict evaluation helpers

Kernel reduction is call-by-name; a value that is consumed several times must
be forced to a literal before it is shared, otherwise the unevaluated term is
duplicated.  `sN` forces a natural number by matching on its constructor. -/

/-- Force a natural number to a literal before sharing it. -/
def sN {α : Sort _} (n : Nat) (k : Nat → α) : α :=
  match n with
  | 0 => k 0
  | m + 1 => k m.succ

/-! ## Packed binary64 arithmetic

A nonzero double is `(-1)^sgn * mag * 2^(eb - 512)` with `2^52 ≤ mag < 2^53`,
packed into the natural number `(eb <<< 55) + (sgn <<< 54) + mag`; zero is
packed as `0`.  The bias 512 covers every exponent reached by the diffusion
scenario (all values are normal; overflow and subnormals never occur there and
are outside the model's scope). -/

/-- Largest `b ≤ fuel` with `2^(b-1) ≤ mag`, i.e. the bit length of `mag`
provided it is at most `fuel` (and `0` for `mag = 0`): downward scan. -/
def bdown : Nat → Nat → Nat
  | 0, _ => 0
  | b + 1, mag => if 1 <<< b ≤ mag then b + 1 else bdown b mag

/-- Assemble a packed value from a sign, a rounded significand `q`
(`2^52 ≤ q ≤ 2^53`) and an exponent bias `eb`, renormalising the carry
case `q = 2^53`. -/
def packOf (sgn q eb : Nat) : Nat :=
  if q = 9007199254740992 then ((eb + 1) <<< 55) + (sgn <<< 54) + 4503599627370496
  else (eb <<< 55) + (sgn <<< 54) + q

/-- Round a magnitude of bit length `53 + k` at bias `eb` to 53 bits,
round to nearest, ties to even. -/
def rndK (sgn mag eb k : Nat) : Nat :=
  packOf sgn
    (if 1 <<< (k - 1) < mag - (mag >>> k <<< k) then mag >>> k + 1
     else if mag - (mag >>> k <<< k) < 1 <<< (k - 1) then mag >>> k
     else if mag >>> k % 2 = 0 then mag >>> k else mag >>> k + 1)
    (eb + k)

/-- Round a magnitude of known bit length `bl` at bias `eb` to 53 bits;
for short magnitudes the significand is shifted up into place (the result
stays normal, subnormals being outside the scenario's range). -/
def rndB (sgn mag eb bl : Nat) : Nat :=
  if mag = 0 then 0 else
  if bl ≤ 53 then ((eb - (53 - bl)) <<< 55) + (sgn <<< 54) + (mag <<< (53 - bl))
  else rndK sgn mag eb (bl - 53)

/-- Add two aligned signed significands at bias `eb`; `bm` bounds the bit
length of the wider operand `my` (which is a normalized significand shifted
left by the exponent difference). -/
def faddCore (sx mx sy my eb bm : Nat) : Nat :=
  if sx = sy then
    sN (mx + my) fun mag =>
    rndB sx mag eb (if 1 <<< bm ≤ mag then bm + 1 else bm)
  else if my ≤ mx then
    sN (mx - my) fun mag => sN (bdown bm mag) fun bl => rndB sx mag eb bl
  else
    sN (my - mx) fun mag => sN (bdown bm mag) fun bl => rndB sy mag eb bl

/-- Packed binary64 addition (exact sum, then one rounding). -/
def fadd (x y : Nat) : Nat :=
  if x = 0 then y else if y = 0 then x else
  if x >>> 55 ≤ y >>> 55 then
    sN ((y % 18014398509481984) <<< (y >>> 55 - x >>> 55)) fun my2 =>
    faddCore (x >>> 54 % 2) (x % 18014398509481984) (y >>> 54 % 2) my2
      (x >>> 55) (53 + (y >>> 55 - x >>> 55))
  else
    sN ((x % 18014398509481984) <<< (x >>> 55 - y >>> 55)) fun mx2 =>
    faddCore (y >>> 54 % 2) (y % 18014398509481984) (x >>> 54 % 2) mx2
      (y >>> 55) (53 + (x >>> 55 - y >>> 55))

/-- Packed binary64 multiplication (exact product, then one rounding;
the product of two normalized significands has 105 or 106 bits). -/
def fmul (x y : Nat) : Nat :=
  if x = 0 then 0 else if y = 0 then 0 else
  sN ((x % 18014398509481984) * (y % 18014398509481984)) fun mag =>
  rndK ((x >>> 54 + y >>> 54) % 2) mag (x >>> 55 + y >>> 55 - 512)
    (if 40564819207303340847894502572032 ≤ mag then 53 else 52)

/-- Packed binary64 negation. -/
def fneg (x : Nat) : Nat :=
  if x = 0 then 0 else
  if x >>> 54 % 2 = 0 then x + 18014398509481984 else x - 18014398509481984

/-- Packed binary64 subtraction. -/
def fsub (x y : Nat) : Nat := fadd x (fneg y)

/-- Comparison `x ≤ y` on packed values, valid for nonnegative operands (the
packing is monotone there). -/
def fleP (x y : Nat) : Bool := x ≤ y

/-- Bit length of a natural number below `2^256`. -/
def blen (n : Nat) : Nat :=
  sN (if 340282366920938463463374607431768211456 ≤ n then n >>> 128 else n) fun n1 =>
  sN (if 340282366920938463463374607431768211456 ≤ n then 128 else 0) fun a1 =>
  sN (if 18446744073709551616 ≤ n1 then n1 >>> 64 else n1) fun n2 =>
  sN (if 18446744073709551616 ≤ n1 then a1 + 64 else a1) fun a2 =>
  sN (if 4294967296 ≤ n2 then n2 >>> 32 else n2) fun n3 =>
  sN (if 4294967296 ≤ n2 then a2 + 32 else a2) fun a3 =>
  sN (if 65536 ≤ n3 then n3 >>> 16 else n3) fun n4 =>
  sN (if 65536 ≤ n3 then a3 + 16 else a3) fun a4 =>
  sN (if 256 ≤ n4 then n4 >>> 8 else n4) fun n5 =>
  sN (if 256 ≤ n4 then a4 + 8 else a4) fun a5 =>
  sN (if 16 ≤ n5 then n5 >>> 4 else n5) fun n6 =>
  sN (if 16 ≤ n5 then a5 + 4 else a5) fun a6 =>
  sN (if 4 ≤ n6 then n6 >>> 2 else n6) fun n7 =>
  sN (if 4 ≤ n6 then a6 + 2 else a6) fun a7 =>
  sN (if 2 ≤ n7 then n7 >>> 1 else n7) fun n8 =>
  sN (if 2 ≤ n7 then a7 + 1 else a7) fun a8 =>
  if n8 = 1 then a8 + 1 else 0

/-- The packed binary64 double nearest to `n / d` (`d ≠ 0`; round to nearest,
ties to even).  This is the value a C++ `double` literal or quotient of exact
integers denotes. -/
def dbl (n d : Nat) : Nat :=
  if n = 0 then 0 else
  sN (56 + blen d) fun t =>
  sN (n <<< t) fun nd =>
  sN (nd / d) fun m0 =>
  sN (nd % d) fun rem =>
  sN (blen m0) fun bl =>
  sN (bl - 53) fun k =>
  sN (m0 >>> k) fun q0 =>
  sN (m0 - (q0 <<< k)) fun r =>
  sN (1 <<< (k - 1)) fun half =>
  sN (if half < r then q0 + 1
      else if r < half then q0
      else if 0 < rem then q0 + 1
      else if q0 % 2 = 0 then q0 else q0 + 1) fun q1 =>
  sN (k + 512 - t) fun eb =>
  packOf 0 q1 eb

/-! ## Constants of the diffusion scenario

The grid is created as `DiffusionGrid("Kalium", 0.4)`; the kernel
coefficients are the doubles `1 - 0.4` and `0.4 / 6`, the gradient factor is
`1 / (2 * box_length)` with `box_length = 30`, the injected amount is `4` and
the concentration threshold is `1e15`. -/

/-- The double `0.4` (the diffusion coefficient of the scenario). -/
def fl04 : Nat := dbl 2 5

/-- The double `1 - 0.4` (central weight of the diffusion kernel). -/
def dc0 : Nat := fsub (dbl 1 1) fl04

/-- The double `0.4 / 6` (face-neighbour weight of the diffusion kernel);
`0.4` is itself a double, so the numerator is its exact significand. -/
def dc1 : Nat := dbl 7205759403792794 108086391056891904

/-- The double `1 / 60 = 1 / (2 * box_length)` (gradient factor). -/
def gd : Nat := dbl 1 60

/-- The double `4.0` (amount injected per step). -/
def amount4 : Nat := dbl 4 1

/-- The double `1e15` (concentration threshold of the scenario). -/
def cap15 : Nat := dbl 1000000000000000 1

/-! ## The 5×5×5 grid of the `LeakingEdge` scenario

The grid covers `[-30,120]^3` with spacing 30, hence `5^3` cells, stored
row-major (x fastest).  For exact kernel evaluation the 125 cells are held in
nested five-field structures; `gridL` flattens back to the row-major list. -/

/-- One cell of the explicit diffusion step: the seven-term kernel
`dc0*c + dc1*l + dc1*r + dc1*n + dc1*s + dc1*zb + dc1*zt`, accumulated left to
right in binary64, with out-of-grid neighbours contributing the literal `0`
(the leaking-edge boundary). -/
def cellF (c l r n s zb zt : Nat) : Nat :=
  fadd (fadd (fadd (fadd (fadd (fadd
    (fmul dc0 c) (fmul dc1 l)) (fmul dc1 r)) (fmul dc1 n))
    (fmul dc1 s)) (fmul dc1 zb)) (fmul dc1 zt)

structure Row5 where
  c0 : Nat
  c1 : Nat
  c2 : Nat
  c3 : Nat
  c4 : Nat
  deriving DecidableEq

structure Plane5 where
  r0 : Row5
  r1 : Row5
  r2 : Row5
  r3 : Row5
  r4 : Row5
  deriving DecidableEq

structure Grid5 where
  p0 : Plane5
  p1 : Plane5
  p2 : Plane5
  p3 : Plane5
  p4 : Plane5
  deriving DecidableEq

/-- The all-zero row. -/
def z5 : Row5 := ⟨0, 0, 0, 0, 0⟩

/-- The all-zero plane. -/
def zP : Plane5 := ⟨z5, z5, z5, z5, z5⟩

/-- The zero-filled grid produced by `Initialize`. -/
def zeroG : Grid5 := ⟨zP, zP, zP, zP, zP⟩

/-- Diffuse one row (fixed y, z) given its y-neighbour rows `n`, `s` and its
z-neighbour rows `t` (z-1) and `b` (z+1); x-neighbours are taken inside the
row, with `0` beyond either end. -/
def rowF (c n s t b : Row5) : Row5 :=
  match c, n, s, t, b with
  | ⟨c0,c1,c2,c3,c4⟩, ⟨n0,n1,n2,n3,n4⟩, ⟨s0,s1,s2,s3,s4⟩,
    ⟨t0,t1,t2,t3,t4⟩, ⟨b0,b1,b2,b3,b4⟩ =>
    ⟨cellF c0 0 c1 n0 s0 b0 t0,
     cellF c1 c0 c2 n1 s1 b1 t1,
     cellF c2 c1 c3 n2 s2 b2 t2,
     cellF c3 c2 c4 n3 s3 b3 t3,
     cellF c4 c3 0 n4 s4 b4 t4⟩

/-- Diffuse one z-plane given the previous (`t`) and next (`b`) planes;
rows beyond the y-boundary contribute zeros. -/
def planeF (c t b : Plane5) : Plane5 :=
  match c, t, b with
  | ⟨r0,r1,r2,r3,r4⟩, ⟨t0,t1,t2,t3,t4⟩, ⟨b0,b1,b2,b3,b4⟩ =>
    ⟨rowF r0 z5 r1 t0 b0,
     rowF r1 r0 r2 t1 b1,
     rowF r2 r1 r3 t2 b2,
     rowF r3 r2 r4 t3 b3,
     rowF r4 r3 z5 t4 b4⟩

/-- One diffusion step (`RunDiffusionStep`) over the whole grid: every cell is
computed from the pre-step snapshot only; planes beyond the z-boundary
contribute zeros. -/
def diffuseG (g : Grid5) : Grid5 :=
  match g with
  | ⟨p0,p1,p2,p3,p4⟩ =>
    ⟨planeF p0 zP p1, planeF p1 p0 p2, planeF p2 p1 p3,
     planeF p3 p2 p4, planeF p4 p3 zP⟩

/-- Clamp to the concentration threshold `1e15`. -/
def capAt (v : Nat) : Nat := if fleP v cap15 then v else cap15

/-- Source injection `IncreaseConcentrationBy({{45,45,45}}, 4)`: the physical
point `(45,45,45)` lies in cell `(2,2,2)` of the `[-30,120]^3` grid; the
amount `4` is added there and the threshold applied. -/
def injectG (g : Grid5) : Grid5 :=
  match g with
  | ⟨p0,p1,⟨r0,r1,⟨a,b,c,d,e⟩,r3,r4⟩,p3,p4⟩ =>
    ⟨p0,p1,⟨r0,r1,⟨a,b,capAt (fadd c amount4),d,e⟩,r3,r4⟩,p3,p4⟩

/-- One iteration of the test's schedule: inject at the centre, then one
diffusion step (the interleaved `Update` call is a no-op on unchanged
dimensions, and the gradient does not feed back into the concentrations). -/
def leakStepG (g : Grid5) : Grid5 := diffuseG (injectG g)

/-- Run `k` iterations of the schedule. -/
def iterG : Nat → Grid5 → Grid5
  | 0, g => g
  | k + 1, g => iterG k (leakStepG g)

/-- The concentration field after the 100 iterations of the scenario. -/
def leakG : Grid5 := iterG 100 zeroG

/-- Row-major (x fastest) flattening of a row. -/
def rowL (r : Row5) : List Nat := [r.c0, r.c1, r.c2, r.c3, r.c4]

/-- Row-major flattening of a plane. -/
def planeL (p : Plane5) : List Nat :=
  rowL p.r0 ++ rowL p.r1 ++ rowL p.r2 ++ rowL p.r3 ++ rowL p.r4

/-- Row-major flattening of the grid: cell `(x,y,z)` is at index
`x + 5*y + 25*z`, as in the dense array of the specification. -/
def gridL (g : Grid5) : List Nat :=
  planeL g.p0 ++ planeL g.p1 ++ planeL g.p2 ++ planeL g.p3 ++ planeL g.p4

/-- Concentration of cell `(x,y,z)` (zero outside the grid). -/
def concAt (g : Grid5) (x y z : Nat) : Nat :=
  if x < 5 ∧ y < 5 ∧ z < 5 then (gridL g).getD (x + 5 * y + 25 * z) 0 else 0

/-! ## Gradient (`CalculateGradient`)

Interior cells use the central difference `(c[i+s] - c[i-s]) * gd` along each
axis (stride `s` ∈ {1, 5, 25}).  At a boundary cell the flat-array code reads
the element two *linear indices* inward over the same `2h` denominator — the
offset is `±2` for every axis, i.e. the x-stride — which is what the unit
test's boundary values pin down. -/

/-- Flat read with the open (zero) exterior for indices past the array. -/
def flatGet (c : List Nat) (i : Nat) : Nat := c.getD i 0

/-- One gradient component from flat index `i`, coordinate `w` along the axis,
interior stride `s`: central difference inside, `±2` one-sided at the ends. -/
def gradComp (c : List Nat) (i w s : Nat) : Nat :=
  if w = 0 then fmul (fsub (flatGet c (i + 2)) (flatGet c i)) gd
  else if w = 4 then fmul (fsub (flatGet c i) (flatGet c (i - 2))) gd
  else fmul (fsub (flatGet c (i + s)) (flatGet c (i - s))) gd

/-- The full gradient array: one `(gx, gy, gz)` triple per cell, freshly
computed from the current concentrations (never stale). -/
def gradL (c : List Nat) : List (Nat × Nat × Nat) :=
  (List.range 125).map fun i =>
    sN (i % 5) fun x => sN (i / 5 % 5) fun y => sN (i / 25) fun z =>
    (gradComp c i x 1, gradComp c i y 5, gradComp c i z 25)

/-- Gradient triple of cell `(x,y,z)` of a grid state. -/
def gradAt (g : Grid5) (x y z : Nat) : Nat × Nat × Nat :=
  (gradL (gridL g)).getD (x + 5 * y + 25 * z) (0, 0, 0)

/-- The gradient rule the specification states in §4.5: a central difference
per axis in which a missing neighbour (outside the grid) contributes the
sample `0`.  Kept separate to compare against `gradComp` above. -/
def gradSpecComp (c : List Nat) (x y z : Nat) (s : Nat) (w : Nat) : Nat :=
  fmul (fsub (if w + 1 < 5 then flatGet c (x + 5 * y + 25 * z + s) else 0)
             (if 1 ≤ w then flatGet c (x + 5 * y + 25 * z - s) else 0)) gd

/-! ## Growth to 7×7×7 (`CopyOldData` scenario)

The grid grows by one layer on each side of every axis; the old origin sits at
cell offset `(1,1,1)` of the new grid, old data is copied there and all new
cells are zero-filled. -/

/-- Concentrations after growing the 5×5×5 list to 7×7×7 with offset
`(1,1,1)`. -/
def grow7 (c : List Nat) : List Nat :=
  (List.range 343).map fun i =>
    sN (i % 7) fun x => sN (i / 7 % 7) fun y => sN (i / 49) fun z =>
    if 1 ≤ x ∧ x ≤ 5 ∧ 1 ≤ y ∧ y ≤ 5 ∧ 1 ≤ z ∧ z ≤ 5 then
      c.getD ((x - 1) + 5 * (y - 1) + 25 * (z - 1)) 0
    else 0

/-- Gradients after growing the 5×5×5 gradient array to 7×7×7 with offset
`(1,1,1)`. -/
def grow7V (c : List (Nat × Nat × Nat)) : List (Nat × Nat × Nat) :=
  (List.range 343).map fun i =>
    sN (i % 7) fun x => sN (i / 7 % 7) fun y => sN (i / 49) fun z =>
    if 1 ≤ x ∧ x ≤ 5 ∧ 1 ≤ y ∧ y ≤ 5 ∧ 1 ≤ z ∧ z ≤ 5 then
      c.getD ((x - 1) + 5 * (y - 1) + 25 * (z - 1)) (0, 0, 0)
    else (0, 0, 0)

/-! ## Decoding packed grid states

A whole 125-cell state is recorded as a single natural number, 66 bits per
cell in row-major order; `dec5` unpacks it.  The intermediate states of the
100-step scenario are recorded this way and verified one step at a time. -/

/-- Decode five cells (66 bits each) into a row. -/
def dRow (n : Nat) : Row5 :=
  sN (n % 73786976294838206464) fun a =>
  sN (n >>> 66 % 73786976294838206464) fun b =>
  sN (n >>> 132 % 73786976294838206464) fun c =>
  sN (n >>> 198 % 73786976294838206464) fun d =>
  sN (n >>> 264 % 73786976294838206464) fun e =>
  ⟨a, b, c, d, e⟩

/-- Decode five rows (330 bits each) into a plane. -/
def dPlane (n : Nat) : Plane5 :=
  sN (n % 2187250724783011924372502227117621365353169430893212436425770606409952999199375923223513177023053824) fun a =>
  sN (n >>> 330 % 2187250724783011924372502227117621365353169430893212436425770606409952999199375923223513177023053824) fun b =>
  sN (n >>> 660 % 2187250724783011924372502227117621365353169430893212436425770606409952999199375923223513177023053824) fun c =>
  sN (n >>> 990 % 2187250724783011924372502227117621365353169430893212436425770606409952999199375923223513177023053824) fun d =>
  sN (n >>> 1320 % 2187250724783011924372502227117621365353169430893212436425770606409952999199375923223513177023053824) fun e =>
  ⟨dRow a, dRow b, dRow c, dRow d, dRow e⟩

/-- Decode five planes (1650 bits each) into a grid state. -/
def dec5 (n : Nat) : Grid5 :=
  sN (n % 50060230569558135212431628928682526259691134039460815810331716074629761771557983390553818374167023440260324632212760613697929558751778013854201042351643901275191155815322032647169449125057132011174703395922737443048896632527613416545276681598247097983334656149637794735001607176471416597954362144309433769755744215523467898829493072622084478202646418184630056606675288227247150356732873355000701668655288707824182302925356048201426039442593915862206757472935450273141443127305575402191617601306624) fun a =>
  sN (n >>> 1650 % 50060230569558135212431628928682526259691134039460815810331716074629761771557983390553818374167023440260324632212760613697929558751778013854201042351643901275191155815322032647169449125057132011174703395922737443048896632527613416545276681598247097983334656149637794735001607176471416597954362144309433769755744215523467898829493072622084478202646418184630056606675288227247150356732873355000701668655288707824182302925356048201426039442593915862206757472935450273141443127305575402191617601306624) fun b =>
  sN (n >>> 3300 % 50060230569558135212431628928682526259691134039460815810331716074629761771557983390553818374167023440260324632212760613697929558751778013854201042351643901275191155815322032647169449125057132011174703395922737443048896632527613416545276681598247097983334656149637794735001607176471416597954362144309433769755744215523467898829493072622084478202646418184630056606675288227247150356732873355000701668655288707824182302925356048201426039442593915862206757472935450273141443127305575402191617601306624) fun c =>
  sN (n >>> 4950 % 50060230569558135212431628928682526259691134039460815810331716074629761771557983390553818374167023440260324632212760613697929558751778013854201042351643901275191155815322032647169449125057132011174703395922737443048896632527613416545276681598247097983334656149637794735001607176471416597954362144309433769755744215523467898829493072622084478202646418184630056606675288227247150356732873355000701668655288707824182302925356048201426039442593915862206757472935450273141443127305575402191617601306624) fun d =>
  sN (n >>> 6600) fun e =>
  ⟨dPlane a, dPlane b, dPlane c, dPlane d, dPlane e⟩

/-!  The packed intermediate states `W0, …, W100` of the scenario, and one
verified kernel step between each consecutive pair. -/

def W0 : Nat := 0

def W1 : Nat := 53935754185588132843302628106951008850910304280157751244852919974643193739893035469665195273295349744266302751000542309388985502421876189747457615347535614185801866803871805508537517433419993337508752233521874432402535152708336017943289461552653420094484363709176248864055874230741948771113248008053394237717829874146355250462800062296373757530885488480008343026140009362420713874269969667469608324836834455392524276957112511643904002551823644756288163366202884654024015821458583074082852733853910612211303005164383014460703240861507081496146075736508524236342265963376977598767716818273838439746905056866020605753307601991211098358715548391362432116054131152569729220929476410526052676802724822145720855878665405146153774240838657380218187857451123158413265221421960084035003093992101320422238632732399477555439773645036222977685023712276919970804438547255338432226593688165948663623982803103284927453442623436776666336566733617119408403575229417834375507408501050552203091930222293677399684133581753557185719364382948058804843837212802195606580060343815966338901421149292404803102916051578882521590005226408212830947517105458873163247913706102082775621054142441607633510048525986225798556920027051364337108224207039101220619303306929054180444090695754168184005741948404698659413864654899195082884504846690975690963031428156977202723878395693861451129781387836975869272727255769133100393068671815577234853341202095724410097506415572455205701881253542947991912232037443071355962277932441214554034240408654052132288164989414424987346370176349963885969352798003614351321403791545374604305628593326234088274579636892364868117090614725490569123475947329029033188403420592416194516382198146674201943554767026349219653412099675590581660105787873458913280

def W2 : Nat := 2676514437652003394873706660770688486627659099343012416935281962729479018477006938054071480626288078394035608837713092148659770770807434809954557388515913027714706858090602642459583358479711746223035070032396498015186264143901365309027284164050599063437140475047499418594391288347831995290503873309973531411746666727435308810407229535272845895255820802341273883017030863458004063236494971742469993437426612569021058649555689558979675212087840783259802016981888287864265508269477555793974250056204246082537641058467407396299977462778802721788181785427896637089894708174305309973701607080158446538356289371016070491324055729333528923655279576728393225474892985900670397446474935681983790715246582907289612481585006506706355348490845914380373270317025149107379341118007505845139456224833051339504455202236796448288886648786495788535667036306261656950068089981863687786314034537307090348503462990082584449586980159624151727291273823942577464047861557059156855233184083190521285753087950035487966783912523775129033088939770728571289019395570876049644276662849300113815369823274485053313974628340198678159084500873170776034069339131987662500123968646778482280753945601301515065463198419664179999222466292860992842300705704882407953059520882551012849876768703566222889645108245483246569161602270129052834024039262817696049922672026313849038933467710039164825251057137617643219280743384768854203799218243169809188580490258288168504597637519947785081071996623584834902403342209377893532981594719576453300059309727664860235361657699739525992039085365554558579398737996799385882863634822590494313491129081624381433691350098185316361664023591359195854773179865569488281099108228193835692713035592415857125797545191881287506099732873380609256019268712989685526554247285128165951539158527083396011505874771515817973972223233896108785354936824343275252838868680616971054536004002402265352909178815557762425765747115003593643769352248001985005410666219766960684242250506687179279608907623408429156683770206325289300952831338714481173127302192881039880787727155535638817329974870150466604240890407518733248626151898033811785929367014762498495664282219985705415876637842151196955605765327209054438180624488456213531578106828078897854395458400402193803492001316864

def W3 : Nat := 5816636069302688829383187381673167806307226061216585412755459553013170836318886853347027242303758215360950835729529864004932837860535117410936495555728714542312739879166102201396985235361819532803427692104995105306391726504350504158680970890198765240099361970108034268553896790472322741922641182228144334478380473949973193250805510180538118123950705701343455513958105227056213747885299597588254172082566802720952796671470578369189408843271841218397137772118392191240304691809054195296850592067180201780867287746903630491322044621151579288048166306600751858695833208456582602038132272891131226912478328789114735588328971167277383589583210114637934570018681781271016275655892702451623318569431439768968412339484862870687268880938446319744485990468127387175549024297132287849481035707153999876763831559095650653660464073308590354229968616843440065759901952908524491284927411744498398552449585217006525258117926464256836434208358288139519973600778461421780438557578159827178148824153655408031081255530759097323852682344552930354167942270035825414131787287568438519379991807794409119350541515368215002013333797786767941762080968871471542906569855919741986605704356890428020892383322869404276642210400922666395182700827520104002082004886686919620983168003320438867344113540117262265775820184613671097766276932851333438388724184423304456325265049296412585497867981783019070740411783157858929215126916622927093534250934549542344853900882971046805002520701399488315099576335155002663454675766082564087386807979930813366777081682008391759722575648061868461250877390724641338657758342707008569162369932812932951780312607038652546745239509364673082301678258553523953996722804774510769930237606151315785517596783107362325323032387204755683894309471672370902347689893062174565933981893413085120477317861364562027799747546084722403814822929609051010682179048665512143574369446560235982005304982498605394450860699678648329485105813603220966410283158862945474249462247849005000668879878069482281750831795071323430712167874268546958340418738380220839858400864982321623891214363187880326320101497231312257703186845501674874637919865599365177294206907599401093909804963004236205497872488719867765597065538780827101858978938056154286136795597328363630189917541557688974522696221143988373385861503821101349872138115506487809372455868106558124058120650691818515595264

def W4 : Nat := 12638283654278570681542464516964064113811103093288059294334566144699198255764417447955386019590339871844855859211282300166433005938015267749044361678326917534586472815549473386945424221235957666777233740910000099910763086259332548042248765548952147350256343438920485619903587363475714777210598142053402063631657401555703098845020078213650674893743287304021846624721550379179998856787716605871496812909676136474590601406184410000347660323353864244536801653274499618974362276699099942963442646301499692261688287054485776597448043394585748469893864551079240931570896952301502186176144893538238863007752488344194459505327008641668374420616604581595805218306175606828763927526298088988926413328641408189967119224205159960894275299121018920923835494509998280629124424152054040583973722643581646493492653077682276242170304549791357009229133371109877688696310888483893179687724119843725016874032621439629830201618677514667452037802794382241985979239257719624608902098000510295168674059759856263694657583098555028748264135651248589719794163375146311981290483493228557428524788284819159246320743374791112511432141597369993146328368069222040808608952860491541982203107570180543416531764998864684164922084985944032936465449836579355118066587188431052911698659046005758440042855550082385437839597083958423328264512651055971081043439995383109670729837508556144261779644615564110651891610283114167859220951817702770656934995660447534964391351285300849210091313137404238813293806279145799654648578967840568149957303109263751559012964831798545749989069583894967765819259896725520095599235957708390294950466507295613900052124671258551400162478353233544910739096048824588995951871037206724576357013238099117011752398583326192458398175759534048582317072060574649117224317905558559939553145054905020487287877783187725534799836580311440865294257602310596096522081777741174666843358040065405272326374055094406181888008423350173437153794196229317074769484063635203302362232804482166596969075314784979650163958455851690808304349817213642593955663701373136325705978037633784576575111957967832858114476255738135203696829380353217153176487347759635915671577644012755972124067901390554592927656514548031562980266328345127470486813031845114911356289600720236626541511104099062377036442637175918497439543440080179588579972604254157290633756542816296910675812284622136710235629436369478685621781603678481026484912523795360421873391483029601233050887321540415184616217810829312

def W5 : Nat := 930291974110906703789233430841238583708350347262074892991634296484685210493739690551327869573034992101960679493073725627602222176033423605995311218108226652441108705492962546692196972075393102341594133802800446049111117475542712002274340183872502487693397722814498719393524522329677336560871940707797024103337493418050912276702434067248101332012623717435683693812202133295594742539765279674621981143646492683552354014312367037327434978460526435769553371486688680718773297598113348739948192998537665889372695075197337096222908452656217334988598550689893080859385387538649721697602453357280912146087177708233257861337511319688924168768121060727116699456179778498122244787233431969087487956056808355684636494235975233986644088000058982966968523332722608349836089502782630893936290812033385326298743868572232898635326245150080629212599100303973719928988222912325865098285608023857988739318924409814081972072335949515456545431587580775679664161439677130665957508710890534049268344895801159842290359748168096316669723109992249444686301517630201819413619192663716892142554074224775788420680451192645759472192246421221402168009218057952438497612625218667484338477762861471571667140172842436979800219559847239828682665655684380942690705239538297845885736590008056668629729967515807181405048252912902910282820235963958366170387799726667730177330801709601049774820408933688295481224124069967087610736063203231208129217809730239672059302648590472723103894501486922336756924917757377595520067582121855923996053288289455558568671928064661416280911494227151145656008311065519815334389411733633190949513623540745516625527708236298784811908144068031402754319921209946615579316354265190376152833236924450933784005419818635423554922228712377122917114854469531340531479647012488364744352918661940889243786195073121739117682460995969556835736142914801309710329276240879529140794510687583594445906685084399383661156777063220743005873897224262878621264050007840617213495745120884387621167377847907251736503408498994937701394687536934148762032407561795350680903117480984227266098057568948550580332892969291425400891108314283867240259163677064591906925663494243748684487204125865554850625086327408660455294337343880014085767797422115048561496680132644800604616989591443404964662149603564537359281213923086499505956196092830594419617609446421003979364331552074019161974541474089211381137509869235378451164224477256999559247906937767648076935031316768457286248073314569156790114804725448704

def W6 : Nat := 68331445448087897417752488535590173343857211002730216210315350028102866809670328732183083232259976160510720295796400081035607952996163491153784256149526988727240439646111884973651783932156443250141980760207292674247410582834450990691756196501703224578987495589855409009754080007035370451595786581527248589212612035635116229019042707018291498890172493905608766754531370542235820996171905695199191595806863627259377180414119540533430685810833141097699887388545246235267959562437382501569364441933838479410804744463405815352305959395795568039353362537663771469431290057268179085269833523018482202305740745090514126131972737461439495807061232776432844111742666050848434978062985720239999659556820178306626836359235445313021684252972542655145737219577050801985033674228940339430987845639537410150546382487329336337464811433316867773479872188446264204740777927702918165548548935698658003658966651830643816635600812046164397580652565105910797973382534416756389960652559661793649067786890856499846072905353886522649350349387161440624378924276345310772841362332548209797250814248676037175750373002186483742186388122821122682620568263620383198943910905929244562619963820970963764195634177158657293787829776723949495317441290333872343212851633885621290336642821108321601934089865512658865311526658408359679976824332592641380028585872254175755067617266787223709081352034713028090490286638767616568726972431793794316453146767901052770781015148852601118064003943519192352856096511574357769372117568609678965370067628238570057399060411680500754564320143372423049264202918486295441923053971476047976984661684490578900353029894966965216036829540766946350098626457117214668094039372143220510958509649953684704555140392659257926941912588776063528641562299483526184564291732983652514343150450618788282162667629428188919262710955339094142615146663791237589912214733289972915604795632277034641693692742880732398221970437946769918986488569366969232151051089350343180733254733091463451637650697064790298828314462216487903978585962964991977379612848720280194499327998854923534783957295977733912030001722807246317981480185709609872960380867938819832650603156490949930233885100517555234194694735379597869453804728030112095571510363015114407015785640389880042766998857188288894428958871515397285397442253878959930537142649674142513351723793742154836414164080326213414524944086900415846256667027871744743819161219989044633131992784454313046508776512247082558885613382897206513631899887088501679629449687168157861

def W7 : Nat := 68644425458367940913389932481456877901532394344992958860602107010300514759262475989122330266828642011515124973098101664381540348387075914500879478279590079760057085751324908214866518094413418576791184377889126169128356133884118662658468248719536296614913970595571804729930855044639187745657493047330360288458387648893759205942768984574160305863206020135443690513042515168135731666089439064524683492378916632512292875093609236789079988205452116194665667751540718118676590237324548213157739968330217069791384050833778473018093363304248316019682756703911019838162764175040124515038017707922215444733401196933377649999795185206937783834432910825049018010593749229310633141297432491026600034826513856105457172077644617055947585458503789868497947811086486335184175327921344743553421770351585246068033341865221257627893839906933039150550177986221182397193505369328967812194478921389394744669764206099722012375874633638752105282384909647320849805117746054039090394385117489548614638368620399984979789783359865056998493303862916795808906019829591095658945104622315836326618485772621937307504339228693729915178212735074817126318301010290301740070068169040640663892869294158773989456420681298418627572945131265564013594020233338854465412850321437070883022339225810570146775408873640380581546976347031045898720919766083733532757779496707651903756165445731613674517366222385710660647908648887184278488852419436651950705988130167984171443835570065033646156633751671176673219104517133822459701700045228546002570789877420265575692246461012936082775714692887876909502900419530112189150361248314286082200716527451748646017880446733918439753250603575151232394041358691548825989021441204520694782673259214712237388921522836187606218058763242291021134026487533180964706410888341344926809082347644398805466432669495142277275260923752936086540932024384001139145111881301922631933735089969130996840949131716211568604412459726387452887108302734997079764539878048263621088165374283764166765163773696453925836243312363450397031141820826516616430308986586636366566422091543510807667050529585478112691651781502738686322758600839662096725264866795698211283720985870562873146692304162059289776368270558154420399702615167894492134987758658369729126193971246776481574606209092197401227759544864858514331939992584750387245396778208964114296316008181904418521689183537739357733471785706211634892640619149793385477623406734953353312792757799518881421732648859094407328060311158825731515819462039243521337707564814106223

def W8 : Nat := 68944819648650410853922784683169153530644335663072998366234897576490881483176404661071271908916708092957207125825555519930821057068796542449102703826107613351569188387112023709179262152247314404790494788294542923436327877072403887935044785025978416983677401366938682942634576291069032353221241980215166757412180346359071375520686061084730099030253476205777646393339081255445615021303991631972173362061057982984476982707997583301307300320439156101745041825471574155921117625557874208953671219781129142650532258324547988319413438357789367814243475423308554347429068412430477942657972090447923198945705588041209676871032734997496834307192503992644384942119111044281066060817891096637994328948228780910397920699030060412295232903090586809399986025929021593066572531247603387217921491219097498606164029618116029521107751383605011893563518973038488112706399775836306299003196703076025317727858377244715881151621925904563842643630204100067650407435210439407779707021389117916049252354629820174444726201299773730965918068838209570015750051232058117997590729208882933006777333247091381288301066441354456744650206424576761089877420463170411217413613467407863075895393581918738733857687767439241196087491159437589011076485749288197494322245625065802097310057198206510276868856724895352416296900423432742493184321252732252737448469217376927800122752626891684032385332879812964163927960706199899929533428544837645078386834164437894842219779240505561010233297305876657071823689518962930609459448266571037427960642325411975370844887111740124238007364441702247600750772465836993350248825119133227582782575707031017296438117893324070689607140014000649161179571852126858494537758197499547766932112021881582170853273523328584424530885195812287352399178792173158082002141992652180256167110979830231548309135735612982661054171191146126873785109363219640054225853462490218331960006466381452263665112000438471255596770747975977232164010903196114281297090037225377252933030591981897072435441429711913317335769871190518378816359629952576008578066058532693510641096168299089618414100704188676609656368051067058026329760538330609163193376803458833818417025418481171787000481548422788663352139445908110412653620436013968270087784759377572099384055314945334374772357128283101409327720648069832075033391118648567387401580470386151103719563327293956278027324986369666148107224169344872043521416447678216329746118239789101253592804840971804539868090197068660501321023635471568673707831048009294423742856007329064504

def W9 : Nat := 69100617433690566056444092395499194301369675818052454605739087944924190930094129991025652613801452291392618714399722167059048718359569644277833333191388838409842495412830839134091735302621744513026669444940587532585340591143299123165543714922332698042930937937582762821727283313041806186510585350381215752028887499603919824958359828300742615884322904007499020575322334602405338928405882830961465448210238538839118598650344435816941552882126732421668889065611144695445272280659415028472885313543154317158639301267371594117190023342155800281667706699076160924950533357477355806143426345977715927827891976907249435133223985465604903057339805415355539629691321290725579581292159667423894545986777107740741606160425217720760162739206054108556314308349516347579952098348731420790544248337251151743652838220211181864102319758537891281889656147360407570466001379421015020772992581057531627852069688659727117503500104649261478377847055639760868201020443065180885331157159844233401379868380305635050530311919077316670310907337712252180492446825800244515920712445384210348310168437607457314421487429165102083896772504365556056853987207220315613176126415824809823596866362663498279241137620402542567237722006001966052133832691686932526452945867916516947884005398761464823138929119403433112388003361388997355411697388012214170273679231864987370057761509924011944758600128031076366723511185868919460153780232601400032650610953346842526576167148738950011982319120375642354162157965125079836514954647205314742410908952321034792397059023756400403396074875565071381336495240949714746913035423177035491649713743802879150400059777827080547400750061159246762322939009300278448068951333509171917205262113853071303174739164181609703470414071560089520039228238436531508797004504948428372835632826235424164538623219902008530308524819523498990805540092836758686212322181373952391536699155385421808777038659641246432988969179852957579474007386262484111465827553827203072377433983683990460951644377507083283079208633025183886905464571302574410575843099192200068527679013779645471049094863012276851512234979259313833746216392149774569812352997896859077710167693195772968848941267679263650957876409813083654221972911416358539300274263555783129192636046898635118037421521943601680044736549061424115532707594301816096295084179572376795331369033967616975033083142853066780985328871098015217261194539117757768859952815713317397339263729246520399538618607915935288749719960853235677004617965999951221350711755230696413

def W10 : Nat := 69252775101502212519394789228649515945234582849122822354552741700874400845779095793390536133741488969178134733420546774238033863914244483145988592721796240690965141659466626842539402492753536243281006786191070416448911416176618996826085111113932044699276040031702055609943319567977234353180007223158278569186624219986539047496929452520051752890754365065299170487571894491918799093234665562945063916369844063825332152019156359245999471158112604797179996220138358143376721777822104483789001856012740915774205004409779696261832786666965357370915036328180437962787205065000309960466705398405493911793071615340989610167505387536942257302204708773666325511385061881427340605953337408637637169651291995811562265712770716382613317484229826750410619903518996762249381606398778609823450311331441206430400069575164421674798002324461979734802748307660432081051231668185034278090357992826122038707384225119125429008488733109937996432963106474998087975062809690443591761314304821818960662275811769419870811143701019025102039424507140813515723813576914604231271059969133977102278740724935435792274618118134159276781512759559556578526194270916050245107242888801396991541779602485456270308508797619222944624734573015833140758530998137837411657983066785730298383053503720183372852189783537464632937267652682672334028606497592471896109631282512003175766609590534428393584562129063499275136013257656457081116073864693342299142901394637410620683044705659319449029036669601826557960887756881660535458000030032100963217680716497346953765735550349024199225575120689797710890671234617273231658701309916245070211742815600592943222859873490245707776735458179519553543492932370483547461902258822611160474231332631047523096330151074645824631606587008776591903789505565351249998701663474491323465912401309464115907816204576666497527540583205935633133499404615067423698665643232619427373653833696435958239880268051805415606264284684644350003471523313547863117876821760144239142381142679415871175777214524787495585167254905868827551341739455197392269607187865917934731043907938695091693558732345484039189534375580773850120942624505204978266518459346062816980049893017643261546376023279427758258951097198417660747004032519111541708921664410492461476657146893274585402717114411257908088976254818758666514099116398956479954782251965848102467953478643111390182907701480996243467879884376118301384996238945189242404967737530382039883147017753901651731513945693909015575592858691487452908949090543552313439391498835468334

def W11 : Nat := 69266049332733074414912128344249700954470426592500436895337934048629548623752481057468043935690654636777031814237920808051127963550067403465985008451589674190642609644902176234985695922042263715868221489920119441056400851956735619959183581097804837012917978943152587956089565728981784728433678043046869220101488342320262223719520862903363403959397448363250120057524345856765997161872226756339530881505730835438176233550205475379593542164107037976597209517252499844359450436799556354844916101426078237722394369082454498318630703647622029809972265971161646325971187516053809260904634265160559927685056942153695936220268888470908532028336878605472797432455089467297996230178793247859008788433614801971665976674315786882184867564416008348028170202616549881532180285154529176386322052405996021513458461618946374962519838872110476059905981545966260161508785459485263358535125428308359713309165738643549730486620714377597535350863309511857163337336038636802392487848953678923627661053194835408910965562034185652699600200671788738521757669389992671081567541275708041344104426079220424483557796605364758413532485209182021102212572910763888418809272927129226836548362185178158957179352870280888659466294475602957445019213854986283796018730623389784730071139288550463186745389090207516647199570516412083369251280766823376536006765844599296730109920897706045795171585665689583158524578781513370415473341655007417152889236965582011129459997393334353833644505911631382508665952507452640183485693867991505474091832584011317171629303449068415008661457274342789896652852802895186076680090566404996645224729530200391312527618525146779545391574140645458659364940118813748365589441360558530253090295844003764409288047784307944356495680026022103751398707943081173728955267703020697129468904710038066187256732092333794612517260905516250161767901853199713224840090081987378958080437741197005218163084526094365193822707418980388625772335536467409628404702105132008996404503648485927521424025799399550165536219127279939577013417026327598545724697495384750982177682907626399498724110391933325672793140592252231646617127963843750225102227108594568205905921138692582775039972787675944184090340144408515397607867043384285971916280749733992303598675436841120767991331695200966344977915506341894538790647648726407374543522534098642183128440562151894283795388167093269073145887820165835422160543596088068535401776660642317105319961318438470691765291495141636024847348370753051295193779591825134885186848545609664264

def W12 : Nat := 69411496872085040262013747584608053742390723722346747895419067644570033557204157857268510028795366853943086301915708493524173496198834488610196829081814056283645768289710814464827203675443055204737639361081386913608488442756730751210844998342032432065052964731224141149887852208940158365571215085117402250767786108671276199604717077166262053280975074190043705487152359093203859052343349253773857777493227195978953367512939903180747525290455549527088247001103569207353990174841733173546080339985499832499310606617506516159023248992128853952245210828325319949265911677448334286464478199932999790466161790050839789334598713715897508484193979646394487674639562390201507299583905185406548218297575316507206438590995440715701142584129894888602127789748882570531808714336989414876918507772553439712844215777835359623150877064507734648530738806517075836556629243534585897412191395609985532312755983136703060528600835074102539418564826960797823650630981538933516372885245564189367858369353122303296494226013540988128445398806521000392271396854184217595339742045700697731409653581234559742658363728619496826958713311864225688920063666248804847878614338978646629092018521456847883996276537807448879908840371836281735256333751973368471353169323125013377111330846710578025867109241282862532143280083475336711850154660134584596987207416519938120737614965779736362720432429725532297564940760051917043290817150356618679097992994773424079002639669930221317086840439379959623572474745443165312763368314535215650494479297446573342314292834435184519671650687481374076767260146016059218347648455336679924698963514638226345735894051427083821518847444030197666553705633660037109075601469643378989299673895079915332516564529930172837509915005550136790590680144208057012178676062355592889463500537456204682692795101747480374597643694337473118077040331449989661222085760826204012308867206380185591515373487648104310563539971881092814934248239060937002121454434020331087233589414561861220503464525179104890550484592060892243617779224993811102968418665912276445614359402503173590456341355179903189788122241873913534190159690541577741943601351013082027889689818661603522247613950222893998397386389477923398907017636740736622326169230579080891458827957211436440739428313751178560596430490717222860076433914209319910899933154631650000024722968414761973238939593683562644917659631981717905671606782671521963425438996446062913208077604152419579480693347180969498547653293117362435269322285098401200363990972788195645

def W13 : Nat := 69422109718625839103007548348200836829613187959244566957320624143938148445028120542745925154521162982100308547602799819117581563370437829155346935587836158677351828137788713724567089325340382058187286157399601309782265109430006352785528543106227835358788716823610608521561884714794279531890070149143423754142376869169474134140399429810513037713864574700128655468097665753111598367049767050764362655761688541166221421462210125858858660284062557719548689162707681882037397946750903847627978809567661671727266615576221990745810629332680737658336280853686074415461686463938656817361836874647877271752641752252336561147448301024289959447926245210257220707584007181230667300872250216512572963427979197599258033790580600958685375694489229545874158755044040823354363959020054122721238036537886343646033569082591657898728329301479653573396399121823081027049333369754921219304307051946299487701567943335605167688377231388710489888523277125935677767625295866885055546371266884715000411235715760038487107030675322513611377177011659511227193943759303686861712951387114146556372199585812088988811021147946793344829804443183084373009498363851888420275307899425548335263512680762652348830762406645314085676908419137528934041983085050127499349239327870027244671281888686149199915693704034897046033910096779104316974463156853268020950408590799645803689248811808751089073121369698980707634619115013679051842233515863306564618313556372471941057101891286150087007071862624782599203395952920949607182029640971506126780240560964492568543277031561007961281361756287676790761000316213895053477376429742229009559282722772115559411902857237195512395830874554277041816658342066959027115879778656371071291415184427463937995255505342661983709132274863210064815951974017118563274830798866116257991411169030038585696080197104251291298657623424876252519620271701524354891095539618582247369331863820484755930847241931146686202645763127421751709737905093428563815783855621987997783295367191255299269741895262818574619969461189537349532019794704231354317424425978096705487211350875367725446886242922898252617231933700172441006779874392679816098262024337702844442417446622941111852687386583032026730636994165185281118324744936249543387309894046544709140146214189794264894571626081491085873855466861893909497536241658208112007581555575613976603730199710484103002230528039048379090157642687364500814352938294916013604895268162133321886475549471764244134130704266340248957676844307162654455048182352416284377613230657700008

def W14 : Nat := 69563849877222930119375739187176425428750583254997060324116585087980742738154804036350002879868174221416835898726367099190899258239234874381602156291415805768626783353937109792568384598671047234689291243073685012637911789038617828722081017963698288358177409941237127658408630222079343301770950640721840955216083035264661094800842391587586479354900942164444986482189893643433866605566098205067625256098582566317288766645580208700723081250245776754637199248083564200121016851976251033989134266676000237633028822303179889581122260719616552810756957781040031683795853987839878509658228847973389747521795996813521602458793656509181719815898193194493266943774175598199569484992659025334947945600572344563716116856760887226856244699374531636910041996993475658670535238847100149330222929020639999376646543415974555602491983231990879502985855004852072060691722356630335660551824376559404880009711884976626213931785688057192238349924470366465246600312479960855095891182851272180105549167869292549714437827113821485613558497440036815055131512332532203419613145485013740973128385151520759562917869989979567851780474673999027245246693023621481389673355083138952178175480746040842443396769167226107025262738148956975899276032853317386578196464451867236016626168883688237266836973399680537987574054141004603873359995344325254726231522313554575291076537005593002566312266010399015829083400227694431920085375753916870778228868216637959570499756487898742069771108485436703218219624754916716510848198295241694143039463265416867524868424443316885161527118019661770439216237044694546317522588526366718937019614937342714624632485764817787641054020102499695438332204840578730809531941878337732653497625415602786751477420534506862799625755183947994390301845830420674992134280948605032437746060306684136411849821637818151887195144815561318926208084359450890348164118741435006381454682947763729119142505374701654691979736262788474835525841183045145200449547907441023983989746587316089939882752545180385318256765318959392268847840475667938202999439260619622811830728773319854305481708309587494049068705313740438813724551412537257362148122483531441639702234132629184950768936956724346470400775713050904574938959641116765192324954882351628926083093847054419636372128274920317416536194018991643121565629319607832894449669201452515288632172214651135689049487466352515473246186565417240440076712800200525553664322517573360922004291519663210840183824945953187696159067398610606341653432928569033186690266114643866729

def W15 : Nat := 69570874982592951053747416496325386388406623120467585674991135420654561177239443558699635676985952930676923715788501565651881074699989514744571400712717008922538995375549609622486242884756556543399092864598358485949076406864228245975980615541667879418220554902305743038281012286927681637006371722163632833708608469794829404845032614669461832302892063539935661409189916407622207547987191428184086994426760346693028910220514637037452164702405427400067145759497413236185948536097742536909947983318257386827147927383311654355223579451598728556109153870341936466436450579912042274009653109178354545424389711596162393528762237204578703815704442476749222476887836755529678495889869868347090605258970501705248445445279815900172146523735061387747050139186595784887816099614263044838609317556501176605698592839221864110378159277378825190088768966997958778866325978063860367182682135567103653679428364290384995906020162109292126407574887971979894549583783112002993044473106842332757422717955401420014957490044365476431135902557221110090627517816694385161103789452264176783406050311776976910370867572466676943603037451409518122787446131977183884220647540468589880596017550074906787359110766642286513845950047931613745870869860532016033498680054670837372867020107440217568755410057723322724891049122909315926571967985166082228158583956746258644219609486419271390860020995889285255422568368529808018681467300906280339987802767695884925804774463315246413575366100184462855451046353980024231989731199712765848696996565446250141094265735495604059374345347750847387281584591743142471341160684760031693861317837819404696294616937908160224543359164277073157322974757236773544965475887425938691521389077199772804744898398692300821149053065795513929815435021396614466877008236966422521807960676215998181008172440801446979094499387134438806154256119292843553006659433097180126500501210513477918749828350579056473364212879037081031952799204633632358779484531884092447090019675063867400661489718663837371816786418501789636179075886864875334564026468991750437054581019441688528130675389364419843172967712681142410222349098906668603454580463998088677255464103544851140139120641575408566476636223918285118434148598002959237810787534418193923668649284973615778510374645566304187001926647897486147994409278458959626638257455933717810110603816016843819677242377079890789685623863800652267284097424498067617881297889860591014571491026571811474621548498778610428299694455144048385485293254665666488312233812278310340

def W16 : Nat := 69712625562808467975991038115678091311219088123950841176364346832849484168732810879466783190998273571453662147802238585181817414603626796552105737902837059924338898392449614416277171933177918563525048408372706211135912371062510704008092804436062298102117358590928841819405413547833245124320946507870337233617098575909880242563995628725570593878473196673489147689579847092260863936737137440261752266348422561406353014671902684854656783136964191662331512737317084800364250969592250174671313772199457115606112562969186177217772757962806449591615442868830421465599259083766027016276860054116122339800454350238085729928408417806818272841201202099870882686475985039186767225623318333755867905942605137836538902370738012735611701810278006589300251938279734370389328781360679072995425446454194219189254010861036759970265412736627823950667941578083934182336063793060645440016657672559480407317390623396026646215190367566573318248720209586542471490562098190505847231934730369172516720711910672437788020010665126912029396345530499964080010378294824207860432038449891989167927329592653880721847062213726124164636031248774892886944843624011004685060632397509536530189098155321372777306778151252052509574313152365719851032780088309979883006064645790076657476956862184777805682000387814146122634524504150870928114202358832225070650472993843273653346258098785937173033545893969095314590778634313515545636398212039774444630788955808109789997821111055622102842841695390651053553722808014508263418091487322419750748293819623685107697326000565941531182580156698879522451681448084248195931717435236028505665269794708504800888187468471396378929550049705390765858221614728853555221781166110100020633991992190036060310771648066180619922948067609652640468785181883756042134652624526169416116308829901633069792270959185014662820181985734694861903320023516446630256879969613513353355260493807603421657199531854775495642291123012853529333240556484749904863589856766709313064649579813227865919216373621825315288288294902163617424189952645281978545172727942103725059587476413425924855654320400415977460809665604802698893807232741474491473438901876470784704711332058150625457386249589269685582384033997568776144572443158981545774527553842485181148854889485877687318249247875327198174195097802000343173938564201760446958250664914027315586089593630725787931092834328386813187345687660647348039526248257507237178198832741339696766428336770396293424973197218308993854097465102981898251119011467205462559364427654750075

def W17 : Nat := 69716760150012832118515373277157786087652645929151863331342007351088745565207816323929237824415600795156873616938703072449190598107898971853647434844484537456830354106135371000824877462238208540703071364375041114770820390966766454307699108275571351043490545368615961281273086780357301595323974222744831487362527702290187674607746244944231751991594577495013551131962682913531823021330451773980665015151830858187001238101017871462873920923650597854246159904911343480079550437125805530783588448998061428224063749260709071965834466786149672203006647468395378140962120160830421993195164794972080237336561339979440093949271633641848956524681784948429398106190996566359823711738459822562114922341412449973662273406422926048405719394800672360943816622435327314671543745285659479934642021898162135718687506833442986631116066208768390160646623245674872358040984039956609657564115839705875147846705656936006450669558392417258641901127937351798069210779181483841755026150278474429481615344615592458128526915322514347583376658351910487662521106279268302835315361674834911323205975947133247767613414416110057693126026489492262612905624070895227186349393570409981667577002253827428491763399107933282065674927427583894365487166580527893179879922211986274908052407263359125933480175678104415751513068173561014740985813473414912228952966365964659126947570645099844077410438520435519721441227772166357763993458959563175333757561618028498819507858097584868205548883239490988909529336411241096383149021639635883558864057561389159526572666437142833913777386115117553133978326069141537374614424943059349109749718266617146024772447356822405901836725186474737844015543033960456338604485069103810220603126640962919863130794774531404916704713754011185434909784286756119317176852862502671513260789985707161034956244923166670063046538596910751580119234106942717334746594402077178634696112959677869167066242374495341752533502153042999257180963435878082577770409371552733327022211884632979901289420395296371464953832069074643582881748681594605385455447832189563221950432073770179381076707618216707183350620075533785549290469380623442428166848822923535959749266447453847995079730937521698871023904543256813702618057243988854050173389011746127611601478462006896454100449463140479967901745440319738905662401010429453372168262695036009351138190733089988221889898069568109686087661564591726880536258533836923687660521756239072114963454712744689754278114021589119778744198426114554147873584985994116815401571720503192555

def W18 : Nat := 69721109677919995371690582891028239365423114148267527078954982308266659361027325901584148069049584312407090202072591064733726489062970492117654650102922442681325092353225001440406945255364342642965019344669710137371830545531003514595826462338656569355671516882925102051963714331607922036878989758414626174434239583283788717509903879874256339353157725442812214020975685890609439467754579403289525430889293497630010314501669866766047145673895846086912438877416733982083642153851256340942391591416856467663529856995736404992640765320544404198402034882204622092503741412105100502701695730157614131568419491693285788912699623447537980215597207044841567264717955774592909460279768481555943639558372239107399966363373095155694999192760824936351610910688362562770748667485791331439105751528383745700314249598911330357819456595398401507213330359078237910648820705311944708835473404224147037485945485171679960556531253430175319854440679672908514063385079782360796848190887698705478716417714222614171140316286301340795424615233795703559528905081080563749589063641362517138836267883011152623896768572162745878540219387740917628363971991462990992030530292153525087262068840926090808095742442819440270849375679926264390346930600441282308646203337448886325948064161384300518327858003440419330946237721529490260749130283981205768089935976993973124087125082339173120262982409998460645593914326008027537027093979935536150433300944848089025387767005370436761436541556228318940748700243383661080769043190269256686400228816417576652846163284638700573004950744575446121313265726561160199396556724122797246729300737942122338259195721440007869140181089458492716186955780557218205130574695573845195365659570855863256547893442375301419747346634364508733708847372604866289274169141907516460488979101196473188660945399157094879089319062188403736893664282997007138555155301316840698230196110641378104889213081331498736894469170864901088401587723515994789567526773476534663719951720481467116828026271515643808815875978611756342751239124052640944581202142542844742678999585391906995352385429044112073814561190160489769459470159352833642778490091710556207145160027134099157869326529895799102764512966462555761061139155729584495276822324672922578509994747818297581344920561840243468106964104167413190772657522057031262160963591511726876523612757177659655189002987700705452706078073236576835488309242473271461893926503752394879815249989761605409013798405038501052133133998907774185372026740774261766720213543010205199

def W19 : Nat := 69725613600786206555475168731969625232076403312863562148613075265586857301216086143830681240670507130021063811938289134533165131360609670024777880480683994001753394929406331546203159050247765632853583103111542349818753241861173996753357785482617800389572222666621589956445989758591591289622150341656445091982666104003615378800954892240525046172821194619326655025795183319250812210221975281139008507255685419090405937263876772343369941597701944494430911578674261875461076996368226638605870366083440529100200700532367461955018201645305158615486408120693101287077692570616841079083552600076535102771733206414155010520613744979971057070349122871344710819200058337160199332257045053304156724587435308797629005205737509768244658464605745197485496761232791737685982587151636373549244846178384837498004537880721362415618238808400799762964056822434248990014294113145173320318656583535825687512818914936935693629177453946168688309414585582929163832646951860243149029429746238773786885938920833988165016363276809337378376363322469929657181299406602480038260612913557871002234412068414452519321770698077685953748497124707094188117625247621122307963002849108763671789625042869916580494298455916422257901252778061847656390031607392910420826854096224692507922650371694566287305999837656378335701340267142224753757763759773977088756963446643474339548870349043026419589615329592837819839548761288801295882699330412646560757681810362016890987122697541994001666600778361143880718419451221311850600926643881269709914472342633747737972195559894342929883703333648392237777533852004807630674604225085906399614234161416408231257759528649236378178940781952943175681400035883301947838170961941640589604867788997227256538132873880501484045323538537966827812213770072751402111183836972877517154820850298707374863761525249063073731971221183090436263961122215002889738568224069134887900028707099947607755126357651756814754715118269482416891562848324792400432185619869337643086110724346896421100160155325859597462136916723880677704641550593537810981809426422011607298541450887475125634801145826780781143671648902674073963457261406364633912512417867589913855029215511400516601846569618649429071552217681235008275742523155218906759049686355469106000008345492051700077770102365277702184490393770485345344748535495879779168230894246743853566458900854741581659856527284939731211313011907632146273514396344955049721937739632019063982157559281751428836634611494814706947883204080341093933567312637261072639175942785133780

def W20 : Nat := 69730216513698401066470451994656085355998335716563442839913310025530183807169305424505294641366987475066989285365743907234147167753758088134487500357071531586758258281909595930330415096284965354662054365626459989366244164296144214008236709555941898911249750309787026640317860067519749169733566234530380153273218039962318314781416665458304223929192425469729345854969734046579896734814410886556917506335898657958922542043957961722044784214852612877810339028428978736652432394482175652905146649714855685236037988531415188866826409601470787297263265338089908080568103760181141695571779870424424432662200109082897981623663731775559660429128738175163901865770985290775730729188630266497740084729114790328411237973250035273221396703476255745419462522008480440923018616527397874576340539256674674352876937494323622603129732149562664331188321680922529614268180487690866631307693735844882558758519627322702284557858517497186686455346076051844146114939215353046287256613358371104765957368243257027440857659760042430986304856678926144404481684615167700046019639646060727901729596579457556520489627198348470238534428055448308011758286164894932108882198707725793489645505165856705253793972413697176796593521106529448476982922700886828315290297049291423456500027076876999551523659580398867263103450049336521544494138215108714699363235774721827783979142531445847556740165384983029402009875497659743307713593224222341859108816245961777071992547901184742743446742161747028643406893376141115383984623522325438875808596070810641355776214044702798738796620337273811532927837029485320050875999465952435198184633285121000023597558893418465088082509647206017976373638263100351740953857739263594311079904533895245375150326086368013381562101446794872976408032068664105675017821428628122261312696288082850402885922772875342597733961545537951506923885096193855730293698948358891099040996587742299616595466354374572623555191776793350725929045456439654193036307340880703167735593423511270366615356049777261144474171135687104518694997579548971240729432060698114187879343398376539829926322638951624658066042233367570054797769772651675345469083889936325272560567562863705081729211204005635594878895610607671660566496496548373982749961224562377528590799053580551723645812809376439048606950901036037378962102436337236570409924578014182036757439791823718775897443517809798488073655600266152503019439910639706595701155176135845338462014934898760403750783015835148719173836952978598527194961466445193898142347023386102228

def W21 : Nat := 69867521451826582032747457242672957020700174326618320770736283108074367329086645661051325998552107926764822621726841402677843255293563303072597475806572223781679982338467024951305441245428244624939046258569138175065592452338299139160485394229027255146887180901496281448664402834862618648864862114248076940703740166727749827600894423637718897330965492305226341452966406605376920026943289404922012786260318192893268848103816653405422106014354817129316267880416728714844801723257068328384481564115141409151665241582000692932458674538297184711741732437366491178616473841405234566761232023723250882962156251453484118806437394152695468405663677530056909125677779776431065276093280820180317054132320400510522685932352558114941078071553606049708462221663138704516333308545907812703724962772156406940652146856821737647252370053797459525502196407866870046264028807592969138266435899002254769548040912898707671272317099893937713679927762790987451493895917569040382050502458497345328338921936295309987330449863172959853130617506056911211732003530070995439260780791842724345439508559599550686280673262058142574004048049155761075606003964601668630532276435959463081286806827714813800474633886886071174630034547494950922340005112247237260521625751726794304759192043264964277618850975312592383914808399374750375443116465299125230155475151626228874628046971507821139457424135401254915092756478647745029795192030655610409656148943117770398936547304275287170174553208213275041878076252946560804720224062400389746858862859550424299312513388456141642529650084131909183004749501298361433438609793218283698824688602997330301509297717748756780187708428035034874950143627241311684006275510177592153761119412000748080293684878818767352892039514157400486775693446277107531768062311253379830657207603068934989311633694362875531067031665743770777559530250001108821435559490051746052348415996184771692208541514413763704304416897692623111049349340677779685379475993527812617412176065858092319174413612430254701203565836869813681199568194392310053484414514046411072382605022171986048790054924215717841899675967160348083608362674737052317344316564840717145072627924986342993482959537937178292653335431321604048230025314129117431186398193496662967331503889679032389803886034196442622309497152214136094542944171269595903049029615227373413822544001351791667886519345344271547204040304842122857160664900598014071940374176469430068581275676918476249334948886644712086684420390878625524234461568370221564528052184225110947

def W22 : Nat := 69869851186255281682097968977094377043800270683208347972416918458433603549718860350043257323330524952931703270025524661964817549857206346086717506693597674316783335149753007466744218151032837894289723950805027092352881217514115043614340288244053359182461808432256408383688497324024475092521497189573620065221783255370035210149532271346391593448656257846647084083343994389663537574532687764996845476212575050174278357078097994185461056890546991813798380873716435138844721354801070805023819849580890578675389834002846021338225306988965766032804384945546180648581959637352278339030211932792299069952196201436456505076026078673136965946587187783500833415628834682153530374884610447294419099010569595839712099275844597264882801481337782620921548634185699808942291765420644656347363492719593812718315814949083352595318440497933478301989249362010414880241179134126707023648460614867403410358655830400834227647097502967625487081911416165118188123585148426044276717109199497687090902289273497170474217228247098725352850674905247437853089178964845265924155477847462019052407012140201728473462091752546508039791685988843178820375742979126519357804372392801063401998996362117038230930643932204278932405566597775584124654264963896494898451910131337812697209011961177871173804334651377916704175864065717023515839251204930155591275239059466308251508263953953569102389984902140670490729315689386038005378751773980669354394035329108542675002908802282526725048548014338346161166736981492904100136315417891341611132445413258156048475791791075390476695462709789460028723550194145238440040592491368502788635386917047101770612552141697165271260673286586557843273477222531754223032264602423935931091195674596082340142322050109832498244100139321194871424397975049874213260359952013975874692151670494645993485660635029810496855597171816945908570867087493943539502276936639737225104637115630555361520290785853683857752015319141406927064572647036810291974595350180477679046327977045526556690448185608956078967979251743173015223381420645894740888597615218057861053698345960663514248365648334349922535063863859678428156422165770971053367786013333181094858858103385768483224593806544990766614677248818858658770885854941083839251148741550620141493119106448143930001034427752507857008631360584905670901439910040859924081499557001863470636218991768512678477440812729439580619364732615595633290577055842296932292331878734050335967146707477486130951587594901178150262720517601287437448987604578222968219006012378089297

def W23 : Nat := 69872166140220683491459340934976392086011089551603588599392907332082513483395647171545700314541690943577194443918018113932421465760144798857094788529615065369951700703863157977959268354569140107715974512287684279112694353711415845246854431683468890035185002280819381957933127494155167949553982236408738630218815759089648812937382441632452720243400188338258472797488949150728147047705422107271333556432167182607740246144251870644562104645237847517703696024260759347565604054149846013016451307001306287161620615586278047902798410674663949971089455909616612396484811167066156629181664733020125628000073273059114982890840535168056526920123900518870805881921832231586179739070522946403462815022120603982796607062194699405069103040228340487631406509881312918134262219328326715080749079361528780666884271786414714705628358465884152633161546167541962680310142794121836240492306346452789383859983170836372028769697793133931341679146709742053328045739627982003935371222096614209076671722395543575286599934029327724398406624168431139909848810310824817077681041086074839035039058856595802369111623920765480215710714267852176386334027492458222967614852096999773786964624105725204345939420923247986688821557927236966064415088738838506910932896242621403634906437842429967010228054574804302247624017327086751018233181521546948636173293382570705091989054002377852891229864946606109978700300494879996656218266430306601045756899886787606314643132989370719189799690814835213662880355713229919879214181398248581584238752590362680762183898593033440704882416893631043762871526355769615206862422038251378836359111368913095078542961628316083499995634824608999213460396726166951305666490083934291691685272160997801199585323255467734752256781911304390615985675519535067395328961137781597723606321278637506556659261131701373431024481417169708250788470335477426806669187580069473791791633025016918824056667869332748486434533373733386101283313441350407716404877428393966928954901217499645263163722772991650192433012106220802111851252240756513192730318545506063410425996729715323869856158766375548432738685254306690491219460338874022638943582853583885497677330726455732535227137990188722869112985982452726692407524203441004176157013569644237036692907168242649829612502045941854086734737720435616808806208689053634735196295259410173332411953695021448458959266896988126807000511568486803535250103765495602779557398405878094365589249883121164221505895174115921923841955211013908164098193838632079323556771916031188329

def W24 : Nat := 69874451137785745556479041090241881835928215091176232554642326421805065218229848533934945248758430813132502233518811570768972370166058613447592796360152241971222037101723786023958527428294143162286865300727872814655386976703977201314169883596665704258583674997979534883152084204997665063626765320654101407554488112082533115059650341582958252761059858065159253569773056774071192093230027691925879555025546942765555847727949535907953937384770605666366384350391469247502100759640317765318823641769344778958938177393048919938872274903909588604273837334650464927641377327089363738495521942644675464664875874101374385768268123877962913673630809198293576855563924513901940322098181122046589090037643376738274455438037968461006771130968102670027492417836616605465351758549696032844482731300743854145426141659123987617891946442000091619925054558371486172426724096160112247408443892463629943680319535035360027619528232569597334756941452855970102151032347210079261747049711049097257506217622416873496559039537367980645331208383128915325019881025330644241810492931159452171734760574740288217596748690024175087234547826727202790100386755556287937836411512746753192874277357365298950153716929357308031587174862429064317807111866066251140593321205463439213526989500389801890672545557247031351644800854259749594616616103886476855188853325110101026415175328113456668323851442156569589154820306575670114392928136117151361146010388703822612287575572920356189039787534069804863338486974666417245847468870115563615992008600411358094584886312481064948136349764772404183389642138624187805038485721589995041984143965846261899019788946278360359473015775822380847864790655293252743238759826525072480022402424245181922257588092820323103431762342819951546738151952021109675317535022203759166710987578565673048999482916336298580743695024703607536356818661681579622407142312445149423910333643740144808529763538883603026764019701224133660234258971918200035870260416502231347274392276857549583549647027468578987499267296508683895754350191206811462425284271207328165673102706083041349852810155200635007835906732300041812748247244350699786778956101804492155517190243080764895408459688803663999950567378349969979492212157722751988498309366945043314180237961751830156146407875782317036266208693121023315526950591048723477715627485759385524350252756586151621837602144650069877336192348419209648561470618485015455361441017152610703501073154188235719970893177900266671178587905293397047315779950115843373198970518188208900

def W25 : Nat := 69876693791486073922551883212334877672349027158136829070353873457526754868910531923135088254355936068122223577495698400341593405380241008225200444200375513277030117065358511020337666357273746799941197167617629764067441715168264379658512580306093598057954752148374352551815162852923444066601719699952218310214460185907649209102460587195301273398808038709057081040358099187208045495725421381945727705333564755241006796253406207498990699293431422154334391741939004181003107631845972893425478340829540837289893631089047067079801675538398626789911095533885849277946574139492109361644585245402530653427894201252236677387088095007820142012777776636660278506822336831343162192652786593563387964031936664117850425218698858254841685673511021596353088188378924331955049665706483747267634393636602277796018262869266640877333582803110200071138823765048303942868833767914501102770246912741068855922705519153439743754981301921265913259133172064483703341870608102324845600054825074059500573118424207476260310267944518776798564008706427214438108187209726728211443833001892635483993324212161404607583577642929147443420316101330909648246992973018742674992774503723104006367971659634835602436913399794593671382404553995680546376034014004751796969885526583464634033417516927849666939758241646451712488462568055282096580866103505668584735570739556834241487863290537648948036993878321018117834668108195050499125383827859780094404358065572823137884852119306044821989562358439637407915551414668271449747921936059247311183445876895631386285405168113116264073847628367309374355283910441955814098697313449261418350826367146807412690697653048314221713356021499540458746519140569559153068822730708562578279878323573857454187411115447463866210720378579017734623129132732903435968557048281207840085340819700360935075603335966829719101332926071242644667507507031947705018739784666294463241267012877967043249803069890705966042893198102635480586616296417253387118629922743576654369892532631936354344991244263884129161668296690884786661172572377589186984233645921382759835994420884919750725596837044409027555809082125138425928147213629263288348260672657578245371762590002338750399461292724859592136287530192866242550930596873496577780149918370474677059026065688309957696451503074608646111492709608341889091615040783446751324174883144000985543966633280750273872198593628173612735796833274333739061881891726766419206948459767834778714303757439602360089586966741717501493667487561194395249804752064262336401022989668129065

def W26 : Nat := 69878884214396485607144876373510991152489448063788693923828198353987183396102236471446924438953396529885280435927525794703877393099145554364812634005063322655332930431983988783588620700675949075367812921709127969719123990092842970688648069491438873092233712849329770543020818251696523088345792183405177377483393451125675653098396269013739834322931731342802069744237810276240461877266337959176891237046920642484202613169071831956693849678039479122537054285917734390724614611374186665322082073259531728077492945799549935939373439257889295445093788962983545443903862179964583454707910422500743985551919489105174334000257644144103675627418283050069913307850134831877809745989073542430119354252114179782198427377470496491373518004839455124766482338113337881307717799095608891746360120749761087125328898189210006718105851566305964002754270107405308273654153738059716010684302227353353578749429331398176586282299496501113212521764005020522973982410468025294440151399314672390021257517170774793256302296822764003178565238740424201681208537698962906412707962022087805450784943467091830043235921872323593993829178407311091885461111049065164059717545083207529103263232382318084487503335777330337248256923010723940454582006035819022472362513920329861725158349502569746799688324800709234954022806957730068692223151499622797413462865730142285345221852236645329340346083430809284286265389941636036014764610114495871712096587767891822143008450414509743328082826160018816420023804741414007056684554676904911409989601690440793770370754325796807012412107281957800390770760188210232666946518420031804372252973194952460659547174888574543895171803314186593696232087863190750659167035893867338775053189582192345836263520480419635430569008297069702073905510044011272045151059724450831457037729989923125067808092349561458828845819257136384797520580144032028869132451529972363836061292105953201939056532737224700936185990910201882120924762444458896551306171701783263445221374880734326166895886787906182708664587259157248190049440321181555042019424939089836377017662499033121247597349810551231730273643613002732362786831519201036226416854657573149850690641528302328719760446500917453914442364736130521264572654540525950478424227319907252308447363959481638471928595213178316756853631101916757406350995903110040279100578626736844017724172937173986989959665552306657985285017026318725526553925258958372121415191091915454921935016007502544714558113886359076878401578691895668331148273301342282135860705981047574774

def W27 : Nat := 69881014719662812990261160661221171585712002101865358793377074303126429627506533790381788963283954992684522430093182600998862365444686526777516842231476111089951437803445032495200336664493438874617449597706313617193406416379991435041658365620800640501986651218765652791843554517015395598337924301347922063006485217576107190874072273448436755519152291280086512926400361230819310533610103096603448024561948326689172153203451430670096598544811762242086436858393895182002418777106002005674745915639659498912927062769639786974310401535711643629718214287805191357031132136484972532310883469229821985726271430616243160349263447023421128236691400112916570150613965420469517509686526037708536845949887042100626794454170132323534195133720985293559953610878812667772949116579426396655335384369451015129777000933849000247443651347025608567604331141358694180263568337993278934487552939624751023752534078917581257449251357882728538810677012015344198794499125164865210353480313393743817827371337274559341805397926527714924955628827395776898077558293155348015444138082970275952210365581363109553198878825108979237471253899792669631469680771254754976264691149673279508615583365553308400472372994290284580602964359227468388415984037393631406679874382376487847058079384688744125657489102904134484163323510936963418808160950131453206287490406802147709293096227457786518944110047526722885858759743078445513042848227517449622361229140762580421487208183961618940984738192936396205500612384655486536792950487294979702558095463970590219237584204910774119357996708379213274813701984843218394736673770472767733772457717955825518016910478417171300237688718382673428852661973525244003634187575932719978256849278214557152331673764200288672023316356950349894128986253854053686006853510814473683726267352615150449095473158477943914537128103110235230539817222350986016164731960240610674776621704247471598380878584895695634611902945750370509932839058306607782375444300485513244443545239587464802865406562345555580420610902070590649396585223585574542375870144886239235895169262462360182154127401559172311411501736322703558928498169468826489377038251924333829131111935596230443665509670101216056503774289623952841821318185094641541456453429532147770590082058870549581396118069400827724986476496195600052707974909035095458087814270799206288055554737880188825341941387980238175229181919752158145719418298565131678126988193645660880221161389960448145585849896283371534257440767234539224303283874974089518971144429378702564

def W28 : Nat := 69883079525850463501138518036071160655423830676419692257291079713878780946514012045445448558261192341673575419909107577710763557739911517950938608910760310211044070228282573341282493375882992719601053368387219565977352879675209708961737200458271042277973324619713269487150094364774341757987699535889804637965811221139547080461312676548631905930507485700195954324703918092795929876137190616726743365661490682210110958221560983325616549524050362229043398131691673215537499947867859823271225800084912579434064919827269037531137762206455032229051847931472285059142732085298074456032214114265984180862363506955823792710204836801493808288701582321671870543743274097316994736745589452523298015584050512262711197651325424749286949907709167698008329696545099880550171258216113267784781125734779182971858225165702598206677581591476002306511254367781176803525645652501133883763323626612659071840336273077870169274791874752184573643140984663676380171379235267120031608857320492822376024827138155934239757966996825218556284968849214691225462149295300494999892993944249961408785195031081490533310663859920708259820223353574872936191482057018743685866352378181107702088193341141826262044996975700167753514935649044773611075445665132207325215771649783004159496620303771247629514961004620178667003370962298125552926681114303746915038607150315775132883518817284221265066211952479263607855501476849783193704641838874299574908668082337414171586971927389721828894870730193866112953509563653932663462961076345270935301587446294549373701447706997075085973131268420981634972233231974494574210401323880143986474638930771199273995239177116916822859851881067593797561865897267496521780683011879039584366040551973462842600902784548045057427812580733105030074596949864159377186343281755006426202036817353768165210859077875186486196955088058759765892438814565818592077506840108247833897305595547517611743422433699893974586438514232837674347835902878698357574154698089453484842697851965872459763791606288215402464946359549384305976130035675575229337147899723088294954739523592147287186133132300389364668984999564140819729088535770387022681612299431217054525418773893376154367563590616131864930762500607547984065232505309361746818739067218501554358180209102582055206855283378789976351091015692398889065022908512678156903213050884002605759587875272183884990723295128714763584228582792943568126793434744263876641485821340573317970613623423358532084050830170925896308096905706368568573847142700963416630982641655758456

def W29 : Nat := 70019378708302982827251079313151705188567456924731043601257913907874527480086568343455280454863358216337685783555241317374616937869328677788130337828606233527071547120353649692946189158338890796192587408861052949091011696684316414229455231449920965638426307496139790278406690193042779806899200426725321184987431903560448790694209849654466356546212453082561615123700102181082570721659230832963776644365910315462029405211357411600949367461821905039418227103333816201747399061301936873544383748680370858899604671825782182519353765521138637471756714617264619125506634495152462950060920198954630204904315836871738640045287334009888011452895020216941354969921898292166806780112425033612328561474530475166351562453106607965095325091853089693726924201760981872390537233824652627984601482402570200831416538023802388518330370016030541064036578314057279205946809008588591376559146019167387755735158569871091254769038427854110205943878815896648285427115022656374862726784694069568508296491005733002645580571261696368742829597233963979036816053236506847931178014142190530345434939196518845327872035035181654124892676061423844998517700324936793019762977768567018488325447510446893405432767364828581775539106238742548504390853435553886259353304562691229643558005885021147235910698082239464286336998178622821299372372554748969855112962636987475894068913447391965951792074976291341198956989057348167291873857958132558358691929608679704823806278063164925335507156328189351648712416600503111695411430743373833732999232861973260743019962236393572262585004422221155884721749438465448030801817134429307906405592512354573545649954057764219969420841555399006789892706427999232850368582619995708421457624188549024601241162270186405573694880612629415748884182985146606237462319551584613009022917447463600381585282715270473351720596643055206535250691215258878472199810084124521888077759133723085858678552108573338370763146681777387245388731170562768659000646354924424475288544422993929033280256004137828458440797803746097867101210715161063829812133574572048541243917309957707982995902188886434166912054677683687552368121132505778830423560976639691501933752937709761490468615462172157737319363616767479043711667024315426359506523093145012447313027630137430034136412841955180599846187783962195393791416916571183529478183234175397035636280888496271739373296893041772385294779644604412708997830530820663180303345887719179769147943078141650844153730749810218776835562465526970527800378444846813846388619513750195729

def W30 : Nat := 70020339869046543891972181448560847958007349385593308991725234108886334888505494290277121850546480872487572962279350608820239780056923791581999901541017772604583486096497835832287489533956429657814583214220792333533267803947661602825670451259177418291176924897485251613144349262495331192444029841325935355923287354973360006573555008092041293311851468048032846330837006501854685306845186171183999195395792005873372659646271469452683018688807161000440583163064923153474617266091890260907247898221718488695136308769069363900085906387218471214194391615123077852543473940183993208974825208826149597363298013610093091884839381357921529432013445522811714538111594654307581308698239762306134299197074030366036779261418581695141505041649235436490165676717985885750594268377433186932690356920850567287221079201593392718856494096273769263427511057038228364036428294190083397582117689323355174663701890436336461994208217192347859782629776994099366843658181031388023309322533084275648788063614059399514401579639338015394865438399603720653532819294620788104465898391576385455890500359032849035777075819551278430608862755580616758190076748016561099947163483675676866721960148991021813589320214767345791508377559065890613045549726075061833898503037319214786932295114290507417194784272431131268289056959740230242403871768224215031938445001965940020560214454693346724023261971467120590353843463104876887848470028956344417408603964147830351754486346871415182593526512474806611830877495364401605770650688097509338226748157865468578431366856886359381604514029397181671785618147029356604331303419049091958614965674388903814296066991268675735839216359907729306341759026552390134826525477790346036029182012731026263405532192859830982088635454752952241030751110975212476622984562376784486710714463106807546552042921571417341150865313012747709155335545557361408686074917384488276213872642606616347214421741432541729651144914807937689420864942217262500308680639238473737949808487013413404046025431375247058850639212670486317881160464782320647241263522973639492842742636042683055548033176890842184956250140527573480591224780078577465699635497506301079045280410873973087851872299952906847803371831468622745729804810195766039992935081641800751656506610131675033846627162528431662752295151574555561056995960549871889685874281488642098849297099808620457156852506450424546726940827810781703485874917822619663327477182784052904542304894915679847286987830645567663945670361028243009085318360631144343531368572694748620

def W31 : Nat := 70021263897149636023588287728499515518276105226434803754136053373185488078163823242913621883427150834074243514560410415427220646124775627448877523150992560047572100484446646199051892911883114714721845577864306182843405324438362407188951875585255493850228940406085680407909027388357336105118945345465360681691773159009276089873784862766194470241321718161503628032824193609981088521273535118435739476876711321884667459873891575676493334334295152199075213457230312212185424574092178554056962176720472677264827515543066505222499678595550631799389282448796038253177898424990115082187211481708741683018963634774307820589527331221625210204394453432388562473826346216917737533255515332867714882484265408573812145831273852050802256695438755939718305811804281698834040438105072447068530064008521389876051403377631963781583376597207091443068653692778532569138479269760994729178400777536564653121628552627351589894895291506145662721380689023444080221952477047838282488717150091680724744462370962892512863525008078165659106967294211712184415021257177225897604649810961628700719388931680210574190036136146431919172033777629336167332310930432576195698395012163480411827633236520028770991053537317141053650098001681740664739070398329770002733910049598954454222759520656425235732808120221775394539577827447895794555942354773786549859199803256543517750562981549195588081358023687109597504549938677155820957463124223981532282263683275211106548270261376219933547299237021563959889489409101355522849932569101740156294372654078087670914949265843622259461318252599922586405522439238675385832052205314739515774778361551972331011141895540931454166754833898688673978226076474721698218195965729862098901551346802561920386587453856890178657296297043188275431116674419609976952651805047315446433540256711599938953574521105366463556320776136020567220825481477231576427089495779151244909333435650321694744248755448988959619886949699881839328618874912164066522331309834989100708734231938079759363404250628125175939992157970684481530848797856792309292868780525596953360612350811837676820421567288197336076621437345330257454353185093756272206128139968896648895859505171815655463411254025899155418412835410847637531546091214753352167847621522618751828569196698066030062193310391234808615412797139394712684838230314515297614692734573485690761143287994617621228399890028359792160528883654250974022475476196207289713945280664416021492848096261696209473296669361227227114988288411443253548219758960523750081005150609277273

def W32 : Nat := 70022150448924161519700119172503292717913886564520986229841915160802221041120936748359110226418362773940145876368547113789806271623041506303184045061930960368196263948510351486275694239185465887205326433036432940672073723099526658756906282086097681620769311152258608885499934138911744794892802317470073481473767861531883545931453773850239990628015268380754676589667974738322312017126968454549615157946305143099899925606784228573025316360476193978979127913956480922347486694261281270739652478363251892038642584116174050481635448914921200043022613304277662124192364474136141860187684632643486648376448136843579316072686112767253804138755093488356180991515894822590355944141771309123473519190917473125819491203154150147512755212290226709102675032650881305633696533979633608124085347322227336206250779436174256102238887135285057865674883532437367744627649841109386557540527281274597489490355868152090714700635677198369109212856262299573212950057605219091535611668171302828973269755366695292929526629407933745638875031560253340916855153906983546127533646051657815459722896137006222665270310027683425131115120096577602770996342747228757018388000822371135781243579163486917281595616483557176808417041737573130400319892673981675830557949181178619343763536748593097830375688417382202692865106310117416426604779378995321681447766399787336018185104538126620068638457477988865669859823110981248298058960320410686917552423245546060817804407702627968210006923139216733965003073168080878159302650377909522362585220357726106702132069434153007633064195176830118761682619369648211908002970650560755377586611302681817368862939741760244601293181319595863781452287671812087051502921254567359938118483669660759788892112727131723633110343975175162260123788693324457177683135055638352180446151633244367615068696429587679716133433952967841054322405126709280069407451917413704070994761325119609795967866937149534292033493652222523551366030222122290137747396856672738469695839476406114839732687513607167687787681500904404228879424510485421700719210048370673111289604608493246784834013490360600839872704247713547033694475907546383379342402621782014420354847399121155984743254321186908981577975079229491782396521227453587596891816889812181171808131599621162148618114894779229781955743173600161267372021842378870504355190189954115170401235805521259724431351145282654669624848600214083495629673968852927656473974559379800041618840036132914323563214186801319021786926300184637990467236665389502906539115234069733409

def W33 : Nat := 70022999566323947222325367767732172270799006395982439244003518649563855807078978100014845821975869251196966781060012324154759325953177803030133550579447893370101245365651775601437820624342727431262528215147272592965318376383623731874146501929500194329802833172018291602295347526261511558732079465810116515759483308917895569695677120158694472857456882431297266930321674196453491016634263427517495626115944633577098302428102371355625413992324626138269134492701019247645089479613916234792003080954761895849113443687398443573833224961177228744088315511985933178753846746534745316911363067475069363062584940577463993768157065470363993066228249825341986087693434643467429854864043204619160821134404714151537514429448919491612651881947583649468259923161776121928511414678944929121941856193477118515296327823984094032508588448025800491705249747311133723737410942519557097997113650509459224336791353762594052791836538562272512823581928522914258742580414270798786033846683700361617623718938981422117106453948595326199477031273090713881465651089251245778794277337149124637579670815525738745673989910183904542544516496153664879688352436962076003563061897999391355765450909711745753543227164581079465381563184213548548116446834908688770412658422938458544429055632444272958393274045637424736286030737494388352224010784659199866036834615803571191666103543208269502623616475694203335738047202033990825779775330062231201375295801395402343757676036924408488125181808375930683391920331976647679431379193923097957567660829811540207824578970595279809901031282918788081854552668741409269641935052718510602113739456561703438315439741593284906650150599730025972205242645953317371927282570940872910241130197024840019774636191511848524449664287135556519045697225830045652113372647057446313607574790705897484535703276229222280822508869184580247180909783463828014600195494153697561349698885702883078615041430416397013144366601524776486592520271350830580782916956612232514468259304630869718723972928018317281750995410785653837801345415512664671377929368929691181739991443011425914167705887093996664029489086038927745250066990926981784805150331824924881191688186467497518261663997728820663372906670130856586221335109593069363863875524198247466569232310725415697463737324848954731790648230223855685354864219259195196787770707002605348021384565085053592936688528958188687958778662250633291422047466168772869905078690531665338387349447176320130780189933903656569570179634358161212732426437024966763970305689377075128

def W34 : Nat := 70023811601870211799747470890125615312907151362552721425072545264963000851637716681774167368428917124652369150376650265075758993137265541653641911487875993213814037174523236947465092325177299964259618653033043466917788854945114347203951350571632407132270479327777309260515486328674134663376059579432735740232019122366885425115704281015053298598932347560200408374226521700190929649642987683497070601420030382433363538193742144514731709150943896519053978746780702458594792120493190102643359852258485576416109030764311394672942475385994529162562384554314941092319161887897445137035765146374435409593037065486005717101657390313106443094889269016557379278697363352809599860722314432068495579354525944973844851414697580961090714660714086899799532252527482533515019166866713116751576576935860314074724727114407423804823565244315692235778698390017529070950606882012506159375637472624170940664347610328048135506798683791495170085544982289730015858821188822031565585195943016380116173488488252401520651918676945876025803157463146680427415987065520818520667630765231955470499859800807439755918594548547398377406440404395681411303347955015551574918663737550409839810741402457507036620525973802180826090544651340348548017503808228318093289924768956928261909518935424839198389449412945017405773580546490701779749705479291595674877960204416485117385174879279098939441712942041403924103403730456015382914007265115893318357380382603425804817751888151396754835856377368114524933549762153262076261062420378621813381588799525780972233524281652041421249649470921793620853140701462354045646427915984489181178612963370304204530085357524227851787525850334075174110045128721106214476714532914750429686550127335476935874715004522175915512436204158300096907619040658910453105787131682761015580970438779644095261728633618320907063964354436502734018533050333737984054546382875989068224400009620384799767988968610711664364898039222871375650757322366922058670497687929239719427555852382492860643700931744933781560605755464540257650992236377268812277217422746488523277415687134303568007767181319428991465507190004337670979380731671645484661539282858600460887203747729051766599243988725854330288606202058301854570538827604275325973449171424911681948048976212653289697230970010060580902261204866409869727014119840614775038241129208884225328257751764277768579129558857654940670515851785147333937086047243092110703247456364463731772895802343479603869466772894974226162204527025435412608867730341498492653389163320211223

def W35 : Nat := 70024587154651635328616999832594599352117966081643631466743756656810193782673340248582388743822782854880651698494591863514334898822030410422661511597460096142904768378620438885920944566941835928091785673810551380929220995349057877639628392990496162121305397563251878564418186409358503104261028261114344773340571887613159604181218265207045118427371211536443688861826846226882250247716020521776955477234920389004639391559685165493807478214218751518974515808276536625960424217010309985775665892241449206860458768049672373864292483731074454442407223569721266580644849689254830178711968764454449101202298602235260051754255325963557661052242113377287083871972486914471543437593750795893344946214860587636452343748240610177054446070892316722668758762821671426035654967576563029418379006656008994430831206095343223628328506922017576035594885322713135493153522693146501493664122403269266013788561083292931023172556536021801625138800435131517360302600184904808858379429247227851358504892716425394351518768955268559660500842752602003381555290419628158167503650758658245994289385314116378026614943953387392068304200104734622198120595183664333690593495819203739280136884647636204620306697826782429106639165251239480837930182692211904813327167459476840773831324669118621996050157597834537077515072542891377912825203630464817495808968190040295032979293092612375301116152214729411244083926373934314382082736732793560709527839844679034314850727665943561020753821813719509592647722696183676424724206127210870278017630324337229485622882610925374985483245880333338627103593590749810996102719318776282929131584086886958487620064856688496042248781896210957994036635678829222861481996214735373984420630134725722414893081379752440255731495420651344584797894767411625418001865208910681981679096053223571486595187559413137086879830602906831761544518837166770925384197764496175427998964082723531094240277897243863562840818697394322731355965045124316771068760301860489365022198303198956922643058695030666854511439191444882614564044029511247738089178762947572050217064882778725110285266996389511167081400715473791165078052496264595451497071880388349675129560472159346552389702723455294939037964943754259603236544846081280522873738396530384074131356687156532602922572546803023896168772489439212961978711255689890229758643254343221132439825243140460005484167785495558855872591309122549327548256132155924329139697662955611457817705803302024915450134196864637266619228810756503821833056107088162783228169366297858724

def W36 : Nat := 70025327016209578140079034895600419556748277078311793581244580590593345620003228309276109641449457405421248183743178107603103803502363625903993661640314186217456728749186711997525012664708863640339220800096443045536100836489487343831294387700453587264739210306569779251304626947846031952873383603249975475373475983259941246299475892674289683923214268362077294033111841931793894854729152344769909907766496135055808311266063167838918770978366474635762774611218878871402154510893858964468052329072526688163041442118166291115180614050073516148574433459200827534027669034935501771512791598748621324360486263990624586454931610994585261968650558067256875753563918030405271134578592004594494619286743016064335816652515797363172787141384438877788263614020874281328684997152416993909342306862872350596739923816912509952876944665738995663224219003093123720204928309463484320887113656282163150460094257504470454588078052948216053665604082556417782977715029605229730726005428976710697709974809582164853337524732345860959369252626069244627225701036436899231103091856921333666682576297199343116782695505346846528919792090784646546713789755340442232254800791042692161900654374063419149697142696578215683766608494101169235205029385670245937614095901712435805999406733349906392616637483620576970614060589104847167676014330344021403365831093645414592485840275186712723788612207185338529153637551154377651566720495233910704588323665874920326679712561789067644649287052535092229973393062730989040740311532236272605429920317877026303323142804307530469565869424742511086157278890004605580163904691760406520556330793126064191191391308432407057209100698617011482583631069884436800751453702475731039514559286568039516355129912109462887157800888584545675357200062918540139139184252671058217598699883614257725748906665622225113230149061006188351998677658795782777474890737968781170455227951175017744236891876755964000773161665565688628657329761508044624214033675945247071938012479024814250374686291891930093587460605282525436825963338265449373485554185569465794417713557346008123595417046177400671938201226828513650846319629901488331235581632805206132219649486498073943597976332035141638565594795929273418636996184915571804787574302467531863615507536432693363954588879674315653941925941722404603775061437545393733758684667592503409279832724456107747861618677456601537862873269454088973606428408175921157606829544490471122020775971195067866509815209912434830673257733388708149120014586851620701593877985061272624

def W37 : Nat := 70026032125119737883640624412684582526557250509407320545190010361349032878440937131203974260512904297840898772366166958457672070914899960056287168830796983983906296942655595345482634754938733094704364464122628539480737715559815605279878894762272678532736808237913477168302953432037448543467790099522851479148122397112852611664224713770629807817765868251653242652404866949501142802672148567622711422177339310065987938719048815361980064346569858264283169719498265650622264793377762333811843207889385876543376219656511970127278991053906739788642048066432475098721397957571314402820110755354206803518447655978209117799185164129845889982187747046677536575801778382629919072806641086504215435146293851478469024358657605675133131019529576666276670893148234422901296896293054995755997939382409111515270413665846344965909420899449319228138149221337871061438222523956631236552861841817223211544183388628836029873435139986267088051127871831801643599771504232849711597812276929054456288289394988610634251573476683020659244209827188877873000090152729857034443210993362847739838604328349650827698996240449740361437678768458993192129844080074168588218319924128533400466483121854172052579802926961897149710048586478011518453337592520850573496514816948900264482700787753093249768391886500916488741941469130315621273156010240426081543026629045780448773309718385096206459199675196409751942229639892072562366302651948160909347410388817682012936151253866501834274887160538342005562220317781276210324420584123475498018858084465106453614457889025853490362438330744574680951697519548570919925467671668268882889066603992752395762106205745122495201757066170337198293357317109665899138994629567287446650929786267644248579582751368047909892833258440435005251849332227531111446213816958552477581987316343200288946986776076409959336375386814529795506221670592831466597593460028340355041057177431743036315494222892610116606346167439479839479410186739086039826892625157345140138978324431016026062454998313800474656289013400641607850317461639743492654537654052298291407187515627882604091286327845120376136866074261016448692914028105810705110756516475883614467033075856381538440949753366636215736103540750796515922041969757502330206227230855298395094284366824369575879676914489988483283662383970048150091269988315072507856506574741130214345770800826539478351275622102221163988559932713263401026895166988194074077567821282838175421584433044963037122331915109636831057964765088998929509070467350574230898093911826711125

def W38 : Nat := 70026703529137143702767297432625193918159197012539749414367556381951394920975329064069175960064146097181127054659920038231591940821678587110627375438010927892418770759516707795493573642900629216073018364668463854948911348865962235922915037749760499750346885468977844009125198077822582913031278929515698169172027167250032020470060377687285289568758657957092544879619660488363755376897310306640043717357993495716411472746266809797562343654189656056860955225479668172988462079924491379842099794565830868428492149979151529310190412907088531011634485290006698251846396517025208445331796043644581963730588127015471883506871765700769191134314198209709706598421911054030820840920092137367521703123874839273685034938882428990548523431727891031817491746238891050705025234306373716952140135525268668267125472522604989319664306751413166554949060841809521629382724229014459082684380188959742559487845668062057667909603822346352477808946111036321076775813089537103845391303915535737793599574824960518391725412025154940869205205155986267267005135891067216676647802677543484819063809651727686024988208445105464382710039188662488692776944159896043596572918868678147168900870211654487501284681930513019889749785337481501083057153193726501632378837121702212286608914218356960115466438067209186314957298762652332817110227071097481912037486421760704533821547127886877858648823177490020966826814659303150970741701278563488415154422784690363353672845570226882661057091888410105689059878115206074571642939873911980245050088072426443539069559308475833914110755633520933771959483581338355138847690577655319263652049516233522057226886390763747258142275897592719716821961552778894247971837966361525307457258597294284906892049488102733462752411797022300932504896304179382353467818337348586660941562863838923325241723755980697522484077963598730028762404425317185781303981747723647861138867243078278504629564008479129463743916328890913259567589284482471805807134596151721386412341696670069601916645155692329591993691374395558025106723524930173488958239471824002556129559487703885785257447945241234616923516293344519534002037451556738691574418194325684655527538922716871245284447555740722112905193146975438796267710488867803338678062319783561154329433105834755242179178163360417983284037789152446711790245506460354788544165992617883964537273494724608235416594530620985867621591053507384624433429063411722983775717362508737644390530086320094157591574930032613828178451393300304829777474732732005387434719476947108331

def W39 : Nat := 70027342353857978418154505923981052295587880014020027021799747595283336136029603624015568561694133064832478665716187975371115531036211127993584317570391937563880647316944515237326646264419662629466682349277127571125772772801756291995691188992988113647533507218853162153549777980876310037532463009342985235643575149788359432909086298381405495427668166462882081895298304149266590971591626255515155456270889538820642793194056627251823864593340103336685960649894933780565077546531375724381680914468306392495267941518480186338100164536496282635111606565650305410045999159592185704102798653568064444884441396413606642970832300704369420973894100622949730851326663287119881669702819612221072905913670366589324961582040116687074467348997600174487393926914621725766694252667345655687213133999234422603466116858338723459111968121874173882984680768680590575697114091805896446384512153844718331281149725603358269024358982693178848277174858387551980520073430497050931072591586807213110036105454264854792947067793095291205785614382930219852291630189684243443720631041442113384008319303037902649097489881626444313183373989692861351074366810961309379919568755782010981783645650550520174753056918994851635505718196786625230238963798758880548501764551265878299143620071592614109702251625551366049309648785889180494075119763347425087619002847594649425869129589530450128831369941878688580580178227603856992759172158605034707631691636994280995176094136957894890066374815337732470271506904285371069792427637839440178588882009029250577436291898704902861244966928317821161969934523801397962391946003289140019488285000938126845308412525802303833753738840008740692535333603231979203745684213680266282731258734271486049945777532856015178125122294885370397908347586652305129044512567473142620271702257701596601479112053928667321220415550833265954343401216928750095164505482495030876347565767079776650240111283981951295433118185183697378075287207662581269630230529527123323548305140928376619551706748405859574326226139139929316680654936948736626958624726644457342422337524983253554155048866425673762820519964239331660860000510914564044891195838552436691583183143484737010948069059220741677988882623388546406481600892101267843687721882078348168749236997294690049927701254429909141256500998140397666098981107524664923023921418064724751208877919719697920497982130772237394699717567803351014182531753750363150716016719650923965898612367925865390716217114475804990200496957767612216205001371969722376144290361087184898

def W40 : Nat := 70027949776953178292107056103295036342401251446503419823761332856935442797487865701855503744185651332300839281027157295405715811534320412239573213339795866846353932945851054253883582629272606386156093166316445049890390950260883083054156384121376595187428747494920874906878144050352494458152217146969446184149858175752927465175500320450831038144498233157878033301396642665827482405473862528743419274105285122657604663776416483474627844955911010342816634024032277032073709661331078029381963116421868187840575431413057305647255962101493000326289110481954505787548696057511539722661066022116339573706971243258481235367232685927533349577928522677563169384435517520230785396528564167248084524408390451796207318003613478585080940843961725511615732555154832174297410227701099432956946260555253039183552112151264141803987897454141468123033824480771449541620182856464608560794851065430413694407458669356338892229245800171484018410324196518302107842195586809571205227245158217912193371958327284994373022455334551032820243338414436811750692634846814866986552459127556787631785460758435750972140995844471594484535330796687462763830203156479304612540376635795812974804040510049015952074714810242081099028747433190387051628811544409968692609291655492551303437310634681396351221657642193543824252796158113356722894409007935216284311535146215748377840309800994493693821527539615170142069860441381185226866118912610352184490930196124687277726303849197774301222800495470063348083952635839304544573571832829985384289194129304024479939176090649035088108090864805301825735581650057516581317448142460613196386754954047148709637128060742257140048371648902944986038978381626158293703702716227781837214225449260259348089158047554791851157078249748912034494375723930348575771946765445357754014982724340261757560493205483924152689566918941564402844253527717328850657936331673040228465859197310059420550738460121188144074835442683885632553069791397240996770043109475422096889256431949737394470023276859571128486824478309842639380445613998276388237056791935810790076259502323896163266057500101985976545321055868103693325115763315806782308111122418497358783904606983733553112783769980436075020367665771635662693325624883619091775372498380014138005321717567036996707636796117498129422265262771604917507346719266796646995467181115151810008516470745946354181433435854555803276838117591046250740836264984072901112498503584250787824123079906968095969241052984683689349042078874997164341244759277245152790232174328634449

def W41 : Nat := 70028527007134533011025456347234076280254155347752239777207856495609777519138457940046985868404511090603439222339679482761289040841514545228632982009976809162240288388394946953611996238700635808277321815021862378300192162177943655079058667788920533408682208637906679151649170354103312060002317298334159656404127082275467862529323178320321793314721180113853717265021344319812916199010418603330763492267840225834867814502843809649518203469889179568420443518251015289471205735957420503882303446913443607934022271530605442457048732590648868823531873083697279948986548410195337426479037858719094936055836643218396240305830218135120235977014705393717791336505048175941881046155297633491866016908032467850102538077950225507247963693961981870826222170125378555542090628607427584615096532510104284444696551066376004793519106498261209973247896998189529434564878223796546694365582708477295728427775426653655931042267323871122691147866999664145350335920996865162495101974903939667501014214741865335411464512140025446148487836215898667558573874089193825642134249361505673701897874052577843106155076126505248459866716221024294943218708653394502963718262567909663927603987558054760109387991010868562040084226561328079118705575885037519587291934676838100119920898014826891442697994858116177284379442600786071431103721003386136270027069065561093813131276702396473602911988570821728637617983396275933024103088920882649396736117743907533592777702960881466577873837711062080993423251964483503141150079889581129592863381460385558636200348213878187413929281508824342408929543734772188294111696863163446330820476145410949137985350044139617201789878162113851872532740237001631801161898057093621245264250144507025986772054925303813369191330998437140572237836369900064659237278700581034981508419220494606046950688188829965391682180638108839708767133334321797264992367975363699356395726106654849067080747026227440150586226347762266688913051506738158689939605773168570648939627255929763162014576295835700050154125404563267525112592666812851776432807675405173190179856442980474105438655344490391114105289812783390172166021007878167561216564592368330963052559743157541057208843521058534919415110346946574285744743807814736048240847803881831435101147289055323368414923042926804932254363645864066524249821030741135588245998888775254653756576086114957503550540044160281082224381819465998093801281924443891886868400817975866975789381200809006431871241182039123154579944389553070781350126058375915880296149949608665349

def W42 : Nat := 70029075267117462579334421843942318799275385247007062634404974747476037529347367328808745971274891622307827471205430457097522751645014232627821632251689442814748478997918861698550733652014375660531385812525059942298538224673890653851107434185984314226044707213048888039524461563579941053822504268833321273109418243873144955212962721081563502197793009989689945867788843528949061549407629034890981634496610909533322779574218204915981961767613472801654452371941399459431203634572480194625114230681658550456661104183002830915247553385325234009708973149646969324786480623386199513280589079170991142407118226768505584845119314317916004201869875699640296476656761078528830396526493755424128307616337751782635200653078441434061086524089219687993327624692258106469268961847066164528801505988161909921561996176521232690192190119801333521045759202133892899419123956639490387889772173232452431217225026858197791979204506155737327054731169404716415219092154553803827861968823238994613494128132498833690805612711507808104490065317504782908707959508157459242347195140743087513442530998686073882542157948955293721843813557127728739879016226685181768898305651016867201007732828049479062213801908755491977848881816086153947785326441687732555645958033063890283111607884516064476935780882175370629163485298865525234406704065316691132192708558073546693370885331154936270037824438048502022076690175048985368758368261972665768220318243492753198255362998395606065673428745737139639429753745064260972339845850416079890859967851840584347666954593827590400710759826416379555585159735644338061514088735476282908151251171921649273878378592639537084780281817414171997991844419875950740894894882256354498688235628897891709495813032993505769334776366216936843211346219475557767085630434672808400817860633457309452810326874266897278140010120374623491335587268017612344508920013367956477798604100604048297131482855352435634835718431662860977542899381751731477308738039199188700829550403304035624000815194491719481917141296606982141886723413858658342463334772238683565467051583271020291178968148113073146299228655115088527708428669691088541193234791221140712331977838458876501990175397008044908150819042793820533518045597866158065814452065937097058524550328048528488277472185822944528103686345078668675205946708974892218021201428678704951067994029304805544019363703589406521960008311132501916711820837648474980511723586221843018086983025004540059949700522998296003764960933740112393774486967914229701686003310175843232

def W43 : Nat := 70029595779941857009111345106146291331926470441229033716892412761040102055927237945212121715952792411742759840253507299820276345602957071853674183141384015570760761159353859093128885444201175221750237487585218411567559791250417520815561241907980696202089452756195020284551297424478885390581348065223582844009564251239842615863623494688074442386736953145114572165357285051000911776113664001458635684210527096834708344434878597546795878957460933496076631729333785118522385248518471366898443126875609024977932340479455894780121054114066463987261775995085549340208863367310787246348894131079164241754846371750539698542498165118920927665836254951242481727561039631027526552717849930791462218162847589986658087263236744712518319661701533343890105390615685115526643751238011814639561145830402378849603095485127859817647857960504098563630577933681666850434187434880423954250867178949656401372523253565959202217956805614960797145683306504609996953076359417319290721906068015853444298956305601023651967500292012931822726012713698384507649874088086979037433741339018972225477903671353113176136768949379297469907910112288117273340405985799628377455522478151063775471788828520491389354646845965012208922011897841274944098742104085519171344161257814992856900718689720651250742492194806248538041944015780136350723029508877820811614463794103540766716215957552505571699789155516892832123947138871364296224593442077951830215067335493358602189161737440808047682122963191375038103130575858552186606862107905248886730549701497321211556443035464352805760800636426850538518173670436443339287423277824717402979327063844138728241611855007792405377172689590834078289463596232809619166905508718345683276177502757968515961032644496792150896319647436944813594354719339866807566907551489606699410606120698075454744807977078823753534244365006998073790079654298857076599607130404556355922691254552925209406199253332001057006193167383948925671998370669216203925345044371829809629403678343146451882256647769813905207978806985731375965231737619667318742927884985469974956032761074656522447632398380842143901849829540153280668369292538716076979065062283177083363236284275723007470460253527487302963126624873791391183487575968328578764938955257949571418941384214751633789354558897469014765954805817254033733907773837472336794641043192406536478081160627290343974366204946937640991352713139095999691981087259132648372827703673218010099654016938715967439355305881612931471359031991436621577441429904208069239071364302646371

def W44 : Nat := 70030089758101243402488424670498582343269536260932935344082964000447790844090579821804234313087201214726907129647547381362327846341997106677799587824717616358795938787111676867422236675027635183540556703927771291396640288777556350837218540838245332438903277286496463986895287676463510227102142456134737588115947689837364880659722651726859843366197058959714448037026610074686491181082683502882951203326967928110692923419138605343920774281154446873299769642472257976028941458170587953065735410825880368750552735322928537592381370447946582500995526092931292615168714564170347107430336463663849476800348574548540003172428680648258508845011851492725805801744233625009999044589029970749088625767814824940650589374687497727602156994807271527473716783776694392073631083845439293691110784611576015952586048319754772272805071906311551170670733869208680160732279092720026788455478509645862930609808657262371245504945384132812089600962532627194794809621440189652916733452329840254627360404606827029491247768274770911724241503981773415480360081796020688911943400815700607100285618522135048195996505348090950129911630619761777991767703662831758053224401050320880543586746767260446645816658296717764458703384962761257300179399123617612448087520464145092997260802337287486296285991577576933193284237279234013726922732899900175621050962098810222501908433820030399496952832727136826955990627529193676414302707096767712339157286503865004974552178233310527013407473793806496958066426212599911405851583140368894304290463492555046808721969870738345513485314032081210748654547078007923253265125960399008485948732549408830401186991193710900200156306684880060395256977252909634690056616801833751981829208222761078863142212922905825209784272113873333122184028725933690303444520991167925402512524639365656782421389163784595552527932230585804607375839507353024139680818327049417930972712726684598692462807859417158793661671670874407990153366565399761959893846185322957411267057590558699499124894147130179808572551616412981634760200437582625293023275071860064550142178789615936603609281515261141994857762962131801753302980097482524354375549571215898079174352045963255587083433749269280224414542176337182622401191365681350197060776703695589367804606965166753182800529505513480549815292678731856517536423809797755586789255366660892790588476170454509753617108963886307215716833402303109870971215402356082850997963331248295655242304079599497456298623113201245835583577077573141725261240528336479907481492619561067941

def W45 : Nat := 70030558395010219109195340877679198899878965627048270467111595572580688133145046137958200153558671848737247418360155771187765932869200304364680871900697519320418490851151326696338430736606681764872549030057704321089768583499700760413755078842958188869435636478461314239860738210869552391846232686104568767361392502183050694472578198231457378704486565765404611970279414787333603394594937933934123549315465849643448198616402615242739735169583597017846263238115264251883943536626056745714571937523116354239649192630437086585118305886933425513035232083472930498585082113461754281265954227511920904443115723440942596604153925512411012685839711717624625188092194507005364158867650220054749088976991533803889240015533364232354782847648531760176408162327554190529077846308453331257556165096537841128991966254550128676138011351372776323937108563977510424432929356042946296010011757120325274541019142493180903584431391854956275846325785456744021613420023209556709173242486607367718056607556464184335295265401187606895472441393415555290279698022246774493878458993353820219148856866966476888552071202174691054214886203570410081659311867771718969652149055497886949867632658873288607663029447951924791132557106742226758398893313429656214508348358723421136333478239975096239952261542886334526672859943822037114447354835513710306406918462453905187745961305055690670349477683067487996770705591571103709597018308453325625968265848247250143566636127818381448077912174911790406823542851928605881996106039793976664514732747697312612952560517614156311308059561164212548545341501608879594142231741037729585615849179780596155397376009830907015051508528373092410618528732330942138919552756558517207101323151338918645245014273827272519419390331419544970141839067111754555543172823750708324195069234600841631846538544913414314581847902432831987173164031385144488001347199070766470534032433067069957305042880932204111138575000357706796845223972822597027903886780640636237615531102849375551138851436875275684551016813760325028556712498058555880186671161400676027839938745555314270879712860512781245733132854937019740174078310670118275186418717087160702669227798511017429570849448346041423184319971470004587039979877313531304027905705924809218908441479381564971587685027081920736091036369439141854159403222278024580658232262171001093555250841095062978359550109407506410828909580593134735354779538122105813885597826634546648336320421870982801187322286753028507265792405572975740109066850302947454910308065373006348

def W46 : Nat := 70031002858410465256693600153251330838026119396704265806821284679130693294845995446804594932715971191281469941564032028710587139379379945954224832094584992438701181572776905683556676275389129421977571676039720844145731402867963854243048990641153555932598526640863770415782409923883532137238138819135890167145501309459001291853314870854700907652093957910210230564435283030812661657171269869020885565379129777235902321618213315679294340701925550136919803516117739198774255938865939759104875919140330156864411018719575512732590351353486512569032972505299939414951192453490192122280722587539062998834187545398702729471311620686132836943515087878859418114869940804669825911184877256283086293641851368327279798869284547525912455131949423885799154398998681617003999181543630948509442855085712430097261420044331958432955802238656886007778407676685288652795793333172153906889887633703641397280271758276212658325315016535600197851467827616110168508474953334775587663976394208268488111807544850166168460192690979725276698760591500799656316244779092243308245711509116039586333427111599028551598813660713049160272453020902599841599378268162412026877219834397078566000736254671411546171531760164363233923524614230549979811747041087747214665886117390835679140662550457959467725704533797002204564658332760185437244462640018424884830603265437603483151794894585429197119175606589623030916333944665105917471795622668805382551228353436135628505269319691891763793718110387681108109930893440241070304314382963240013749144981096043155233134001161371740290439472559636120586034307687593844214112753960018682173080695543976313456632786406709566798805748202604482190206703140006910827667131247101628665101665490641178461093486257715449952538095317140070555458356911592213924699635010615615458817528789595661847411548763993916976882715612531506520256710138470944734316289575438029476321990067572876844721612012400087519890725758255696802499680639488546847197884753185680722384386870970265390358127010012425194195123250788908331338363551501616039956088462795294659300093013844380786538488157268560837246689569327883754316433408877960887554856796340028873395402479806915539414990797410839494590184776368685783039124274889419781858500193241915115771312997775027627603168268377209646653701958691464224809631431427130830932218566372076442483584939296337226797994781388530470877445611203362608547224516338537919485082503430708710753380759823703092739878506246999004328772613139274492524249951073056265027073329377537

def W47 : Nat := 70031424285377111351764280484920105688842778469983770582340178167357544630126226311740721948328313884554597918636536058855723541487401336613456852437459806061544270886628564977691919365039370920915023451479436747607023988717957973196229627446058537112205925274397822833990087809068378784092679000458332380222098750357973675778309437965328947886266566697102589417547475931042905466820829088023842789194042477860992559368614361564801365965348537077465728908570542167009855954871019414178419397195592383441650044571115387392202999692324242860546412320661417783711626200100176493409266784952862134698738695900006749043892827417676430603410297387909613880803860147085735302606455890855329098337322841742504127826096173695384561327581919399296094265582681442839823635618455991586004385188879255540364775152556157356507727403135481393819575384187225206766421449755094327387109585773752142037404506697071274638962711322232580008238773379399271394784045849236282320227684821003575940641124367194363814271551646694239998745387785482506208540692715570488879160270583507685481766735902765521188500247996592230942323966019730968286407517687504997272865792847041146726494342145031330640086879236592192576746119424395574432795663066240455194837373109407652585572633947402245916315233704010768890077162958719912434156339601844926298909100401890447343524187045077244999056878403217330624437712792843736135292233663790124230382424961768974207434350990506614836555237615692902681676898055327478094137459072113940321616056572006247099871867575674293759857942159657754720597263215828629553026665738224531572773332017129494399358701583827575255081867387093437672263974288843128454070416550658308479832595465171609239040623678843189812952568814787039812595224473575308514456697083942048143125413880109271618529760979976728257538541952399188878976546466778005609365320820509782115690348934324728423853036288534818730207553036545678112725203092250291981864748747570936382362712800177811451822462333373830982730796371374238260152702909917116066241364643229107674525394745441958654057987541539752135388699182597335408339814072983546211488770747978290419653480334925975855296592035939426421458151894002935706851631671735722506538261696561678674935172697393462538832792895586683414986999370658167607568200536397391959663813147196617864809468766491209896545943894248023814876749935169985565225785747396259203964644313542725112741030742717195682711694310504568079605149615315679031646024301855439210777933541302298

def W48 : Nat := 70031823778640408248579880132191420890422861260373428371167249522799866778248813585063743039369708822937151769368785351411871515218567512635625226063058084646631308084017410681480085773931964685824597613284409917864175645307086038375846195565017225198101667854636841026430476473967934878203630219602383165218328574207384437462689302341710269367644650445415141043367276299860426277267574887390415817849017634089506978336412054811431266963801192985089548015675339683526954521693899209508298830222078763542745166090468078114776719462618177800459711398936236928871999687457560670684372172884708522082095198454243697376418382062220581683692017918841615909226093852021563269277571241496035254914866968348305957322525316378049375209185834727243775225925367569874380896136038645048885213890893584998670442544749947367342038395420000383415434858775370925670521351078103242651794832797592531939004540408685557741692683461175737380067945945747380148732724395938584282730175177890404122114452659422852572440963956264725301648206623881399857783375493236965704288329526156267443094063052943717518309386804082353275648244942041419114656779549165632375937445804413407664341388343238000392605071540957425224698484042587818969511097289770661780407110371257518542689891416664875802037985455578617306951040513275611495477174523026032180891407929863884832175060557095449081498394313827924413625807983860734479756168328480832025076265866782044301613339768085170389795505789821848924689385836877156765635785516828281149572705959810881240228733750356693677243985830448771615518970498352723185178159321115582395275316461623234585959785768688878041770783571462772556149059051261670903966468058845096356848753921644833447968130541288693607636021714012193364011605806200856284174494909673031222913153646508392311710243358696097276170184727529225438154462356545868151060899500020244551387408392421548551284255831924355880483699709727580283377178343537382389719229005390286334202962454801105646746329951143678165838284069740150678937011999568275092411638992465363827513717383995042774096328834245509978742714683117671061380106428539651942408807296570768320073364100781617468748892297826982189723702398057694457137937864856759517980375861730822983850149973852991914233922422776473684996254273199157031074494781510854452160375235940685400075126363003502669437026269214696573776360088089813910890118569102853995449725150624878983164194262912255259087815406162936592652158714583496645320615141086955974159190665937344

def W49 : Nat := 70032202403983363454135266891862667766950923144564573327219729234649126085722506015257079537909560069466269253266182998096857486828524829404966080277335788989994590251192770909955906309026675283219455626344557824485775459712511204703004026548532124073248541497633576538816817965475094861804441410998275276173309516807372413082918605883608754743648514217416296548471990604706875446251167471536660236625765630429435428528897206820736261057454856116781796671265217264440061063419901610737882483409790243871485869161365620002333484664686982241722360855064156345367038656683467629698592102142801380513895616992700718500225189231178134784056259401934986763447046233602909650631223275640727697515038085096113617951872803838969018980803179918122490457157118430483618869904293966096605411363182451071413213893401540003156889683776704410703048659062421387444482336940112828021311874938025068817261240472804344518258121067361960746963796348412137458293617965819642763844355792430062337783846340778394023987443948304905692641971197001365910183031175574051342995145842875618815784974452062578020986117383499673486399941775558191421801485305589385656703686524688014368618553366175037455498407581133571360349301087320424438799492093731930279399869254785701445696338868911915957606115429868104301465048461970343913624585511191810364671564335221539841537064588111645784369370028361088760221919737558933091431585039924831643807377161819902199850081665381177216662736373525058841402882127527295757342988492369099163307151793181412263572177256603090201596415658729072334368722448277983404141027647500068002683636042915340531083227931787434597578335847937150033520412022120833620765188209492499376437203487433111286874855714623688731645571932411997906950968637760373403821171186058035806077376009366905906627783263651640558345646550579164534573410371311994162993719131279084004531728916692404733620711426865206333842643346436305090875161101158003738640318298969085228887964579989251566430476821872147936132476334410848623523764679236949053211469834801983626945320627578868270138002587618450773744979892633430286080287632104504833719980356100321901562600126548217336747896327652317515211689384477642321582767925605974050383704106913149411085171179548305313800016194550999516589303463942350379209004527777122461555215740955875770269869628791236070971984735740945654557419773448511451971496917980571110972768337583282998366415578570026209635855013885025172529457402722471266651322958381819598002603003529273

def W50 : Nat := 70032561188515022701241091088600796887103373808105056538995574297557094712396554798545273704763883139366832241857604824865332138690307758078020029306358406199175541716002126898464135949845937111198422884559839594450940866521305797766745936836083817091953924521181178524725007730147311938227459863091534520578548134087789377851080261258057471710289978754941639135850961458681583048864626014570029354477810625909806932804698248892196858564065150392453760984199823157092769228904008773233312772147115362047749646343347193863644584958819987547388125471190404441012777748682204082306580186029843348404169963736842253645715711192609280109948183954852452703378734828948393130836669466329803845194621722636179849765884666036268658504239184040219877053899767750659986129089287739198785317599938137124897268411083801053759208367437171681059032123973704788861750216949378753989017527285839812488897190477137659666417926587329686340900183246283229983637107889149341945735677084789058776361224635481103922448393226016442814410756326048564272998532589235446260830466818325121877521096754093137499928775294523976969932401459245923690887637516847514934375532310357570349005114338791234007100678653561671808596641730872563355656699455146171181482846060668857550528607493153654766716232674032382071888581082026523791164383364385887702331769512596119327363229294179245743301431016966373942721875434465474320917285305065096593973841352007866550593325667021725301245954845097819721355625559309073110272130371452101248827737798613086630924957166225139677865163489510219067319183522543297653825791521163921721800753890607094273532325718545801954864482740866863716667065820494762015057118073068347438199543711544039522913277218829452158702050081450341431762508984787084258805003145733787250956893821251619621724279798901660606196175006040149599937038114101426046055520806191544682484141222691693121501337056225485095841262034519361631335116372397925037161631116276559287442255321469021202047880844885961638959567287259446689037453730378747590791364613992534758379280077829601991375421338378144653567824238172671416377965875682061239227694681452610390477409474412888530046854578565153688163415548047797076911263687382511207069630981008997500311246082835976905678028548409971196409504516851007464805037084111447321251243717354826608942859733332904844141793397201055274967848188651955740382325751256502381780451123271271392954920056762113289007572190728475176465182300269397593156489797537917133342662335331032

def W51 : Nat := 70032901119652253615494506708560431761423081048284987267605205797059098299037736835821629024983980046335730674879621156286958278253592874106643465980529511631790685477021301012281326887871939570002322977645558513701738889297380677858986539431458254622036395140669550601895447363147384066822573214620400864242726252463928470625778524240541894837651796267599808275850184196022322396902364774540856240959029924559202372742852172303646933123936518554569191251883917732852994686308276116538849298831507902208367132527574048213725775755147229418238963052963467872621030153523853116806629906913693528341685569260941008875504368292142012613053232985171443289684203751274071103385735808764766480880303751817276566236262536403696744165002517777212980322071273658678885493535326646834249805532479673435289562740302396951142388058346108515284063961485628684821342356570074979268564917778495899521809469922881653993977588857494596285300318950031146705273666178666421702836935980548964904432911983097372493652179593464310988397451376987613516507223491690757495906844396875933642794255051897725762881551885431327246531384792719499700457223240359934980110727816395356618409801736873160063434161324599395285529753474422803275029231640701681564422952175921914859635750203316461447956453884053291386891305082496886595725404099855892758380131730126525612610899716988282785895324210480400098273517754949675249396045588595690183245942188566085647666103694071696226297620316479611753442783644349387240339729312033953085529664667236475881576019382810680965770441516875598436164626759918621585054202108894086885701448996661646356930693684531259347198898736757896635270731838583308488707205436087001929304852958423163724794420378808805618569156086192149695084769763129610912261876831388313776478824015869591086426055251381569527186965031078245935009374630726850898349409285322074456168581639044673690729036811220019783411029398667843195780583869342851446466241750045494417159719316512042464318585908160035325911062182059096829434679516185736989090022974333511776067695050898973067575864576520433691360963501408762682071334049305352729266666232364455262848566550867792193936362760334173094186894890446915509558345337382133987074151527823844358362031712106987516877792467029197956875876342173163234577993459669194783242879540364675998711575443875328859504447699109263316110218736429329214711408892746284647655698680313553849145205973261462695439892642816854461896340395445413886641700065593553346029721830553422

def W52 : Nat := 70033223144670964880989790384410110323238522812925397477760795669980039640606384453405121178054390302509761773004976959818333003660925789223045323732811999517310586248201924512742268498197072396267585411438195094179745812038718930943879892668524612573242567672639617157945011197258387011802337364785349501724251714119056502955696708106971664254161787435956385119952779199341178605076264719503667123804875416344806105049663657731505325333306533930834558776469475237244556761438767321672388710908975745681534054800479614693132878772441385489275002783349820559634721682594820080404222044219256956661265045778740639717417085993166911998165825611275461374783398999514940362273643914416100261408157989802543856504882986513638250228935065652498595133579994997547551591994589666586777171462151212547421166348014288674028872501508139045922532386895099910730084682816749653385334498418581046652681767166971647421038360967653746173189149543881360500254352651490682125161598322372298630775821755048576288953036970212773697738121047388781482094732443696613188198299613648524238613712349332803351624764819361484138865960764313763045332777979072658746485081580965600659907716060330075451614472276670104611827668356385604957300499415766525137545942006265276039868084259932894939337710169763010412134987003110511812262271978183635864767561277715551930463385814866232815778156099233233019475705511100939760758633616356485737030740465895934676838440017194857458732215807418312973703655043688150744225883287854327317693177465705282539141072877404659844888912636508451223323831883007836085430061903434428248848978979070985564291791847384288706008130007536986973105982286412581324858244337643521905478415406588380592884265584571650496180747168729818262572169461216223576384739453762907427242492406345756543621199713811541973831488783025865952278540073630607378172949902555397015829394229771250092258500450095251047058296082862661387392124121928344564153831230143375125309162655911514288745549748202227595534574013534024615264556613398148066436625000703108292717895484598162500073915730945122228319474934103293064196344340570304272328804052156020205497333349252981692709116512180666756810274887218642493294943062165609610575883922628163389778330891622845938003131264743696409673684193424555028971092202680034840457249974187949608625676159233365427140790843057467396603096760884643031731383945054178547574159082369447521542581358339037773491068927873996887062456880919131101632066389793003580045095245102721

def W53 : Nat := 70033528170711375836294589508050197505060442496554581082645353344411928393784554434691931735744143415003702616892450792454647552617671492934924710170383324376892026355730316306718882714014876935107556022394844835939027653255080393452857226628823531248774527779737044709472329513269067035124380344045732953040039439793220106514965792354146760873655278865183448680211387933621240137331379029843661854957465924593879716625410761680173087745150632941114675620685060362948157911309737033939095603516813758842164633663766492968193799409804336694837744510070788196948374184313031273564999286924861994148066340290211364511869913383485955318159211117805990619435110455821290380245505458100614582851799371967259151606952340315586084915463384114105038848098867438501777905654648759493370091020503316528293375468573197123883592108439498056855867493820546418533299249258526745498922703345463221588341248826266403168426388404878862752406375765439465048154288378717556755591480213618126027883657693113048051007120635929398437303010256392307376759299690316936428837579607962823148501463720080513101954582706640993553695685860664661284255158299592689234365019950957601632316172693519756484733471697470762833150220073024504313667013792980675520972462654796246188605279544899272714494779486859808154122928513227703269129653124534467637995072226516085504095043303181799296557728846938102113983686449981182915965615046487217148571126767300373500103249364834084616649047101508403635522623714546991028513759944400870970137552509465054791987767300900066151096053509678345037971657169393457350298458019582134504149346980575004344086669662715169147956054456696682870753850030644138660368769790675827645905930273309700630291218168493325712646231356182017961461364634600248937582209069692366854149850780821324437800424054918645401829551759333967228643121564420366795614684085151281397972180488185320673809521338849210715301660667331973764594741241847869303247182911058408027852304757056190102581256248466771878093387450118440280722760329390140183477004875478522243825066415464314405922464184763620716866510676379500837786784126006657030334598775699720251893173260859417642708714617429759875170415121946079950168007171880765572788337060656178596142910839871665907549092126232155254322961754651392844401035575325512805512976817953964417118434274068216138622156030681568800958042994534670230047387454708814030691914785603934455844142336424099377298510800709244356092106113370902886683739074982916806957432146367421

def W54 : Nat := 70033817065141865199625859900113661576245984277520649340833656735374713675415071343463490191722218807866624555509963089961640193176646679903951801928348661870503018044288812690120690443399992281505352680111111596462169564157644746607561800429208215465756595456493619661799583062371591374540260359766457248825427442571363876628972347222685581055831412053769827652216093800431641935623242915451836438850751797137793064015214585444617886071885452318230761531741446719269462371887028677872908231364343449318162288587548223418285322284724452569156367557268632276187921799029081606178147025667331255363907179858604221643358874903406171131505616578305580904867871420854590683696708753368596525306687134767425097271060724415891499120840210253102016144749708238294922278375000668379649487411664000962088284065213205781803788843286217027626755248745413151690710402856552163531753414840329729810220292532358954925453293439251272040935075261253337338088633038324496759825816209645862204573478345006906318035209875396153170694258074541330514276243842736606562947670641287004904537713804413625141879207653174849406175767168186688443731318972431217923015155680506185501304087110556455106580192356915997873991976046174014497754030425583344276811352828251368164746732883124098572431786484290174736872460460812550812340998697673338312756882275411003414035242781922187114580964570944889460974362296737155428775959901624145526618070322900468711982300704954627841999446971720283339322624891771096383472444046857715751321157652367485796966088259673159532009733683440252776900050570048036090407704254280574834217490876307856571332147442652141036131534871809599183458700570497795206489702129387724690853563234190798608150924822938305009555501413787528413134389354778580788631656446497682303512993409247867860081104078844502342416806634389422547574465023150022877920029133136501277646606408423923443805274731652700431632799646990574622862276309176633881732871844459587691485978158019555893154056149354969851171048449408046462418351419430786406612404847781765582764444311237535891405149698191932613244439014962296144603669119284746947081966856284608350918204292938191020523754759861744724198295845567780940393271632471719289659776109310224033719058860792507542469132101457995899518470900907964599765932691418241367697672866687479461116356797286902892283104096530413713200582009604402939419067052681178507772367653058862114141133287451020632001081311148073156616961172702879691069567301738551556716841837757929

def W55 : Nat := 70034090656202628139296515723613887636383532330664243167272790621380168887827594062210864396585519302919768496349092791572518042270894943933761119725826660018873461580026108988840490715392139443440707353462224035731974197441836225468574502383626940446714453488231430318371216940772329431999303874054890485863372013420384820665357366502327438131554168672206753328722193245317659168802056331964125400196599064913191512389226863620170920665823193698656682009745951183802823393734672880871950189583662173335314847785409786682010186362795428708121239689017787431203731786368115981873889624546127440657179933515298757307071800164642002609094018415735772527277318756940176242940907989592326265427447337694023933340542916351837588026660749241706333187357514091586207789544293085369604686681948438785027530772984425914483496147376133201879512648178415126716386278151908948492488244349521512953522173143477106715050853601672456038818851661947727777775313506227567216247492346126091962126365081030515791605589867610020746398627265791448463900663907500240907990046599154894582687371614946710083831601123296961161508497856796091124583912416884274713242203206252699062429445107504905203433006959821238716531589085083983211984154066322341628932344131434888891251049233422062818123209458091417634098674604418932933618391714627381683635831060099868648115799686288054450063165613389505670684255123610544428186895243630180084826717800234933415157614806256734859709788469952127926023569799069827023321797158517360167247979175079429504817438714643125953773548520402933032212279555178605313006517463399604831058304413733839139953835351729507525424518935723991412694363110430070425557470432358153994712801578362383085312624471358994249842942237485802165125097090996661218192180384155522075780120828647446055294043501049175166339929628558327770260811180489427903866237679550168941815442794918826524912721867718901501609468701588330654100666719624951260366179369318296391910545394659819706021600376959412825903233848089821394981050917958541085290887509543972340377236795701669414361176825726885190134477573288379503849996611003599939312933229420177785268855857924718104076999735896381683462800352521415118392243985940279844838787861646832578000248832565386020815193232093188700919073037055154430305627445165070400428189837487644718922087714891294572703076417622003694933550661551785094680750005367397314073237307047495938015862562981030024422047466371959720444276027622362210338251235878294406218930744494487

def W56 : Nat := 70034349733864343904670022523524794087947809363784005591893459079931572849192350813299903529779728212807615302714718620615185502162278445212623208610857386785081931884942573080885880789305184906336719245590485232320514355384929155220032936943783691976000660048023801782708514411578963260760910069072031768087134363115690234181791193552681799947536362648653448140852420485109390910869922526649259782158961955325830820745391077743824592250841596496366369168990015564611912638086910794398244859925050176948953679347045253497237553825014141186937474964803085520881863155734219926611636773517189777639416417459070694017772453803244326053562179877625106006913017776034480537733991235735006961260654822518282391436186324671307283581346891888310396806322079266620304030479155211227203860307694237820408258143168630346850462402810379259449890897505025175620990089925597724918323329512084044866799678212144288637704851657163037125529289270884361200738260626937150348557988564562608318532399555078990141607108442726774579567842077906040604681290060626755119500987237949472229828247210964125015872409936662810823143908847051634538295285717676838915158078133756892542394781307394247475407764128158339684434537776588350207613307872715444628950598981490743280246823149138781252963815551183081947228246519207682460304192879870106197750486522816624196007185030515898582592567527127113803849998585000218108027515336288292870452186103744260842227256875150459132159679658160427835605295652270130212358934564233286521322921070484408282989443895599504083410571700034903576886829630733979188408415188760560820481389095629878917233476820049448075985639429377236921469770831639944457668550264673567928293965628381301744076748561212556275132440884921843501671369149989959987311976434028303584485639183480688517434696755593955260076632331726417398002782297627382845256501050987854106126155667883980872289701793782674304933973462157985739065323108367555023679449113006722094884109934983989164510891432588811328806955181692603314456644772320673030149100373031367940114943178527551818159924751013441347431768961126119511248696386093812110286079787720639305364296170377495728197492941963114740851740582449884760757989930046984644703107023962396824444646752364288413983097003642682054457031064538370681429367776506123968699148602963797386113830231602626854895210326613862581637818780161343288103553091418738837095012751941728268174848550526971176859523894668154184098922466763250076232128020551030473405557884687650

def W57 : Nat := 70034595050848721396443737593979960520779370902158847893596593533997225763049849490616746175385864083661542427489679421279951035830547532673477393700990187288455914301977386397799206203935564659922831766353147262738607769715081935122795588192367101352056822048021496273603901610032533213069874270275671816873453444989368105875425276395565944352225805454187196639279306272774816553035058493895616348093698730200823017866966710440397857999268127595834586948609589430726237060928641821265735969830057378012886472213208635385114674994803937804217464146587845608020014627717778929678948550267766161091071214198477174056118204220803022683327441419561908454690994866672840916353833306656119489310776701148705526393764728239636378787846879869341758970444719146659661612291930695116012782121485266658903472364569012280273858753062844515092313544554405889862105389369402138705008002378687227870162779563201813165301900866156994868992153010691200204793570707683036176172792207892923302377465931151054055579153153682355379553149576442236132832781391612898162266304029835924704176475253732632387902025683504020976566896307173332106147241753230327102952224099126246558607049272773875018444576462925491863517040586976976342650863704815599938170361927442212471141255218598139428018955577023034847374943782516567054124416558753297126074810622173173410868809511672996442027330730298970410126566340346091484822664190507481258732582658162757340130659994774091867799012056995868684444263728893765871693694161434965804076536816333437228680660193983066618210687803925404636424967905500163865406642295140531497585334212881019324090913213156484583784871425994266642455077672144346792582769776254807747089485420803951335613171896902041218185677449901799203845370792865460211910501442235388332665455965113172663421904600110245382134749517926856429542741803978558171738529520630558753647352525400388346784500512819407391660651500378658248352263582514155302259362426262815830028294820545428423706095134949198797948952037896278412392728423862015849595770794454828647106418090975332570312942725908429052978741400986072155049742045974813315842944179529843177610524516240102785470465865254765787747060057128623024758415103320731423943732372886217593702771595794413686636701060994124691956897786054684310543426809420404510519533717097440218278642116097177457683274134153273064927650227717794824254593082568742866750893734742982619227343647441207325249889676917415945710466437229396542180774024065283799604607857522398

def W58 : Nat := 70034827323767509937537256442582200517736756094472626117773056418865700173952024442156099344056736137714920025232902044544663739035736591771070154712304604758779841253123132936919356456202947823354852909515899903572891771928000235813637529639852046253804051583859039102479675760273875406128195443362104639818351533674879715119024573611802211304801438532960960236724362020486645298213874634684131021673403264244519809865543334628545454842718358887891045886029879703262140708276036040793823983078615380214332660704016823453992305678060213856289358169323074337325970646907677633453366546748968911021127113273339309503688514579690946339475576974688157071478690650052403978598989623176219361188090811855060111894053143168722455110713114065194120836203162014941221930714361563941671373114549508279433965468257116721975551408494619506097238562253369199926147292067273364330449056721684115770787760175746324154370477987344617816879542244619497382731860979802710344447149755726301866683827618081978884958347414023649918200132855637896369964730663958594823342271619938918915783486562567659801206566871189748803638006439916334480694628480565534829451410866830639923740763372054132533995028201165954035109516049519875743098013215463499272842405794605401684030500771553725130941671078054751200092988865397748940551065129292475927529992817676440212840791673453275937576019507498830421775605262154011127803745277587838706896960557014043660271067571437122026694622560284964139970688446760398404035159426175100434382981244883059975802712717431346312523881827944305977534111828958592665943846071693059315888394195195048649527662170239946811013698383279566417311997536540944328502896237136447762752907322323534013960222518638094260090176494166022809994306608217892749310604762166603379229147030684883364691672057363307336966096596243818458582670734657324401092247076044722994461341506941611897569383124756008123139809722807439130356907585996719922403663746538952946958833130304787901428827705975520826741003540878137594351379525342306128907995946722371668846219660514385518543961093379916510051733962020366378726270909658538138095836135601351407838631761598910151598151596181749284382546508551158317806141078780735104330993974296835118992222589474823000920485671189534080450323076224765440148539453731180130494833648167833221125507536736752213147250595908745548827222729506257941350390749563369311579425900442169048298491498746708700461368633523656590977754472299329497762965928067448146490375723412565

def W59 : Nat := 70035047234344645439531478041136896182030264785404324734066374577757307054863920509177649594074316563911497566263730220786772031072992845727557430986825678074198417501770119142252464530940392071661759748887560985478407198162476127337996345458838153293023949231322594033439745454804572485345682592866759489562141853002467546679706444752624904829359718352285520865720308556204256718115740310870958199862440681588711917273676781771941486839715473871995252308776407624006293848387017822460723392380913718163461742769512109791246921546308494609044554299134245071089567370654080127571176867038308852040417133713153168373284822813636572163844339318044650325986893263386563911403004691127629536262166741455649745875294629637856400778618746105490017596274648389347285734527240961921106634801495450990319519938484430624415602571979726915196741911725660333310196226955598668037307690628934383291971514662692618744251778503672995655364107716620919722626443905129087268198850116716888746310366855734926977854716614758100394347120930768645874082489110748057148827812204773413335337120281341766356146072860377584388260276885491218365517027338475324537225467430746873570159401438227450274116331685989555110633100105420229917616595953769911912354503022706577716261166444665355041496653698953027100083781917729890618940765285534628137184608546544330761816290800580660548757538310522987596014473782549590292868963405722550904067511594824507930257425235147269598654910330287403756474082782093526640753233067054622047420327650604112863211905439857586348820322231997966647331237207621727997850722002398291265116117791337508761518995898197419502759166498893845778733034764044691814909707967438027586352212033109480460624886960031175077969715412014676110211528118478403696849729173574494475581926101862608693142576737253878604599945314982277099582854995088957392651065326211548396014862403385773776072639827343703140457888592153039398775737517997703146211711788486185653604906572252475717392252545982649813911312903222035165429069949428185248430439149531023857752760546776841493487580598382541749714321477563164853263928728123765341290469548173106512185334183909871757599094777542201186426368914883725439010089212837667609922490124586112863326782281649164440188024917760356767986376261888890297918823530074853251388176323014261893700090401229330604758528222896119852343786787998673943134901790322173542355599817902927545767079079242796362912523923013995830191854415546782503593192984916197376644979452113989

def W60 : Nat := 70035255430692911760416847436785563515553052306958412057086648346602843947900168255714556811886490281719580164008646646759824018366152453180574607418971145289210831610623759538649458546829120825762872324331637364459686742342522708140648255061823851288514237572235570590425719521084415731109207230969590601790080034479816252070047759449397121981282110137224790146446746433450304220795689655304150337886374705904251697442342453765634781953410916189463902562865455807202357957053266339305800051184441945835327409239058029981253976992200530272759001341540542693217057026054651281587529074164672589288713641595518490647477526726662124482582822001988525745125177365037524791555390772556917109674097376580768769815372277966413677301874369128442926364161652793899592317869295123919111194828428913655026090470457247239801036175851620118404841231387734279897242684069972277324185051897980579976389799219806208004711595069934409682529871184473372368630131111905959048750497311810201354413195697515202438534776802407127471667154223229298399612392012170546753920524152601441212767852747346651901203284432499626026922115158121229469372375986989403370973035421275089362457036839405229772376540083673118995437529751290492041157395020155440856725438679953512104684001144216524818959988916705597959725103526211424003152120233657449795488435495490375313849119539010717426534322999500152696275165232115816401200641352884447251864051378329789331116204414312634762090713326945373264042229369027008167917081162249916969020848647977055852179123713298774927404964025564920316227949763321390419728530385890539325232306500691131147417017323709323319587686178373845128010380459458082625232116574473927727176893912999231269414430087213090794295724456335918064249602624859660114151271578619927684165103637543387938653584734355786220394960907882633467463344202563568930644849306475075761163642920867295750584804769885436153904982147596263842009945928982882267805793849605264621479554363697405477870617875484752564875841576421597682770257738594283433820721705559925467230173519130626793360264418282507746028729913603392692749183327273202280650111418510205734348682194440322427198538083808172610610973053502441488008604212178743323519639832090198230874663103318882251468343392367331202271705679278115474333473648104877803225021414209119598327202543962095797125601534475544974220898849591706509265238691638566464702781463886890765278144864285970416199682445469180700734263697768926963294295197968853621001028677295163

def W61 : Nat := 70035452528622056878125725079652646162248668378677124309040150856254631039879499503479054946824994606976537163062927917171514726294382067458710327231739555738382259096468523915567432125535289341654338204974460458993139730162770648694857466910634147411543597689610011653344369752768254264507675739905281889258902568088426154195744927703728944385158641200485845849682445703534809467957439362985715159544699655601612797938376893620769963541507785675186199466965016736964511411518884263966654260995699716377417927209177188205239415565893407189166564323211720344457436865260686279017432177848547370078054057240989945410838946222851288880718527550760685378248755805433230162546229728160929708125153347693620320002010815722183201608817368280866049558222395567387746694569316865561019263092737436477516050898945096982527453347700168181829828981814097293545282846020651918876251045228663809921176375581102127525598834777317522677987466592121936632061275952716874887362588158319412105918448521677265448389118156195975530901354666540491591682648641715459312139301835197094378326154855680851419257728532733285821117913808658879689059516361067807844068345843968954377648240639101376410265096298942033273042587331440543928844486886033996100265876645425417825453260510493539170056132858528014964685835711192597876682159051962242095980028927450920167117532445207225809947071790359746078690754773819120207132320892165314369329139603786120636372500401676151926579579954870929135911320681268706930317034384926458909288972514308005271119573216420806491551139990816956377294283577619589612271768582396760567132735825257827976095916340986452755490955366222841060008160252987945094869350486942754440316572644214976249566840960831559739867629847797797029251547600571395676604237865709887891214910040323972808101510341338145671515336186592581071317314112229664088115427510983541661485417708181064374111012466965028865343380923635050887428925739845223898144488069788278087615283302478602881256210444036437282395419607895704794389283890859582317481520949075261062959522261059380131804964638641972038034421975834747118376223320256959138504285812835553882992253219571438329140231072269100009376390658687799484890801776235138377378582883773473549520765423038507811907268575843377931797916438049796243611710135166614902964167193783436440915098675475354834436470285224619510149048298086480965457858102285995037573321685531302091584002697855072793583601720102416393998162362038980601115383273225817984939044275614720

def W62 : Nat := 70035639112959901152580454823214934759469546252328659784003793389753065861237900860619219358420672047023599724175155140079384518645353085976010614398670555407279215188078507966617226306933142120425329578200618812348958772934746332132401906866554377629574543208383315400560094697403420473301250342776871511961741978025047445538640910141973390625511329879887006890227554254181815805297736740334544580607009637143086747454164309008870771367258825649877843740136169009668006609285180142076875980150458467765518982637631914980661933795874202801967467348459329588542026601176545314181142433689602432259432527753271585978533836012252200372423737604004213674763702559839620017007514313186373643993609823091049624229209835359057750005046561026026161495902318846524372080025181036190827143706281218047611702001291388486788615648709170068141556810458364290676856943885788614759188471751788056710712606072945621828505972885390519486821409301834781695999537758491448755580875764663918261785102035654769555074184136838590880219867854480443317906743033863514352705576778266990962766679307132145007444797996989837903169504997074128846273263940614130070129816968831156258694290766186771791888266324453615172424806467767164574481596469464516570176145355425590659887033671490293362812586692228890826555754620662071591786393016741064319525486491559089235465877435423865266142692741548360313481827435264917595010234143775028127368186859483653326469013345270147247515407232778512751544799335805985860169581189449714105396791979407338423248089002137867264638309439101800339793747966141865134385445701511367866289548622250436229905706913311894916274137079122547446119989470780529878221423930396483477540146439585386145586358687365999314053992130740438224976175673493019322086977047466676002461471443666111662724035837332693617365429632323238914000174016827920505116054895424624249781377722761439195311124352493868275272806412619804162232368122350487805364678432412012408986844433833334910497626901444684309650199069226310539870168856809581677691305779254489182643007191136763871513216080853845261251439866731301018601712492161702916153479699495409443337313501641632707600321953547969888177614628587789517305453257135415260063711592874854253871621385050079092466488723010854074039666066437684075866800560693263562950290932153213856189815125401067046407136246138842360738857365649563939557803898846102157246402056814467760619977973487442244701705938950700954383095438987998811814841730330562998072724525631542

def W63 : Nat := 70035815738871770317905697835176534693407127380098482580432808779012888457776894190262438560018439794857914079788526934690263061273959021992531785620158456158524542276335273907523825442023142432066108564650814872805331117142236015613971048094873412470019761346650047358092891483389677297631878383679833825083118435457908421281582472378918330765617832164968060321625238402108609524556635549080778712932094319678981517215411931151036150820713063637242075331448479546364842524825822194772923654002002960069073402189558350829741380333427274038971057709308100053538200202031313828202310683322733275777642164372589161248547033614561228404468481906250385250963376701646403320416253563121365337321722341544411175412087386159688050785871435666321882100733819182748720590923729564588394271479065973610661509206816051888827662497073302811986893441759588446394112108256403483048898009678591336650841362268766149902694684093803097379621739899301379546431642859511396169426548166805623596926390230806668169813110382963874923834850708495340284787415582619717534124384536017309530773922855539613315402416129413389567324078308755681461563167947407259013713418615256122025161040842070731186627989168370869287727470667053436870885077272740512554455416427087841624820077360873652244379095269044380873660128255071027030255963723917886868238782177131961944811837083679727432570425393936774650306084974662153203959437143926446549558023491170588473834828137741612921078408191808610859561756845155677070026067877207633944297767385409397819411338143695376552027057166288072626179174103633539319892166415862674857128544063776901356280694810030185044042352725011070162792343426584239029198544988028379599733036409052502878444663946361502295366331402513684902413667261107038817103219190512528246271918188610444746947422770542551260129990467380705717594541994760487809632335820120693077397088492868831090499624455269260646365361013822539010060385488315630602106804802892783896189426218865660419752329958381447783507572145709066194370457491368224370490535898325838509209575237556832144898374836422136672863957776543240009568151167877071961098380190138147069621020371353827921875124577814496423030321949341080961377197270316292986981021153376244264742159524375714438519038901394128844757473472100995186437771762973275303714187632856953505610939755619704892101506128680691208560423665852136565043373068217745233573539068829196173640773362828494284463790383912032299502014390054713783287614726579863515246779601018128

def W64 : Nat := 70035982933166711977478368855082947687751160075370572136677454306559110124545027135875034954041352769466470305614912506976524258795647981650760952733954695464605568923029355787524355095696064347303418558074629228641830373962924981824093473800149835257323649986141382549797542990747365708233368988254087641617737991409687885021017743606246772357576693191763436011644951817884319959458147678868919843614556630172285486974885202405978877860857204028588879634477717742770245420879092435674900994694005665679487435831456363781994090244349563018868314302844130033426139636430973385239965011956411159118190067453338650431182426204471304560616776719355250709805146082447970371708556559272247886722563648814340899467395672134012208744086529371940516675900705283492666557397756443405386710794464188069962146532057992524226403210917440534116650854779917994214774169618025576709911933668706967214027518271575319823737280561824184240286271472907826167155107235055892668603148469433815202628522860875500739422448716540676887623364363765889145522534515404195652677298749492805114327194868427231065660267575375438172712444680604080044395658073652121686945422298892700415902247343375394982488537908407947481693953558833439993756141305539255404776603928712783291861519325031899148888421061782025543954495365756209590984973957580328703853132275991496323260283569710818065666320266342147436704396343916915616049865828408262882971324500446381379923022081734552806182532935042542164909932801856939757323605748698191433611712105429697518569092909891886144922938628065221303112684960692984800292466446982434264967971955076734969191516166430655406410724941188259419282672305971358770810178672000866510694902910523830001137407550990413682590183277292374026287854004481319000649406516960433087805170190167732815280970489500539589493651153426762918372447476670836202320794338508633149578290447592783063213013998047238887026602299737379261045886578120235563314086322975518067821502596670145142966814946108474714703630132506228295091535585558125917732771741587524694832502114497370525518131647318596770708923308102103688863597511314698673555094851711599777601277637099394442490093795783148488409161546792469538547959332286012984167713234704682435985927747631466303409626469833425826904545796981776443456700559660766064480623671754559695578790931506139498853784576580340846282393902562875662878259632981862129417547249636146332460922452805851626684790035773458275434470952581793353119951323957365601236209848030241

def W65 : Nat := 70036141195581523542246529769099488878781239302039548697758713651349901319602228241902788890787390971860906417420098154555094667338045841305782222591654691759583965445145006681342348033675569185876808580296429203299384948663073171079046349802096101711906896663854035983481619963208719995957064850701891333479874502040778694537100292289721143453209392647235160555281889182659423911082212173525430884852148833117549419067620794060441145040780346392162426236966283886130449236796015782382850620029612802885252888005546049013005883372404152282164637388800796509274213981650288346835453284605847851297747383805215750211376486911987662564357206314220551390783583076601572530593174134030054435865384842674355824234259834766105040438981722306003882428457546225724654462691886866095169036742626939131275174282948652127328128673534378457557173540902266387921639514169482475883019362955118525494160415073036333434412014385950730856397546877612532450605290430062392608923795849325277972071165683872951754392822141235000911729639134987417677594635834817224236499173256591792486807933285451708906618124821216463809082499406070313772296937008955030940429325466519566307897604657543444161097979736723470700164783509572893162393357679564085210712656938482533241599948769075559709028721902315143720592763506135294130540731362109557621319181664002135723089341115390671371320459503552682172882653116710893339853076339389870226385670106293066972829264899764787571688119747994753950653048931449643292413198021438618119675775832853871795687969612599144141345972048907709497387139837884818381083212437858403645639838184873838367006816431759014689941414470189526487206987310520927357084151115866940438514222043108962358397010632741321486384619006013376180195703570223710665711053527723693680861639802552413299210400066955805511300515090234557815885267267154889073614627365344393599344485604865045856803580834359798185152839433472086930673176807326051303090597899658131522172000254142815245412213170726262003753603639727971153915727553032570033671863237692161241848243802843219685008002032001770127396362877477855168979340415143113155333998990809031456608662592851959775419022336860503745705480736050874379040581179221197716567767777204161264278457966955596275882635985577094121961968094412000381772284792919805421195561691479505107914596351771936149562104706377191587350767409579728662089042608714149446874700058203709548238072298829281078065379562800994142523594546821582750848345225383354587175570468019112

def W66 : Nat := 70036291000035725953567137850309465073863889667272222739130644023121117220166520585752650393939581098970876113708346642707314468166205648957387859836269139827455540314988486627126026822437533838917054146568799853141287237745974006649636752678737366835967577285164973467608642781693529164646058264845209713047003351782337627247139762368704951126613122835753669228363461055220828973078633825024573517933719586280484302668990034573584689905515931377314753488407371008635528809830715118765832398247715455329750562867449866641632193009481470915841326456298604222961475865036035481319257859732747703370306259095061411330155968297014371653040915162018500065600485173058108697668172415369087274150626025903093297334515426941173523185404527095998673013113530381485288638982923163114200620987249721095482228200406582836538822329495873992290179273062962225707841089786770704221067985003662408450900457448769755930666538896266654618182614855763577842664753965435542333726089101327817824979518621197542474663219126452476391007781092928019356961034891916511720485593981168585150214899226673803807524961840562115159271254750464453297733633768854859542583040072892090457476533401348520132563708678739627847481161670856771550784847178451550131522103378952619379695088055932744115641749181069557692568326720316582814214224134030271582392076862829077788927391306372875613730199984410254887925253936215991845526717358449178536121670153698493073900389233405256374448481561189210520464539847960913911834327320780655010232608279828737480356491467744258133384546376853318123467212437678106527700855195812763283637460336941572998975666813544682368281059590121343354299544978572768208497935409337637594622101315270392497291704030797986193909063522177052507333883610100456662056403850721598756866790399833361971777820468623947019979125762608258614913846022073277151384862974881496556664081048441131665585852557975971841953936358416305653338007220006347140596824659626200432134434586521219344037613659963201807663228863653331825221612115044246718702599605681892110601938016885341316079054551114881151876351123344908562098115449883410535495051114150357758805159812629639223482655363337377096815829339461341029280190699624614063538477756742027518884500115010111775523291133676693907817636839919994969653692250543039402286544874123663485539754396754659417950159833994973837971009629635736155589544371760977354032148576652397873616486695504710462101303692129071169962428836604830521159252299880730452132242783064294

def W67 : Nat := 70036432795852338898539214736994640517042040937794098709136115173004671447509169076522759463443770523419919267146856183099471850329563870262890541607561103455301665015976961415249215477848794242626974271319165120917503523647027302616884050449701456603452430915677333341714467869908598295577808542777390004935201635287234898427720877435693215325502393340601170243841432467445976611181789668814082816309594131958685107754382018072488605189392082735642065683702795805295672762737083334433311046848187210408552563377886489382126163101381930718439626285594562974319195662318236160625380025781459311141982695432347621978068251076507928911241778644797118649947548239966773704199423009181403667908797779333689185220057945700233255600105152225794953405545099691414897547527248768044179457779248199812435490938793340084509959308248653301762689314870227588355337763419021077755682988607946337373790271059521192276491331509601203665458245770692225522611964759185327630371735619361349314265323591020037814886357703835058456904081748446930894232261724239982323102075942530609214844109560583183217426688812596249964020352811289159690515418869217857474642862229368092150615970691088749280511367669565544780157771274062788485461359541404372658184794180632603937110917022150459646840298177647805307981287560471729862224540612793017494166917826935802993779712005156298867921784987999295506626216602295023840019325244694623226941206642751916405402482605915445790240733038495331771227664741289435082496542623850935517081626765037534944017173499936360677967127790637646111739755442368358032831255810667220889046921043309521666828940007617403952750702091842835590496580726297045388896326242812840466254920445505627737032257874911168677430482030412495643977106106234832434867150072394351536959871049793005592622689627419941745718079441263532638818394897300145199856837452793895814745883849441082617876426670533001248503622068977188164287453531813624068096204262456132725091555209105356569577380175479752628368861493184409486663827121059745644645153466710510703454476705534466125521592904554104935498747204226090853026825428360578805490215893178040985669733207761141564151318538865605402108521338475477123931787902875546270083126566149847019226474227667570976950202597937809077226311759594083634624989619594690457501299951210070852077812208459369557912634662371455937115911282344509232637942271185737326016239419232240899015355924618711976632902483056925375889051847010409505723814262525898186685123452807474

def W68 : Nat := 70036567008940716328420489838000102542308676318648924304962997432911023916428505855882865903635611082641595146457870213702718177836166087291958931356732391646224426328169316788930861680292212093462654117854003801158289778553411171124837690726103798028981643751449155999437974602390498688157422348174726742376182220832871135887987499010127453342322883613893284497791629989164075404875230721257380070519141105587848712541618901608357752796909520931206475087867952219140929009699530796151569360578392830118451909333251378803577308557464757702635290660773431232787864125686139279668286924368514605225523568149261258851033234902070970131393179508893918452464039448807087128276840035498269131293561217617787434375414144577261948270312816872950605417950092171400271579317212054049071725292017449332041373218221258325832406787918805300006290630512301277206041271583742206158221781282411926909497329383831042670647056525064500919112408496210066133452456344197252312578369160964491639350789346559134363768165764969008023975952666279430051575524869320622660142268315565200671180285264490405507089292846940216191764518770497485353151083514919950772499474325265778956520617957867445732104823953819617846035577352007307640367319913763949175930166252629194422596060924360660613209210717990361562522110399262851764718315000788089509149275423527166256613496426374338354935470818307528349612456236068328219482067961955541310830372053217071319144187666134764701509878199673454281117736426020955235211739976133032664877567921156354745795144085100006029420873808001692814125315504945328370394891805808807350031803196035490081590409346021626160933699510290202502163627464807387473252752481120658337064210518196207550184581541542715697188873897105751248241332420531755695080231571468879607842870241840066682824466618011463584683058991505003685470294233305180199196967220628194060982167981292627849804848126161270510370654822451018431627029204469081806577324525538838444194124713450869513596546123317911729347406346196732904745688266360174983019908199118990590122054755876303540200902205692324545181927209064298491373972738240060708537215409416122932625158766018065010010624696446087072803512519145659676061297150439124867886203067552839064850364065831292817229158699258664586856479244396299111478540449756767521977922302533534560125971566721664499368576805676119203951178079441702554469552640456241427762142775668569534016716473358583355542062527730278423992316446340085241394764464204706566773650419989469

def W69 : Nat := 70036694042938839716729316095905733073985601555177257592051885060265877259270650994782235064671398401939224834325419413388988618510475891840513654203911190206333410035853794991415587672187119537933177180552652387207065721246633800128888665431123730037543144084522717199071664875556436223831423832283816062968433826616582698100005817236798363995681787093053524776991095595671403807080599973035109825336891289221615303392854273093816534812196851810104975385990861224350055545595937487712253962361442632553230823168169348467718780157213529039013953675401203345131735603465697372917667620615847189875662652928948441084613939298198009501895572058037794671168743424485823806327288016709834033447191881015769332736005214998076786617426695458041169360906169910667271273060594604180940669238096761599773618589814298613242620733644113537060647936036746432767839626478071540059212533283788205817461563958314376806293199158837747057947294812760201097086408020409474034805510461428293771243137448839101490984844992776660697004210942362873616798019227976016344543695268047186209363149698154271331803214132329457466269619332208535899210346032357428554964896591320950703312074517604868955752181101745371045163647897193008003280166115374573369873948991891017106441887225545007448724762975508095812949513301444830600256538610002899825706815786687059961730597874172179093872447725000526323962707172197257028600463351107085663105574571656121960790734691838158981413882927538708359972939437585919960017271397877357519163465372579629680047663720307117657145694897638806686365999598984732752801497593543629011861323537192716141402712903178629002243868102903318306094739916482098042746140807461134473922875508015836282378175145208479802897897055391429340881960736118255749102392687280067546771463942197753397302018996947413294634463873194250575713008412296767802069465154390874167030313336708425022929648518793898070771256433767855740802955742612831216016544727950014812513259633843032376891176460356012641149782322678855826565335026091693431038666518229946830478096189069262413690365123921571272832162313090518264503507648681960538917413528741779262185758461496993775495964291584554873266243133893993000591926790262550380497092573961791743705490048265866715659340200858455071356804492765688142839078797978307621796388167739653138981154980367101679137108378746062595723724439134168268269886058286581256061444210646446707037376182550028348896074822542117112205600679793366636821153159364014126153535250176733

def W70 : Nat := 70036814280313386876284108492367134797502833159379341610419833292881457417253253061989859262675078999018707318826513365785250943164356993561346330732452447522123630096581284645305798447139090817331492428802072999583345298600104686942782593910515507000363150838621425819792156649830306183019790477763854152377048223409515649796912917245011581687331689201666694689776279110866299505268378313645188227802752973268543330451723025421442463009111701279795527545874659183875072241475550938123956854763786516621350818255434267169455731459600442726379458087626004662276271691286196113579843769853623652358037104253995778047063768097737093470006100560460135477665425956582923690920991896781019190724873860720076825381019736626093195271992330161792739479090005658865630491418278262903507803880150264406528822167047729060707927243308599589457717734241556061193721960615741503922644485139741540756322953682853602120660307589977714887365418630317522029812284150150696834153228504631202692063934199974320119096074460977706912702060715147704375077698151706693760231448958332063247019530913896411411491411343106411167517204794049385816152181536718078147463588437693139750727630240252358697948276850251629022179565548391146118916844601799786523139722918138635350134267537370519366752128758679973029231482274198727182353403562258167757402656678295071078882528203339698672603638920354600796148698100580023704439418522187948275680671147491156065979326605957456025115143358826519164349513479647816136611305929345495996184796570054872664181945654197497743118354722300103277355867694931605743301991830812420017526250844413078123990722340403872944249316220484945416004771081533395496224499833880765997472531192724254934453021193997616559630249479818169039624147540325401556762008530821736458753356035624002338950615244059097427861203578830185089844448376008832282501951861786131976331838336546005472995664771482809943375715722116521743209811543464324840619213648393119766790674526500942477144212149305817257091294021793229387476874397007674225269789432957917629644955451907792194829865264441590035562419481972556209469691651707101477696120824777342879010296575246755253847079135077821915080349509113023812938608520459769871836748532142192459696470368272585799211746826035487036703377724127664568074702092640953611822415919384516164500707702661188048897390639937294718393379986535774111100563586594542869013589756529975183476278394985313428529918976136183621376545696935460755426705201080199930986097681953797

def W71 : Nat := 70036928083416633647582626405882293915681186316116599727373250357687733445780127917241551023226164283681259335620575582165907057429924696753751400337647362138925717399407547334342151699764902302966058585808325678143600400106761659882449771046169419467330300239571421338363938495011315404533483982090774838886080743662651584880706045787540631455353181443547786036139985632370985007956911225830976738555089053670196788787022056267997025661383907729405468923037699725535387331837692456055040623125252968702990060457138080915074495024847594417033144108719134429471322249672446407788462049000239321838196619928748190008800412334312216748052251667044083021793759640330364391880185882627220131262972177622143498255592893611238692759316503731874550774112502387741826580185198199661166408967810803506189987655254044572212052120647174562857444344719950872893366117956967652921409079365260502989987386821580944225865427454917479713054127564647623171658528221303740891213600384475113011879196845923000165380519696276918731781381916392523076605771825319757077317440982076918405298705742090825819975716559663584526471690282849976663516666566661233167831243988373667366409798724744668759327633930643474209236192065806605471634290840086090991084195177122066959415951525360892032907307350116030925088427743960176401390085034079413492758008050217324441125074326226324052625378914717179327377158262151184364689270259914718759039255707265083409411400542757039308855562918352244557717027578478566922499714296366561160983902422792273939356319251796596553694139472300631833381706940545645800877135316937833115075210332579472905628229304570801235156377221760476904984610758621750949503289739913384095092100546951853666247357996126867902225782847842382292538256774050728436687460954859397412162321759348007108794287742897860798530943008468782865312279992228753759674685357630956024874627070270807836646056125946023350321486890750987927562433354740576412426842888602934814953690954910750304333495747708306161989200056659535553205243070522162913887241016292863407793419783987500484721215425577065526016627888994728147996610330657036714228234010041060580438371823326676487001667529450710040205936027384207838986421913838261204863924539112749935661330038799466782821002799335980347690066111375475113994961842781693643314942818287609952016320357182266740178857372101244353872567587443142471449849418328693164293782152645704522745711981589446513202002522328537665969906919808770816451974352570129641897426009987720

def W72 : Nat := 70037035795499837033106154941414216736801658616563686574505526295566313428981927537109839250283816466471591329366218598387203606085494995596842164304189200390414995142446812204519360343617804868872545947031496758152273979862031463866826539750707205844191774205799708982393854069454773671883666361838689943141920460371686240131725346434074251008532018142057843974783295041969575327096113399320241329771481206129535392350034896944427335267883724070700723804064870004212683267001889112527326760750057056563976389411444659642580183776665426775903342583708878370526839692276881411532811065819373116923539720841111238340554582094094860401186516619258291795737852336704186215148360951642291745635529231393794430761806826256989261005735155600373018582634720546849876511945066952709939126421123250308579307024489066632267104035395101349807099439010893221345032189277973797884727614591600136292921265927485278396644655827737908172878673918626931425351906892755504101319684236456639880795894838604739875012610248838415537422177102043821676684534324911241559398226341644901658143435051607158497306605941892783433067904992996204481368021044426134710799800874902945223694082977124538994249492516515477373008067363161749908856073768674888057294213982023303558336380066590522600653608863156331835423877974018790833196385613211810707938831507027661333787719231903517193172517722771328442105802309557825722025785907079100166387934485631762962946511530098143149900335679540819956801835920347899838122259207550713366684357851958595758713615027736262911038969917633838133786183237667151724688135387841826832031980353068773460322864454132248328396146893222823590868316952888741239472630973082824808980623165897300282250795489792472496552892029733443989004867050216164158329994499133243686305085954814953311595184571713047210089944674006492233637792541137814466430514125367482942203995442089325027903938614031620066770253641684818148458688503875994986483655183455840801458594823078905651196207737382890197333955069965631678656469147426210502464394778328377782573199510876927779549569538611929778368576846456347121203526133709778576596243860072552449854286733364573824015999184234193886126843187800372502804215636916920526239685174022064139196512840477369756915987145667857799634728795457965720994722432678492100442705373386154010643439095019801164744564699611327073136999725096164987361002723212043792097193819724271779415731671762845440455730410484883780894107286488161614269274632410635515719327294404247

def W73 : Nat := 70037137741683216325691170128366954636994243708592623776559612546540156300635560758166797046826702337801560548280576771530374007324022208574079259867542969786504257499589574430855557171288461010714461096782386417106340601575081361676184201476180074285284355439150691113879329586569029991659110145726805639639532941666626385582261119185137270909415570667272269825401020985215094633581410963789854082394411206567537199974234627204329905256079717712258490065253335250133716984337848762579181601430707626666309740445847528792436132646504696773396368945007021297896876393860722467767096278583740872277332205787879124073487962571890621432843327484930053342198287023978058701286742017946971874273891869904892929094556628069948537713575491814864971036630859347440818854656314282932132795885531438093844966217612007980931097774547432460447691305453839943389231908029367810004659702695880217789897599015773420850787917970637668015057743501836381092897370402815922529697159156059676430150511423253520461666941032267339809343436596398632094239284003150998637478344226701795572999020346977907122051516509166166336393150049155584719278506377081903593896792079365425141221331180567749069624763238508157574679770082032022180789155265348874291104969358919423119147525897471297644483855237008700649827507290319376296956997492242651535772446646372489297038494270818061151321378644677802397240731907532735395370973463553230647372495556807887450908324944959657831219637239501818777272789399761983638219315946967919229987668395115673341586294535215782360340386069479434125050385956507098979885258255361228347658036958032319890768280009266148550516842419786423524034272955548326764884149295795673005112105212015627498747805868603357829290902362847687687727686042812953604204891268439024445657953304444525831863376171802382007914384423726594592482296586199305894807249930101830124771956353204517400875362141768876564549864182308036002908604395107568201339336370326824985103434253929595956347269738420680663579637979444438444815650468250486178206145420216433256057831735189521186793977185343522001038660335205419059718439541724677293098052632294202890944330167377373387542743078870433393030826938432853472503107733379557192322768875167592265481071295155225705093295213810160260998392295091632569555614771302518588026742228709767140229440052803282661463780294041483582047761200253805349878208158383128716726881703075214180049922704465829645521267111913594259967878417910345985760834883836235649765964826740212

def W74 : Nat := 70037234229883016578530256769511180343680457763664118988798272298317572172905534297132194327567592914993548767090234577672263152504143584901316607380765276398003763872694720719599995343469042594580170398293742312140145343969834065097058247092956087775417983361420652909799255710904550882458320836887786588514555216094894580040528823770205180606450609495455564166257939985629433980735970165479071801999614625968274869848038402333562341636610075763773374726142439791654454351496528984186490142458922527019402220836489402418378149692459676681953809444465555525909541800000587338401209513565150884916405756901056018328207094625318758558538390933143085405892008836322624144041244525767942620048641293045672917483257068312706997394741027944276887229927519876095577727960526882478662926453786093355245433912012860465151204760799064154710374040100293727656834906470669466432711517369581890194951330310873369440457202646714133022370837962748697000611620795491543523784392739499917268800705822292711867794589263101978450123817028361152610116157289749692687496557836178645082190316976380222444695799088005929123362014837433721201271275002203456301033576893037938851077334715926781663207867984464517907089246308279291836599828012341178116748304010916528700504837610172528653012676581281093835091431210272795974142218176247903539243252080753744808910746386093787773775032552417392220907276461231424758988355609109337354904122761272046999259750582530262615627648606922929511905097630972544886486484029000512425801554336672311060462595197112116914996553800603270234650465876839593918077698851778936896216876900660541524117917857125061773303996252938162638556816165018853273079494393744330432764451302579706248585925246761987519525134077972219245255474431419561131415334602478873638052670108260726943983710331342879709550524807789869197701172950005594323921198585822343346521376441641515895653249883250887862164171888069210043873669563984130691507844603640323983806752995528382596227069102381602360696605596649697952175256530350020332471291038677651469295691723676312423797863575191147309430866090663892372681567061705221417260811985245707207020114998750565604220329960021464856333856335356377298235641719416766875601017928765616715806701234404786673543900765217061565133112752990325997082958747173334535690573521412759454232864462933135392010115633481660507854022698095052453087261654186574236718292301805655883352299018689603021005186782393917004518983126700222197506920118919475891545875517106567

def W75 : Nat := 70037325551696423364412746295746200406447989446225507146748679020984208415055849847697353860930195302004248995086041231479543085005592511288636634593205432390762861619138991483344231213456761849446882856567247890916701427927084401077410859472063692782709796653210401430468179431300857611188752081763969515097469100653105841979301474605881225186854695673471649759312681199549529595578505100882746984736798843155897214439996941299462977743617214124383576793581999072740483252716465314893374304719102373939566487363626893573151431089747714516067685095893490878328845383163782988473624239573873498622054853617643702966058976821319655193413188485303585830969549687232744794701772245110096749778522918290463695325380348839506109304278162860554595461492945511208912726676576559640785866663932366247844350795304450031293981058826230796374818413882960001991622763686434244745161904880460670420915491168695023750443852328565786406154737998868217269483090946750623225228201510875533220234716206439151057394559214704888489839808579820587269405920193799307781243851514775766130804724826818806349957563024015343789140320692528053921995884159005058814019204203030858742103170639695490278502351971839119005304634084587481292270328013966961852441814813629082270960243014713555002779526974786760390406762353772762370088419332192077326819584094899806059942979524830071748665830703482703908979231862508766784478411169704495842962735427940925715153392715137242693055934599057798916714415621150473409502622176414777268567751110022052980362203810215259935286439722537572246805314114168582341357652582404217684332835695781598281598847688355854787978224686600442718739049214035885043564244547372485889260105081666450392288637948464428640905351507043587038909620292499000157544986289877684621295837912193564225040105482299326980323147837999962978784491263481904100703881311868014468604360476185526026215140818982893541352790826351271832934645476419363890985593588437350731383082749557840085879782076461851661898294065277608024179613209249601450408148308955132903977255685806305766623862103747823909001198700788495738823934783275667842302938407681420497626783710621938856669131414312072515834745370430654175817640890606691382671809688154968680337284484163592224404829019243870475640956198496179789019291315937558507663707209288906648408919513196071478388027144259814577514150248424892887908077500137986465342542332112442792906617090458008528320374834334487855676459360625677042082163540197141856593960963375340

def W76 : Nat := 70037411983245315201378466959766135203046228227057686068223247094445254243326564453087034698577963536640236443349981313404100033010033254443699249004996948610314986586958448494336204628837904078318875132510009437743506651617802333294881804057706620968467313075216021079541164884259231287702035438713517813176126455617518370303302489307024909359686222373735160826501349684023273649109083416710845845386689404664428304617696227525692151990526562988744487203608762385734358486988898217430115149868537916331317720220539661436368651984248848647300048451535151208566402037074945084993293456385604970616512309867406621967841695746158061130465142550210990354451599712147691254857943673908365844197271266464153125411003723862779974155626005756491503892841190994370949372122318572623065101564644319352281460917469358454667688815271629227992323744773533060444322676612309501051159814533397115838070807862844151105827641309049022760528391818804723583120928580371702066595753868329175096742164991882844486489692685630113282173436501455715144979320257376089899206704787472989891187795215315328929545206501798951163154246878228454737403221875372198319385467005296461224419615652125308441051225686250825492454524002091058411984803836494296387811654553111695882595706875200558280542595964885064897120964725352659681292667733336079231474910980325327032265165780427423647065248285892652613624549142798579462406291763320327777412933082875814716008678280269668872503446478195208616932146424253129290038452981582248649531730512242250880706226824804979221434824351668508649368869567113479694566089507363528262152590738210837157921973255452245707880958482146608471274155029050065069705072146588551277523188082097330098393617668242597920490298764435074262877485533928661206618579588839700545418404606558417852642413324743968403511383086550315967959283848040737358273504253348288775594768742103144677377134304836205141402267030821362266653940877405407627822941032729381849335726494321461929191807341236012665089499375156475174808371726091387455179191825258320881997211451317726432077284212598570064372072386987469726964351200731696249504798627867543133086321437396456355899329358473830264152792273897806473907917047548808205547244130384070564805501736124708943918440717659177298229086458981959341047363977131748912640796241675778779793559739470278709038420071846265001033706597964494600742152861172344085647613425993769269173614752761589950801518129329877438285697635202672154411951234574902488157466007755862

def W77 : Nat := 70037493785980001883016295756353249947501368440433764399004929247497882977367928263211377282225406689928655124266604112572315196106599335786005514018888172636768769422455664486330034560820494424799132667087002319314006327836834845716289140132565767786406374030479728480013379762470756367855323748892425834630420213142940976422865107117291001384578705178130491553681898285274137507558399228831151741700254808143956207432034310857039328499140334853739888631683721224832208739508948123739361702432767919067463107355597181562603099622923941599033007014449145839914348791836955250135748002755512692971851244056325829733606926197005205047597958395206154339943342123953754656509610246956076763623699599457255532216780209560145694521875538771395925725989987467990577051010162889217608772726765464811070807592578670020032740796979987741884381561742813168579842371033323153331909286012138397154112637099812578918024049259452182208401826705161582065187657812043916878323953584708416859800703106492031733936938986287258868949231588482091015149792834294106924185697410203108657185535021639828158410886874117079467355229108371633328365367114471682026770753541810696159200937257469842348190982548845222865344469406471604741548393436882254918156511268381262337975959548238474220173143761721380103850194221142496892600864392439105436554778303981667062335077845351965188032620289627056354937766988405717938065781783750992257095687433159646071342111488162952689291146220988592491259302623666305157409905290079202491255578743383014773552672736218155921978910733592465136923416075246073401264576346509052385194429969849203995724589126267031249542735400110292887629402641296249160734975901430155564399823636425670386948789303090336160059864244104121137862477518151697351782671873803656091342041035767471821502494869704553218534698620429823251535171852480234730282507163725808969022257195769882067251746739628740672228842244254900647468729414986465685292292269507909524812177815919573868040660352871613740443535049111981914620772950672213623499593046051415457714857040750427333830590468097896912996812880117764959072396167328251652169987815640204563738042863149686901760163611941188794092280532905201629941475362251862218571861530276826272528302295411947426989115649186982812440263890882112438788345244014932092471687476301990554235209963555192360017469370790260471804045907416078508030884884949369216918632493919901626683326098356135573165417107580731121148790864865941196368513470974093717331490187403616

def W78 : Nat := 70037571207444214015330709829883381437976284793811814637458048214906980057532829094121981063779049535860893374579738169291691151964799876688802656362276998053124671498875804119826524200721447036128140217597724686758551564745000852632160816653936583279623996327402613387416808442153828261254990533927493154454861195439942537484267442886451813553866612512099205796530398516595266033598518140495959490590677277252685935885916165146659008294083352396862242688427831218607375205430076285684480305496272606841372951568421575563933916576293587431379400961646504117269276793870395519643712208591985740658322055254003630344141394926928198847361508520661318937307482807617325374372411709250268173906729674542050110461588970137954568910999269923876120404405779967566023449558368461486085983265304255650097989407570532685060446296591373629252971154937114254475820516460694075951098565097776153952540125724651368213291398215336152769879826928822618031460173180569834776593953884342926212530516226877510289673920865590291141923685253012609496717430593587086633297261165921098065975279458009184321163035934993926293025006892928421591995067804203917857656581432636571112496442633221702202093707811848050447890066268175126103435450302902834283828398304406929548086333808857407198171295453348202283807867686731740415858839328804100642856286930807654151527098615819320161696960600555362343961745603580766560018180569905154036050900540828427355668819147391920642155243726432306287259983815176181333545184149791989439948776288898343861050735658736042777768234629375587220328028213714674123689411877004368449004380860870693602549670245920146753881588149671130675274173220081010392172749018535076596027563491782261505290227679554712691773951583489478256114905879717575426767433948105755940717875937492700279914553034056382288646224344622945437390943048690533531089365453695173766573743654988091196364860192197912822903469313655255695667491370631178860431370947853779250950712019971836779867335172041711145641814579239400855887698767960759695317817979671872063567946668111263579311695109158789112814910680234097514375179507505662984678919374765470837721473261002435702658801398450368592971668182160348633306491831537920666343277880830722728324278943306040279162317769002406291382640604216745272633251354044071023086616278404682344653263708187345474248402162485110440626865140790549542166571532685212913077116939222349722238470863474913741104184153271630681871900553902812502135082200535666989731873141418736

def W79 : Nat := 70037644482002689751897161537827124795826949769559403218472967227812438910592201000300602283049406489099972982014288964736858179423517395771584806697133162521708251368025227820566476945400035210504463425678253201011027306408818060460482045710035074431225966788588617070946265474423987302448791955938328566043867225872899297060736714663048922657088001360120488304597822328410085786112053902410158306088783460098802375391289982527160146806891166177761532550994442876917008889231283023363524431891436428903192459350865023597975040642750246355331163676329468988597504078295455649049905539878289271825193980456450459134221892346076450314691740576162010585508684506601892581991140776496511790615503089439936222187617356955975891353299093996260979207230560578600965314982941982931251016940979626120188261202183870453361917787742513856814799199238266415235501494249334820331860197800841204425731456502372020827407384040881232780672021967484999947476311352099368219813583442694289653710908121090744306059166086729000390768903396079510506378848574035040180010646350336542687851808952804629718441596727561134026609550181676471411765332003785511035884680377241313647926436046581864693698726637131598947026979428014465540048329673266390580648616969273325746048854649432543040724784440324595256749228571569807025629974136593885895841079462587892713584234286310246013171515313973584389545577134545008466882431464570705477058974692861799153072089790058656858380385896245571896377150407640742099646975683461979152512776562723485409126916162894511509561398335413889130883324026652699162581509760920566160161367801335855341309784519675162920642449914957521635240159092293152501867766418393669915498852173515356161056534735121820552141558358697795130805985486306943621598039233536439820961706841882565830687574901056390345736529584960125005878318473822061928801902073526464882816555557822995467433336397737865356004398775941929752834382458935812792638378890691542908206175657826642495956754908948255342697045454102911059392775763264807445344912327388937683470180585286392978209132019643616763247425246638625344878778101854703946054469557637823279252148720550170053707027811761496162948961251041164221545772610115518718766581690361025568017538832016446711822384353836268758451644048654417624362586728914380017878708877704167115185205108891804357507001228028796197472945536095268005957864711006769581769637573610588266235459690799202820868252306242392690124001707633166450584044009744502238861724223272494

def W80 : Nat := 70037713831532756005493149975395846473757609403989608053955611082349373941093778850838711090994653754834890273363928923665241796374281999524761286647383741944185099755302085865469493438218705336259953218465021917998888702448231667791705009916612095492774956281834913717315297082969892253667178935646462154721924844752431407036612671613125171625771051671279114380746036839285833503724558995398048089610442205913999643015626689880422771123565058181157772550552597878536297586266839488863336929650885029209787475873998016738152391966670211151634550490977964246280095652632218095176934966220310220891024488996491039577142764076863650318456250942678048508883891798897787954627568614198585900971369374741235304778506539224797680471843588528235800229887007215758997702194310555966992029952036282435985573380897875360427176202144821978944284838462822423092074953441141675338610629110294741306176043292105538184975860305810946463092294483697454009605970273484735849694139815056445225599272324957070309960926873222001332673244399966157248426308067052519269263417199624483023405427911122923826351962602746652694487746153976826685196865266006511833800824228129822615640044771955565556351595785274283726806612276176761270003122593752152462993734585440258944072402758483263131676474365149299292273224859545178048968237908702966026586755502026097987946203721124371100214509715652943799116150215185238470473706809739533954357878507898300592712461413934123234666373402995216633554335160288426216948240897315272577125904265603575729074552572535223796471153567781840266544489082910222198844465916462658002779915789937160159705631407386685152447844961553503617773894700035677311098178197341485078078193549107672992085098074335455268222773361173850931259131796588564286512738481892791895850248180375684475762349796501394088720305212828805443351035188564686110319901595288020180567459397406819258121572637892984878547388180405732291057497178254527625521055565184699472878996913375756286466793955881120083807096932216828797495783259421821245448811968292186681337025215781974598913916384930902261168628750846915715473216284870454675873822130577685354702755166214881936477147510008211136569804578619054584263814367603171855801737632573852503119243519248456608446095423409991145506301688108252947832162051348034986099625475043185076301525223090021261159962734407677961217398446723431115921646917352352848219530997195761968817189317508480862766635444130240844854048684580494460541719722578491180126207441919354

def W81 : Nat := 70037779466081329083604333299634112723982221741935788334705603276756934504018597706013455494376488965110728453993375816356826501574346373363760851099845820491104959731020922421260830497519104446442091230150341391737653555348088802099317296567981398262447255831184733281360589349289885480348578152376698112861152059992554446506401788067220207442037920118396668786915019802396252344117667036469838061246518263740701896525527808202040078478481877686516640242863252998683261729050365641945877146022641994980243294015033750360932196760758525906141607923961156141060542511795857397565782961835186326558521811406882234360244180587642619155987154075308148074645851471065776782197444479894135268204807654415479410909664486779259680385725406452366834301497270249942264900151390048306345111137607478361631283519330617952702803618934590196325897259839559251885060731254083697438924075323280962575589709170104363458657878429046689682215847698797933356664307429954692322930333072837451140094152069356216254985737989840057988732095375169609920955039437906347822627753936139624286040038479402786052522230744368839956928531941774311647636621479768224747044553508584710940495097748810729837095041404357343046397806954885402106456908109504887478707458157236034127490084315595531924001394492065156305925538736426608091491092728141138287318144967263979843151752471729898539158259775450649969208217275654649656696208713820630367761317001806875618986734818985594501389160476774866232689952055946534589358138796441201391315431877101341267165136898674300773419745816267931112077768881729066353610514040391394535683691347636718263374122044650813478409880407672318411777395086980077861745547594205613092792510765947874547518588165838678735549165447443975957320673884559271571956516699818314470482756792958034036647919152799686539038806809315504014294891113555802305959285287554228242133948542487154944390826820281746879129238095620155846962871343979370717458981700316001929211523573413857936888425042473614233448471656617698352029692190628497805631491234646077908910926482253654013111557364533202914283090519054561483836887023754752044329203922349418259493097805166307913519672189187364598932707776034828568940535930229893748099814572971959711068213279480054092287484529219255532616811866776414890099201570695753984879178238101870986759296800431082777599546397450113262596423168428939642909804151867925564111730117094860621930077151610900761228249191141845788609896636899245481144068047149461785656514138815458

def W82 : Nat := 70037841584488768574576567718067923119122623200834682098704976627552699178770052528717143678643995866018875795142243631777874798896580871259642874688714689150747231754332555725145190632063325189376224958695649396378681854242903296487393850899280357873329760783810577258021441358326507963605024560091568522595196687964617692506447762063172606492130738835600158336283834752305541773544100329032321091242749897638616285372731408393895738581627746231231579299339361777328866616810445240835339002599718859396940914876646409237565621768827730985797805353729901969368163216390065890219045271772942206501538847454286889036359133672690918182614183047519322803416357870099727857135219689652147991011754990511929636115010925842331584627254628501948167706446550501008764277885689763974133706524997653021437717970391909316629934071754607042397510886281368790432459811651070645990355512377990282103979481840910910746734329969777551631361627987718441372336674020853307918258529626868108860279612339290649249742431155991026249734424049887577331516345619605994318714670390007480050352457766354281767948926125153286544329059237557988164148438418260689984921691394943495066622301013497190345736603279382477414493366159438041183857636351673028967119622091244759922076534915492658641859885899143851458390498832239778241740665047329716977221522717927264387858267633466650616776585869407711311296289167660110299600530407141526548760109995484375391989734680474192810620358985230787981607128867111878510085539328598796493973349467869990166135079663596658837234096285913701884737100460517353710070934105154255040911365794313617228475246395858599898962143866530668570249872169519948079059876708207656213706129066077427482400623444127251860261175221725994878071962882825460440202875970940303340815754516562011513301319660515198039977862865656341610529662992352168749763798333988947861738728931125443857918910295874615851356353771620435549281782699142887359151893262139342539961190712614163445464328135834472786759538473199250975210195044166749496911444712660047645544241713508442968663212811331810799509098694629281745820516663428722619863290539294500665079144782970836449755977369009648812003912911274288274058764874551309087502376765304748793200250141271019639001532746860038570652828860328235017129856738966083608336835417661438261719111540705589257520776837586125497672839517328748334675482190036634717806594665799244811985090700124553760260735612877666511002839897805702431765904859904876129321726872591253

def W83 : Nat := 70037900374981012337634422528810587043371912047124870803036856987809825979538110430243532731423709397859091641091126203861997895034367533780377534483389703516864836916015085110856728176772302710442223909417805942869273200048805268098960205755882062955016835596666682682456905017022565112925115895590749271635741773197024741683200352763008133853435001605142648431755563175632115434337518927907626994227798195712535893811183868751343870730505400969015399458213854546758448225517123696497785986923964288979673002775849997117838773894082720219238068759513997217262203360861631552020856167505502552690456876407684508699468410023725120056940211204593810019021658715399495489621640239104694513252648966285286216334741493799157221494713045392397691263185153940006195199235297406215440305718721419422451281481031059250428073168795355744681887931491589604565293808652355718955751569617545158822580607215640215708082774063121162891047229373722414805727005074175199089376254302884502072196062930011167000618161506072959436045972954565124299600860905229455551674116065070515023352158187766256242344792688787400550443311424671830677285199297629905179977430718703133578016523159848475141298565783420487300620274321117968546974890476557287305959967468204006997418496994383761910520096408954798747307382556226381547409521944380469351990281320257474542406703208026828648631299656845145010744699885719249470073671999796525692096072683190095672261842560691580926080769728594385424708627809920191139127526813566934820318298727888160947525817932499227179160136863382872809803031433613069521245796277601283445747586434591557233071818176519837082397369475863521673068870062387367394490355859485714234048167534007144084376326526584406581533553033008782831135720086075488581736885808404274863912618806152574104621238904075848618514496214819709415643546358015818372793907875224743953942175992009678343762011111964366611063189309276076741543302661497299164135625454582592684496409055054642822485657010643249882407652855416809212508723185672027800943682620106839704379530416700266546655406197179246288503914323681356005948437476009416520110375069427197442763698842920080746213459172589967279360138251706647679271381916666786288461984307674550660901640347840424274488758391026621254651713133824733205989796543758890362522503753919212584690180748880053922442927027728456615763510824053137610968017631308396011235270611874677011422644454259347525978817996695823979381525174715712603998173867506124570487408686107748

def W84 : Nat := 70037956015731402819065684688312783190215845177831540502460054600357342958923596990138750547434303729645607203983858696960364900583504997810723922350151635015820138345624977466582360056200584534623340973211623544168965784046591139337628826108271057877870010574802182173694590881681623588514085967165048576494262906517817716457388838929884316611382346094046313405455315522114652976415793653108330723232477929744466604982564342423518469424545913718912612832706713588476352489195384544528592819551490918580178459715994023170330599505480959037079204918874815234820934904035580447512144650438030968895799921656148315765144123248463343189806994072254614596595524499514186939519920718050878025200152251803865108677955117234105813815500158586130676711417551515853141632191262677870637318421053577017002544294747155773835095856428180411023922483554809621408028476302691410091849578784488670253418748842035972525082038123023865559598455778976493739533832317766052214832628485286485019392602562722659371713585596851942762642652067403137445050434946232803468269794946832833876159905745905354228236074078893277512155448193725807051407438886220648231316693606279061745726750310651874064294937445957548126633475772142978320108287082671627731334046708736256363541608597252237865356511484657167813854356697970981223727436431597380736648945174879482339339195785904004174012579937512128147264734473396639287421839013226533268152775950579028072413466322926033796432759487804019539768453507158046918388907512216974173894052169931590853251374323098168937744711309200985945237646940622543499981655504192715403565406921089309496491007615819160646053222228909720464634951440035750117556742690412900497838191977744584154686172222385573329651172821793044031651219705956476697004716003681053203196698498277761983034130409355657687721489905722234947468923107971115427378010202148788217168137734366626987563609935782832077911700474266118672368581667002546773767552532785764113341178732872854738751587325215510520407452947560266330175221415070684509652711866910823768463020098724808827776034844792813116122557380538393626955942449338091360496510297296917258104340456176194765434960055274022587462252068648702048561640445599501420652245350477249764114440761802075935872051501308620946640202850053337161795463063440564998129454802875046681787871267127719232640719784303426539504007738346121233853927049620681924164080585899960734278452964783612210724444961634323318550260672193069561709407798101060411500750982819638

def W85 : Nat := 70038008675393588317103355945390030429806295024783456410291603212483765778414886062140559064922920218309412425952968130419257914301149007837813840714457639089080395775677576235719938955924437559286071391419995989665162303557869794321406016718895644482080656054334670961542464299778034144497269675955243307661587823319393914119241850439864852540605628947944963163255496887627073396375994263111995913301667206637939944221992213099380860215009089479033931842408962061335428759863506162624716981643791505128071757689363898251021828629418526089725490695809282010903245538408498271592216730431001005886615039988037380109147909573191533252026455635517555710872812489777600913713594009058969948836820901687581284212192000135686629897424700089566977016445789975588739842560306513776543780452060760227889162304487933589144794520200047382172484093043196506375048546161468777440747671266999689117889760777146141453310830582533845159551583985466588152006077494978551271938384759293473376001408951408971646327339136011575987670833468889315127898178607762880112854771864877699916593842240444899911744169019669404847124841596533032663663274962134459635721255206759201143525101647326941255878368008855132457128596376545356470975785741662677179839648259669302678862927300890730593946430257648216530968538357875410371742707957446307911269958233903271993419363506365392694340928229080274350511300670545159091766650306515825632075431544486402562657418799628764781904075566779846986799260499759597821762716008817361990250257781915316980985981410950467575938590361637334842140663951723598551182592607240156985831976387680660609469859350899157194859095193251997242869737623968718266691581280939715562663246210640201361283579689426478986268599481381614101963326011804047668846064699572105959170819037625333127059561657010320828308111906919071001045825631515469281150647316612135269650493769590055369778061983924390771549101411407515871472016628901137251991886044595775372381053009126137792078781328418715217063667965065820296600251293759400541895216932835807263504793486140847224222054068458869630739667364084817124632468703186852492578198036386932114008481298283079699579666934500656946563212329978218231437650357330845338829825911230514133661491538543213494201072723579197989819000022365558875854485081848596151009287921820935410063864511539715441359401561436377343028007056876193979013188134552579778755483663792054135000632520899347309467602988076932388040419988766208760800852692453074497047853710977777

def W86 : Nat := 70038058513606849200838246997380784252946806238143866192177172341123354941948757453307466549346396923719516810838531134790782050199682222947884020642538337918316434725087304521340693279197147618757256167363752967744828324097407078708472989006993832122406372989558884753663770792518759552504172164582391512362183099809163412158139728182204445193912116185972800470196390696071221660589573591134767530027375949874139678780742911665533029630838495091932271730535871460622017495665908950276402108201968943267527372668658065120827765740812412205768725061185017225679844594080089860915940213139758650724768462537618349368604536847423109092131958076222166211237936041446662629160871983425539435463583385098938924309366853433987669035767236187029929394577151206318565539769389275676240964144494202562133833214852453496614615780282418876288740898676173440477952894648092129172819946478457776944852282054310100517862332417869789170263698965284541584496509547368788779472111245579454797677499552661599334399233072882161295699353015379544613190959573260799389000730997587333366352028462049055512094590988645640411531501310077479397394692129608237695837358283662853226271602163452428403625576963426672194198578172449296079272396941863097926327580642722277587966788919163933253891578032511167020046359008636264635437873670496590703491108185947477405033372490059617159175257296096910596290261565896580166618850918773340123221747390961716419228654223499333138003570938584189687601188590009315178140694125872848938128654962791438980238108131029779550190867100926714694187968819368888478054035529955389238569516865398788209316577371972662398605308567307036349268682558050487412261213917299735631913879641046100504318830063278574381255821095119118905539249247820436163440886158289202843664205881265870949077189829468359804427146875961578937121431851431915376327875530254622155410897811056076153039342387713819025625465343621137281395438243572404653234409865225330507241303265670366357397444605936760565973625552830973716999240144042679828019302979829449951609753055755202470516188247599443727069481072397753495710732982743528486811474669654095653930947615614067966737159154960197835912139902553471909201635070256405515277398323586157187443720570063833155471415278854844180357496319538525983251400470621336284561095081474168516079332796516205101960084806279538480812250827216513456536464227851231103385010624599958793438124429238656982990836269625353063168539239415431090123969409326060428855808571072648

def W87 : Nat := 70038105681475160797270684016120567339810067218758456653242073981513150235201476821841109653853879656727956934258431676675828802096240018233547506674189969059676481934883352769607311104760601488758284461943170043395653917178163411239745200855184300964389397716180799935817100085987015060127180855240762624642469259397723645802468658328901657498383777361564304642300456106439351578534621698192958414703452722868396737116385301545597813743198730687719650740799597546486070656082827029811373759906976739999650401801818633658920904093384938108787340707822099223252494097145156392087533081630024583310385935398215942179257543523525262746817593312645520081100018817259409046287745147231620745200242664885019027312276226661662791608974162848285544327653948463850325393557144446456581977160992925988922611059452534245391440275329354525202571243835475700033810561193228713338558476768626514521331316866846961379178037030873947393605466690191805402270975888498370126783083628741846908499394263629218859633023363901011706452491121959292764612775017352293135319100816065011012707654049822404230217852533124991728047496943600373827290341549046042503142031242359587310457981946022718510171042202168166657978180311882108574640048293446931773003210204716855016612581524555634967188239251970107739511703093933991593172088701643067415216559671898525415606440043591796637485176723094629257489178899048481664758009586513657541520106399109910351824392455158732226545045672762063034455716714523944188988625125878131649162372265811264218800318767176326895257451605491826826065599979864439524542478138962834709261536197846610338826742452012857021142836563600162290365509394645516127862999818942072187403504866751086091595190386116748365836058764967515688631361913766516186982377920296093273957214498723114198499182466025146696307722113090551301774017060008498987165291141935946880628214890768601376464683037436361124590942995951736068229150375948570253032502766671515516221828108910720925599147289250204773880883734019656501972898925116751565380274036641228816576818433278848243436683221190875822597559756154126965986083559800030281834148200218288849980144967205081037710034585781749716141474370850640645602730867024824639060637126146045283475045747569524866007499029814853153437959920971270385114265159302303265926785761390550031525858691803571652659086747201801339027928276397736828906561288998589490186976334678595280635681885916719255948266550446761776071800783773863276356300815582727908395652236349635

def W88 : Nat := 70038150322021262172561372591356414782383769371826744207752891026184711311828447818264292752485062831675225519646488495606039377322575342466428298806645052717797490398345743600839128084405253494674383739050001366490758781963092842902502359044767666501991910638500470204886455383030544023133642482797673561950900479868595347822947253485479893861653908711682634077521133309540253390356193014578970479767991853428995548294988303840566106681027413820535166086879903572682026493803872198875862232910783468988788124936373976062298644669126906197135380075476658635421043423728169890571320741994672945392537540987020306647728896837507807396699431075497077057639544087047065929802260400871744151663099914690367136415082205036876060328492225248309827068519164421159620701209771296991840331022976679185895031818583068225251329518746775175378237264641106219864916209630179142920512660029456532648510072541019882274213461061421394956307349017671421877088296712532224259673734170751474240286991600592618635916969279144625802550187804199487593798020304783917334185678576013105287368718372792120017649454303194130258779997961647688542363911989113700498850632899080514678476921924830463572541126110916950752528810114068655091119521355651086368630953936507140552827327762007808985942176569472814675190078998565908441498869793671313980692776408324110213106592531017504026415122603058396456984810009898858935488101923404433559771321015322632489911929728729450867280473772517273051229274034018534360780470815570685015024978699256094277588986105032722607771364895350684037344324786296983803215404881178522035600034146458387550647756561097349941657014539059056802688409713203328399723557793788407019964940492970988356076167876224174152690101469301174699805861456612308448462920518473230608082614106962136843306374624519735615794519878499708278652318543262485631269590878155953004570176639905536896988294592442760535613938101164724628685036560131369616177861176404376045976369274270693697049891074851875823243683958628916311302860357535964552307380711141512615104725460448859106690269374921730409481024622389315340836647854229047388806591437356138029970623123699432101533329458242042692737510553562797620183481441476699594867963184901849666720741334211659991561102778552968640719631347766254917387858843047241561187663200954410208084973407663960776480439785449874922181086370641213931389136441153025198237288225452562194001671444505280229996101491437516032632589992704890521810033259526937117232031459671906

def W89 : Nat := 70038192570616955555729793314683383892346533382363844957581159615749319656833299653587903796909911948358641317746264372367220710907829245820921152475946878886852885295988210129482865457340734570981754933810854478653804883896546771442229965137657136033216499127774637094013863981694655621056976619497791807352509372206313002156955446992261893432738568766703624470406329056691783064779011686059761104656621295078893557607572098832583150777302095655215027973071161969775795793155767549781707836250741561955953521394181450092248670733393002804615534113872204855834877498685439882300623912289680657519267602416212632071980183390036917018108169604182060777983249469260592750888839929065287809523660241448989887498635176754377157089122643570835000910427093260256741697595776483462896791432332495165990239383501435046536286583557238285580917870473434474000642452927814114340720529640382384398696461285401285856416541234681296954358509767449254930263367914278986840904933341748847530104797768540575349474755846614113182462799737124418762449266550790783070482283562089264686102848283562803798862356474963318789188003034939183045556056990696159285536830012258530934364371081512025758143453662434021891185521417510293930910600468482265140763831349770027194146857182201836736643166973659913457111399612803888692624977947466218953039452000815648824127038951140472989563842285853981005588757971566382042618186928055942003127013061332626866991273091964564598312600980608636610932581682478391168118397134112864287836535598522654176856531573411759717161130631295160602212933847775719071371166074767267611606508689986081309525239103196910309314702176594555473669525265192489894667834189620211441595802306300751183164046977525803957035676757718764661318682734414530481366086147559253374791939225328345013377539949105848672973988172612914919050491981359452082154347699451999342110985654526215883766204306187467578434577996171945478126102174904813783089256995235600502135279594374572582390977987505915705282454202061442849338061086859219747396599260276192926209822203234040313834207957644541239686399826331646193998368626633142241444266607797714603630909394604129798904812836783088253187514223409618417600094809450751141476818768726740700339157928746949751835894553315993580590901894998496509961760014455874098883599146615899709724930332957784786690913778196021466425589302720937289058491696403778162776814972183185334859200081965034761504038853652570253370549215472671272792608964852055611947044637636213

def W90 : Nat := 70038232555390814787731269592381188748215724125421984769842068381263659772165320446280086237424094270571631701963855702198071761668150750138317867745581314990797162590854546918225126900810021015440236302816180123291512214110361442733918494187684682247700156746833101918644451492602136033996759534621800323432989151149091530709051661797360022527748943424826326791703141580928279884744052010483823342016694389785263760286041091055920881111521898431518029120313731835897943045603978394221569478383552818610006449725945562703481437322241049901624720906791226138424042640341808326050576304676382386697128099844013193793489505364884429922210264922712738711226011523659864628672211392583198100347367336868048955805827242128446969648420616982671031527034004755964501420367896347905069770425493956182252336234502728220204800277209508092890129650732372934892291890431343973148684405782148867182986341068786370416452948629294357048576830840259467188765176604647334313672910324784270902135893091000315312186489885828157199898958638009941209033788081065304659942041153847766490985669748735354377202121158401366234179317327493017659764712407871509334682280013544215690062965636016765675017364844189270947823225104082956674728738137822520282437267840316587225164600569095764057280088902868881014329401095779993063810415329757354819976836276536715784256962234696981847813034288925965427577995079304443154820488971500552754539162896497057925137467069888386810860274320839955644287830597307795311203441264993666546226066338146982418596057550785976033008728319642219313891889955900077360472836818791407132447305447521218358267937267736977291998605322718913901799865533953602526119503620857935919418859988784914319251326813333642774589787044131501366248321402856045187451403747572521998657844966936656886725288854321187694755434232175650711762261925976013625309472356003350850887836802735491431637654387583255353068905044988265396845033296108913925119582358557769565369766225317147940639313804454017813368940739386587674086103260526584592659377414233490094491892824213916956684198927152755701156979412761010775155360804904349040943335110715579948946281693168275373036718213085921097772274631553999177084292685855740073247293499800451036823255302079703398567872407390238717695483712745634159714339301411565572002821167850665311819052104034069061234345408639682690066013781551353665246820114404482947075170667181701089520855445979843530302452215285191244586678543686648697428028387731439938436107435467329

def W91 : Nat := 70038270397614434276674016640644052082289038418333471784809474497989099000733305696245287303465591251151920507884125182167071128841424136850801407271535212744133017022494595484151193253975350145651083861982598914238171732959515056618564077980542519540516189052418611264070037320365185742356069084993275298727333766960958402303179395268302364707186787183165433242189291623538701535408570656697828223281537971821843729926931792921588938835765855100648643308048543736665566477748427706991761272299113164521378505550386359589628742236324137302219148537664646740474899470567074513944582179540660509456328876884568429910458266578492221780450915078626882188489699194396115585766819139602748666038586972098228326189840848918546751406781136804405801008579422990762729409042495754043667148220995991668972682427007460454927132999407483614060239070377079230093143775449178141527737218433571930725437623458823286749111800363468529068122166331305104053330853877966654522306604495571864263185636058687299022876067550346789957840303653773161842242635951316300381243916443824323838004615432114051042995469844450614460854224064471342068477522097786605024245455627283086402067086351176186293721279794283221562227888137240324882988272497821771297523219754725065645186333226219985578543550460304274423204124615677383622318988836070022967200880195674469518304248178277406012240449882331934088700013807848532300440494426594679768656940818449140701441706286197699302670384600348095217676637741136073649720169081256805568346653939687363873198260875052375234396770190953377570585705456701425671310193953751419393254459922911580495387893714202121539258544704144652895892880407414159408822236075812858642517546783052344277854395586797440547121784448570748594021664994929998974035561797980505692525823198563153858791519998986611019016545320607898324548876804727380856099820273611290106256693091781263321382775377654055806666871320362593602535405389445565195808761018173261740864487739264062200787583722661191735543335836360541417418235322503386838185953798605752767170430680236243176550387514117066944473582716036835887083669564783830020703254142236387245314045265119165585365909154192757488384614401537327276005295311485774592461249304782586563261275893590041635440731968109557223140241814636904113518713217553373244976125002037562656077031382898835674539867685289352226231687188091919223665612235227206441878011358526072935604834578727339712769184682199565012041126264922122412092007144820426552285896633258762

def W92 : Nat := 70038306212068302560565339648317430428038237112877228305938685586911044731827524320606658517396517160531723812754835962867818622179323937728909594883028974359173825352200650899090440342605312263114955516787358749022878637778650931415526932388091456234412716908630743639586936055133032190522988900247915779629878058141894480288692408089769764491199617366751589487686039138314721988007301316097199535005288776137711857221644363914298662787455551398973238336357910196518545447114675137381526836633643273829806801928720903069236130767661071346342136798714617100689431285038770607503469483988328345803541504969152372887729350677461183794992019133420667569487583147424112641874749711478229180710673309807744383041077495967185632434600135741827366366026143543207258163672041421733030327869313135458137800896579749870077122427076279414148863255461156173750261459619464264005776269932811978328700351984384546478471550632469340749978459408283723030197123502953892294558850210950765697230816445663096589740518588422189139084228001332218509547931686400993884812090325808856873247192195376306758314187442474061279639014831864315131103264046908245805294377407601123147643288882768349030985999589541290687761051558271538774494183261364069795563052783695131283509008018372287117626865715192615122476493693008030629166419077673336891764171020917549185932384694227463412592319182552394040103503828263281133063591720655331498841584635330319539285744864790711298037222960258266772423003914249310957752828403143110741204251548157726474624977667068187916951176435337286236580760558404328863134281796359653588718033106746898464783812218964687199102471106224684096160827791287836801566684337191571260388599184323759332371638727883552064210732378110477068324768966780405356143490999070988479713125112339353929399910870619018502239431842175400839614147067571035159108380855389716508425699994429006613404848556147931102620969741427030404018607557757882010525644016363954256392025442007098354144926784719265703997552442280118463585252621432838144015556964295440615611744868734068489539059182494281431650417441491073243436869175498426413693865375451606815843279522735277451696695330887332373488634557570443288989198035255546757049299735159091581106657572932839192124867223224337979862754799463316537938125489653386208903878034873280809174788280177609032345826635227448286121665908191578675967972622120264941529612647090413051992250205657543825958612635548168857725954125584922737098765002562442692457264807151274

def W93 : Nat := 70038340107388337732195871219293766093304617832789169491715866676635829294096179828825321424819501518478690095623693209248046049917599739545761069125991875207464567041210083137147062045827905445564335216425081095165009102807947942397302858853913319834385316786917531385111269770807641205395636391424230914365111421723674508461347034650179827357944703079246087842913009019645137971552882958048171489838469890989973691551247092263309725596574203173472736406510689341667687892105531767914680192433111547297115397699600918206983398996326101762015682379891074064040406848553840571968108701198624641459615100265730760392578665367572811301525082293958315503097230821077893824764250139744071125999744421102485853590769875738382666190618793218550210416457535008967490759875509521190702147619268394674918889290007651342098864507319244835562002780148387393660545611371823794128318231140870551372549805777290729577682674178861997586541131771149045504039830933483904794640697884939945463909474855950987658498638848354263657824387357198412224003607545174722630573446765011140799000894985481606988882924551621632415507073770487803683123986071258159060873937089125573383997390867838788884203522436233150778397994138726038000249864007536421656440088840533230540553668386758096936992211937913808571891019345198677340418705107551711468936269247021072630642780015281189660146456602942773015525555723926865977153810830470812745050383417818065797473003754669726622934621419855753809435561878616566483260596712497137625859308684725158233518309047766207034812351980713570676294113239683393719480621395711581668388786829830980251714921867624390200786229365216720949091633925646253608014512876033522202442091329130078139520951084050365473085735221279086066108858123419229134369475739221517347212732297954688498943227134069003769297055577768685789816957138311836927729481997297752422954763840068976277928952460487614230172636518781996045744486754117251418607787092087144745041558860193699409545188157966132833893439895551439639537119080438309245374957017085013401488863477275934568547747028449685492457371853812950109362829120145243866989276943633996832772048944811642839786943447384768784877680275533648956889867051693064114003539607755559579562193490964068842552192800802528448073511576878499593070467353286453149132279404800848466372322886717196015373266646035136426652139935049984126655924906979492906471682317294933175266499584094623406756082707687515100811450349488810086972336620183128686365565603737836

def W94 : Nat := 70038372186394075530238806476748860314310148748301945406587674219935310141201650781773921408624223613967214874692801038353690559900043688182816150596642415757679189776224211937164993462949962752500334956169551059028835235680523094903210712404809614893425061307586751428412768165228845267254511085394890991994019629150891250066216511341873945552230323808051279601892065333923986953962599199546962489965631095979726922146789011241918895295385207521501749373503532895197872392988941978097985528509275788728314792379402837118500979689241811488478748971543452662708178162378839104488311323132367871581889607582053192092661014725430391611719076176383135106297253463395711035453255612440179583263213451000962032491279620549967552775814669943378072511668707888052655399208491821350796634593834071886346186017723302597689212621665727787548225909925420290671184952942275592360006923689589828372571477884492933247660412399941016596791166049873935618035684980275370063150541505019944936704158383071467044241040123766073088234631338842603272233621857085867257430638819781045375193367743755768136273886052473968085575213596171329224993925818495996707247894947578040151053794699180115459351753150828707547496945795969917771027328517446894380455460570338309404081908432433524895876727132636091663268153932128828516508670784167280984327174593188590310545240699957342560436761759048056684394738013461352491707743345914753804771591051266862670370660922991616804691299553008046961057090242716583906460952149226846877460313528374872311079922636954877156880464232923464352666142073652115853916897757761046439843498848582102380306897361025902692794237261800950385904290916791012070679827769951887182277185462384962399183554495106434374848177879704066004813552269696420867918205157218777417682895825095762323500887637932995344259746019604404092218263104075991563797035130992743838517794445805817642858247534233290838934445557516064325151155369680218702962941867818335670205946987022213109542274835799840658119744209819856178804203988071664218242213992098031521303325269146592568698840183653003739747440149882445168609542207825927192776137695089345847955909748007899768681233676476586577472067963432007662488866905623700438742772229352183498373774025488860270179151486557833995774451073775800033089783843459425851166179798124742463065537758487531087010449463785583507357700948197482019143852733737176062114705465258137429556470394177821076027540346560705245520182648331200067949964057680169594576718562889469

def W95 : Nat := 70038402546399455570682442434189236536203652162357125048686867537314397528230859652021973362301905969011564619338377573214084654457764515952443672870118696684944846635195601462291586493549085597932946793918440206701652872492673541398363821443002181962076519076268492579734843351122151053525182097553739240801622523647823783388334204819915039659461959539558491968536751988827151014946696961675040702355250210803994678924111753354049185139771326593143396911501735795118281681406043948477048370234375132719261801197001439362433678564602823221272972252036791998907473697070411411439288955812619247022842951899010409297004930487957870993988227257670480811578877129208588492521403380115867355994959680167802667232326835439828628699442465852543388065478555001330103708564628868669166273455883808390108650556825363028033371711418562783157300288823599303930078547113742494831275499076422743189016253943297319356835786592269004555385509570005073628785669946667465014281545450026092501516891367268866778575208673469234802113246973487860900740366512931378721692347032404442215182915674419880902789548846482062222614092502224643969497083576565488599121593371352237373371890774193208504813421676128456504525411325097738473742062708966843407412320789429225077837938986785519408957022532772714965775009244327970799375119549705890241331914988350082784731729913613053968894854208042626680031089901471149625373216533307505496635716755527812891635266839085820524975718423982853229547694358064855626800197458649630288085602565199705594210917907744948931340106763305942953558389120288507168371508137768909658818477823950085996035078340999685086113780756628022369070587427075041355790630950496682840720259023048002011225110095271501781168090414929084970857916488831966100557909015050356502929487671540755797336851712107884052830342897573497973437810204578087819310370520587939718716444554818949406396762950703947681327740693586486186041093734743583681778740483387355198113405778644270708957039675361908829297614194443976685504999612474296491248235767859375962793846011945095850623299147275598042235549259410799490701075418217526909006018430138989241593566406336223931149500599813442632711930587925279884281870120675448975055766869839650566829910518361247669168855679954346125468921496034603370382544456722666567335827370254713869218653291350460988351463059101576881103320907426182203203683559322982592824093567158650280506929734562672983598162952043827856587397008831149302731519745312247935927701880383720

def W96 : Nat := 70038431279507106983328956413828971160957175441876491931732278678468854771810968060894449634550617297969793250550436049996471558763946610759501115491583456723823869769443805296017752761244549851429901244543926591924994658080492303599061494158144494045451516239872686035988578225080168296560337226785189946402423751348052673111470905959908216891849436237314152868641513637705107056844372360336062097031509738068724314410182008518996152445282060062301169934650001507963762689858836939758102906738484209080944179737649801428511559857674182986113654750799040353803415375214335046881487697117089611855364505881521716777944325205571323505104591949938554992732431637758317008909230063586549271748145881697137061398725365787565339192855504090848054889005525891714616877463658918307993285283252809912063851643844861516255875808983424899072036914859672154782042574911667556568018194480756012376463079043824253347683358439258158841851722134540495802982021580505471431495293899319653410122134294855049650558148420065602064956897593044243515301712084613323233175191000734836681084242066381407120199896175740894327511667281833495052253051517871696827030087813060234034569485382536676107723635524981748255308727728623312410708026926600765139940591676243033804964433641626575733983419350379383131310551979399966114143879459654780039507556958217234711115459125621203151275002307368316719113042112128109189176984691057737656555894534889749686261031739473144201747883959246836311149782745515462501843551021173909504500346333201640254010789637320683663297419017039400149238479767211164108818647883074391699214339011347350403038865757596364676284016385076403518660656339864582342947269090721866407283375394729794488100528208364288728674478882862776833694450560443318941587952203219515978672728633250299179441337226415287909539993700157901417354567752381760296142288610813117848058754324555968656119737729761130875798445816084165967859758066575620358622253129743243859694875191594212631173446018089081329338613912017348014340280010311807429071008243093695051962459728313122966482152244099370128529305705155391732037036484417987143329851911335181506212285037638050990238464151949196151935758897190901958638050894871459864048358256784536391580036072133981032594446058123795734065071243821220789369341894319735006531459451782218053874055746543450830422077410827632234414297101911479365051733927905329905544654510185176878277254474096274941248654341512095558768313483881289677946821871619400048351924417067815

def W97 : Nat := 70038458472886991424764990992481424538824809488210388220907394600115072395598784193547177373582035109011442450947203394413336074572094213730569208826074046940057619693275135543141385158361124100850922341188579098836162661234120918356375473250359225505048297310294555152723556711089342242728516567433657976358589674049680299843735467225805292034881535615485386173070282375667893708904346352164354575940595769514424073333098430409614143999808920190553930472500185663649767078010062328808631187000858709072968450996396710126947357590567127198571146363631053775351723391897555035495073686449648752459861564340174180558082386265359777552121974858395270810289704986458335606246629227085064733375997838921016724799762192682693022066382289124002299068937613573831364083966744493020892500401289741716977165099995215300807486289391208181815254591782055411702588766746152028533001619012451002582201590159615118945398800942065718686901590018436756783309672115544942571077784011355725649267242573486863205167576925941163710528831872968638708025385477020052175467241136723337171568204209970421500226379747517039791565164767696596850766708419215526160299052858187618141957976442917968724657239442145364309870003690461733218869793103140674527520647758460793663562572083920490213465483421117286502559105526219179379037863357973494392618954164791021700558701590654565871138748677894084280589375629009162626710617608983766972241333675934448181738984390642459017338154793049733138601293595388151507878884062434932520687642037800138700496724339418221367594715062709782876683330380241900469985275570168083375437876974141951505955485962304635602371215657170274497413180281819850364084358586450823364606286359473437650381066329727487232381623685208784395565525855783214775258317021762269927237927187484740293009282440190818192149643780727814114710373611792518810011626586880314887965675975325122795038470397877709034324973829482107347557229161042934176040535555453313245989204139794855759436243154870753125162854490622148811098743443510210958225617404465965682249571150140564986420175527951587763894854098007754603071370889464694052520105166036234530783378889369981226553848476326936409998505218898047230355715991955998231741761279342299014612966086917726734497427133589689145173162498302701992983843039466195167439345231892108877367417485077063724643849404117014150866215753152539315400227688040470817526038259003285978774530799963768575478914246401703976666112269741661653538608724914501956154972083526439

def W98 : Nat := 70038484209040220306074842369833401973757107608865115069629603669707632379733391515540285476738197393187598487691164371969174333624163140112128331095115767089739686865890719362420482199692841815709151040043158758900404914150671415985548987600442615314328434874688081535950861609647099844959082916890111235431656265733137403119090517341842767170625144034184522875176056881912007870460323034373136681224323651622615191576528539829024514972284775480363324346722972141262908172173632983937351089027116070455415221616058000438320625113994710501497793253752905460542457995240427546242163868678009812847759826091957119162193398375302511607402788011995377509602097577445822666965962497073167080172541688521056611165516502497462796717006343720255875805908168230279254150522587563852624273942681112898810258604352268780107776539870728436098565383085514053006905349924851767187516347622306360711628456503674802809850301223814382000167457797572000089932384835012411447429201338014100601143539255584490826728939547759356380735009571911735712835302370961190865285693823475067687658472719072596528796831982475511205400016023623103734071583273183785753500318130358342679838303683765405961156203397313244208570012479074819947789876332157660533345705723179552719020710647773180020386584206592248360099677765232003803198827593896247258565265746015142301598328051125376217636753475137115969421697726007969590714815583250148844695338822305093144247227830000401904030002734916797270799699673858333963818608919513147307705566723584011994247021445302355473823711731610226576386113615472521341496408859538013829993789121957334607191142414538144450909130135201537615982998467729658252833004901840810428230883387774539151412687503934184700025649711767182763512132075698199426475506061415822977467935537984973616901978265509820619437331905795878363132164891980684924816667465378232170768698360664215641342968463797588632606011108049990095096588489926388812198504187067096396027687512359146109722034538923719309055407114648604734773515274437153663538624738425138366197412780198279443366019475250066522124695622900665470126640174365562048329956966651832803226446277163230822477578749573267945408562810438707157631705128818809843629623986481469351099809808466750231561628406023767595824844103866928625133760944592517841346364145439528569637276766854349133195333087153950788375950769152401398707597662706671015458325203329934506949621571459656730418844151223727762938776969696266372445528113959687127061226762814306

def W99 : Nat := 70038508566048822549719190129676032833989890908548503478268438273727824948855235751123424173132078665379613592691224198539450399298141298575210757024820260667194407121226138572730701396960870806347740097781063961839632955635521033422761514959213573283079766784757218147155398740635584961550574764339512389182460721601660404382862862605291713390561085283482282030207441066555229838437882994549521371116525789615389464018933257612550097894624070797585920389408105069266899219877319411447394376394564714935295353781269750850689807683194110094896767999128435944325868291340326835582045644662979235344977568537309804975772830974388725218027936885927516277796377870213401450443684786696417843953064165914456724838131089933275030983668446049886326680790214442041035799945622602306043768678373167311653000868411388255022534500934727481449624142399603781302526339382151835304885127221747085104219312420010704603590885264089811055841419948376732268604665864270393233514797280764425312554313426366977576405858642779548534259989450603624981377599421719479199837057636211260554341119513882820246003794769963830623862311801494775016625259027898089202659271475732991286660277772373016764932852585207768985218234007332665017008805146998801961423497114811008695277831943355694330728351955844448391986607055980759149252828938725988428019806481628661417416414018441283717871124409297275401593977568230223755673149113497168743227827245521263277597977914027004755912550401207882923592604623996078807259338777963561431818517832187638778949489040217267831449233512205701300423619733213240456686687841811295594882135109427560293655997829590218693178170266193223689642092834488720054157449536662582474127784205559088667859895979060706883791972760575119964627170740393709999221871775939111966924339790445824265450763274544111196617651780605705681568456460172917977585390823245217060485685396356722040662373984309918817015344899358920853119328345270424271518000201218785926373421650510480687909353524501437680592027145107535915228391254408705012298428405943596231938569803927321216345736245759815684042433267097567908835402696900492799411688269207781730440903250150533790609361865741191680457444207437200564489450131324577748431545216670575622594249117741897500918585259834370350989704153282896651855880868826146447385159427983922882330963222064959129338994861635767637429313289656529369003353010119931664197333179653186485584969232120757297341233177523157614671589235722751516937739992729512291923677069004531

def W100 : Nat := 70038531617812200945633059114551866869750468544524930054818069877239612226524874285651631178694075787981032292462876606374607168743315557022572674477561654835624324547867863669488958037371743522980443733094962942333221589873651981745930604545947168370068260982240778805145937468857462719820042785046179589256879395142527129484215153152694576597057826603275173477513145434529792149479148106506382625804756424109354749807803319393332220774391932812796184707232876212648460385214991716571174148274201924498539260130247487222713992002145575097930946792005996130495719275131083000935683017199048455352022167771698513494933814563089104177706650955619600258951855383023656419489608444549883134461328416728015265489898005022194743354840481231820287158405528144493066230244090297461860658688048697981829602029682083764071025152882694818737340748147942988879954281396098920589289026507726235805563350432100124633677396846809419871045973284910935793820950257931400783088714777168024971194677030597230717812820796312125578412013405892819267504580167131909727375222341828133167099849129893343659483946149596845336887087826397560192315447903108241897242227168573699988500063272858785517423506166226663997489451843543208366572567116451918259370234155677316654780128258776117415584606247111106881665264050128363369196921453727356024949226404783618545046277223941701189376175939154227615625424943083499043773993675256439663045345178327936717363952253425154292274000262685532758590001111551247426249533449729699765612731423113090411325153566356107364555436750388681658306560672970662205541623324188474717657070204790020712271995320045767402209551628211778974114901246748763422535665786500875878211008679591287583412647109296800968512678220037016210139750276601906254567490991245100278618746905349827255807841701892268837446751299154790232604677864433372467321457915997290557256820889757657193561328326066843446468514524235059964274294233599662326112877159312138099056098063746418509200533575003832470747006052152518357632658267879131998748120672192126607196819774059370402112825538253491429321470130737959020925475706754615117006184068973879177589242604434407838645072388043410302476790342178023421453751084334161865378668997174440027987618617448150323828409279733927021101241330846492919299135553195147884086651705877779990061676747141250097660075873327759792895159755421233809415185263322958286936781969987897789661707368136470766273376524402515039932409225926056626077863509970206535336089110382910

set_option maxRecDepth 1000000 in
set_option maxHeartbeats 16000000 in
theorem leakAdv1 : leakStepG (dec5 W0) = dec5 W1 := by decide

set_option maxRecDepth 1000000 in
set_option maxHeartbeats 16000000 in
theorem leakAdv2 : leakStepG (dec5 W1) = dec5 W2 := by decide

set_option maxRecDepth 1000000 in
set_option maxHeartbeats 16000000 in
theorem leakAdv3 : leakStepG (dec5 W2) = dec5 W3 := by decide

set_option maxRecDepth 1000000 in
set_option maxHeartbeats 16000000 in
theorem leakAdv4 : leakStepG (dec5 W3) = dec5 W4 := by decide

set_option maxRecDepth 1000000 in
set_option maxHeartbeats 16000000 in
theorem leakAdv5 : leakStepG (dec5 W4) = dec5 W5 := by decide

set_option maxRecDepth 1000000 in
set_option maxHeartbeats 16000000 in
theorem leakAdv6 : leakStepG (dec5 W5) = dec5 W6 := by decide

set_option maxRecDepth 1000000 in
set_option maxHeartbeats 16000000 in
theorem leakAdv7 : leakStepG (dec5 W6) = dec5 W7 := by decide

set_option maxRecDepth 1000000 in
set_option maxHeartbeats 16000000 in
theorem leakAdv8 : leakStepG (dec5 W7) = dec5 W8 := by decide

set_option maxRecDepth 1000000 in
set_option maxHeartbeats 16000000 in
theorem leakAdv9 : leakStepG (dec5 W8) = dec5 W9 := by decide

set_option maxRecDepth 1000000 in
set_option maxHeartbeats 16000000 in
theorem leakAdv10 : leakStepG (dec5 W9) = dec5 W10 := by decide

set_option maxRecDepth 1000000 in
set_option maxHeartbeats 16000000 in
theorem leakAdv11 : leakStepG (dec5 W10) = dec5 W11 := by decide

set_option maxRecDepth 1000000 in
set_option maxHeartbeats 16000000 in
theorem leakAdv12 : leakStepG (dec5 W11) = dec5 W12 := by decide

set_option maxRecDepth 1000000 in
set_option maxHeartbeats 16000000 in
theorem leakAdv13 : leakStepG (dec5 W12) = dec5 W13 := by decide

set_option maxRecDepth 1000000 in
set_option maxHeartbeats 16000000 in
theorem leakAdv14 : leakStepG (dec5 W13) = dec5 W14 := by decide

set_option maxRecDepth 1000000 in
set_option maxHeartbeats 16000000 in
theorem leakAdv15 : leakStepG (dec5 W14) = dec5 W15 := by decide

set_option maxRecDepth 1000000 in
set_option maxHeartbeats 16000000 in
theorem leakAdv16 : leakStepG (dec5 W15) = dec5 W16 := by decide

set_option maxRecDepth 1000000 in
set_option maxHeartbeats 16000000 in
theorem leakAdv17 : leakStepG (dec5 W16) = dec5 W17 := by decide

set_option maxRecDepth 1000000 in
set_option maxHeartbeats 16000000 in
theorem leakAdv18 : leakStepG (dec5 W17) = dec5 W18 := by decide

set_option maxRecDepth 1000000 in
set_option maxHeartbeats 16000000 in
theorem leakAdv19 : leakStepG (dec5 W18) = dec5 W19 := by decide

set_option maxRecDepth 1000000 in
set_option maxHeartbeats 16000000 in
theorem leakAdv20 : leakStepG (dec5 W19) = dec5 W20 := by decide

set_option maxRecDepth 1000000 in
set_option maxHeartbeats 16000000 in
theorem leakAdv21 : leakStepG (dec5 W20) = dec5 W21 := by decide

set_option maxRecDepth 1000000 in
set_option maxHeartbeats 16000000 in
theorem leakAdv22 : leakStepG (dec5 W21) = dec5 W22 := by decide

set_option maxRecDepth 1000000 in
set_option maxHeartbeats 16000000 in
theorem leakAdv23 : leakStepG (dec5 W22) = dec5 W23 := by decide

set_option maxRecDepth 1000000 in
set_option maxHeartbeats 16000000 in
theorem leakAdv24 : leakStepG (dec5 W23) = dec5 W24 := by decide

set_option maxRecDepth 1000000 in
set_option maxHeartbeats 16000000 in
theorem leakAdv25 : leakStepG (dec5 W24) = dec5 W25 := by decide

set_option maxRecDepth 1000000 in
set_option maxHeartbeats 16000000 in
theorem leakAdv26 : leakStepG (dec5 W25) = dec5 W26 := by decide

set_option maxRecDepth 1000000 in
set_option maxHeartbeats 16000000 in
theorem leakAdv27 : leakStepG (dec5 W26) = dec5 W27 := by decide

set_option maxRecDepth 1000000 in
set_option maxHeartbeats 16000000 in
theorem leakAdv28 : leakStepG (dec5 W27) = dec5 W28 := by decide

set_option maxRecDepth 1000000 in
set_option maxHeartbeats 16000000 in
theorem leakAdv29 : leakStepG (dec5 W28) = dec5 W29 := by decide

set_option maxRecDepth 1000000 in
set_option maxHeartbeats 16000000 in
theorem leakAdv30 : leakStepG (dec5 W29) = dec5 W30 := by decide

set_option maxRecDepth 1000000 in
set_option maxHeartbeats 16000000 in
theorem leakAdv31 : leakStepG (dec5 W30) = dec5 W31 := by decide

set_option maxRecDepth 1000000 in
set_option maxHeartbeats 16000000 in
theorem leakAdv32 : leakStepG (dec5 W31) = dec5 W32 := by decide

set_option maxRecDepth 1000000 in
set_option maxHeartbeats 16000000 in
theorem leakAdv33 : leakStepG (dec5 W32) = dec5 W33 := by decide

set_option maxRecDepth 1000000 in
set_option maxHeartbeats 16000000 in
theorem leakAdv34 : leakStepG (dec5 W33) = dec5 W34 := by decide

set_option maxRecDepth 1000000 in
set_option maxHeartbeats 16000000 in
theorem leakAdv35 : leakStepG (dec5 W34) = dec5 W35 := by decide

set_option maxRecDepth 1000000 in
set_option maxHeartbeats 16000000 in
theorem leakAdv36 : leakStepG (dec5 W35) = dec5 W36 := by decide

set_option maxRecDepth 1000000 in
set_option maxHeartbeats 16000000 in
theorem leakAdv37 : leakStepG (dec5 W36) = dec5 W37 := by decide

set_option maxRecDepth 1000000 in
set_option maxHeartbeats 16000000 in
theorem leakAdv38 : leakStepG (dec5 W37) = dec5 W38 := by decide

set_option maxRecDepth 1000000 in
set_option maxHeartbeats 16000000 in
theorem leakAdv39 : leakStepG (dec5 W38) = dec5 W39 := by decide

set_option maxRecDepth 1000000 in
set_option maxHeartbeats 16000000 in
theorem leakAdv40 : leakStepG (dec5 W39) = dec5 W40 := by decide

set_option maxRecDepth 1000000 in
set_option maxHeartbeats 16000000 in
theorem leakAdv41 : leakStepG (dec5 W40) = dec5 W41 := by decide

set_option maxRecDepth 1000000 in
set_option maxHeartbeats 16000000 in
theorem leakAdv42 : leakStepG (dec5 W41) = dec5 W42 := by decide

set_option maxRecDepth 1000000 in
set_option maxHeartbeats 16000000 in
theorem leakAdv43 : leakStepG (dec5 W42) = dec5 W43 := by decide

set_option maxRecDepth 1000000 in
set_option maxHeartbeats 16000000 in
theorem leakAdv44 : leakStepG (dec5 W43) = dec5 W44 := by decide

set_option maxRecDepth 1000000 in
set_option maxHeartbeats 16000000 in
theorem leakAdv45 : leakStepG (dec5 W44) = dec5 W45 := by decide

set_option maxRecDepth 1000000 in
set_option maxHeartbeats 16000000 in
theorem leakAdv46 : leakStepG (dec5 W45) = dec5 W46 := by decide

set_option maxRecDepth 1000000 in
set_option maxHeartbeats 16000000 in
theorem leakAdv47 : leakStepG (dec5 W46) = dec5 W47 := by decide

set_option maxRecDepth 1000000 in
set_option maxHeartbeats 16000000 in
theorem leakAdv48 : leakStepG (dec5 W47) = dec5 W48 := by decide

set_option maxRecDepth 1000000 in
set_option maxHeartbeats 16000000 in
theorem leakAdv49 : leakStepG (dec5 W48) = dec5 W49 := by decide

set_option maxRecDepth 1000000 in
set_option maxHeartbeats 16000000 in
theorem leakAdv50 : leakStepG (dec5 W49) = dec5 W50 := by decide

set_option maxRecDepth 1000000 in
set_option maxHeartbeats 16000000 in
theorem leakAdv51 : leakStepG (dec5 W50) = dec5 W51 := by decide

set_option maxRecDepth 1000000 in
set_option maxHeartbeats 16000000 in
theorem leakAdv52 : leakStepG (dec5 W51) = dec5 W52 := by decide

set_option maxRecDepth 1000000 in
set_option maxHeartbeats 16000000 in
theorem leakAdv53 : leakStepG (dec5 W52) = dec5 W53 := by decide

set_option maxRecDepth 1000000 in
set_option maxHeartbeats 16000000 in
theorem leakAdv54 : leakStepG (dec5 W53) = dec5 W54 := by decide

set_option maxRecDepth 1000000 in
set_option maxHeartbeats 16000000 in
theorem leakAdv55 : leakStepG (dec5 W54) = dec5 W55 := by decide

set_option maxRecDepth 1000000 in
set_option maxHeartbeats 16000000 in
theorem leakAdv56 : leakStepG (dec5 W55) = dec5 W56 := by decide

set_option maxRecDepth 1000000 in
set_option maxHeartbeats 16000000 in
theorem leakAdv57 : leakStepG (dec5 W56) = dec5 W57 := by decide

set_option maxRecDepth 1000000 in
set_option maxHeartbeats 16000000 in
theorem leakAdv58 : leakStepG (dec5 W57) = dec5 W58 := by decide

set_option maxRecDepth 1000000 in
set_option maxHeartbeats 16000000 in
theorem leakAdv59 : leakStepG (dec5 W58) = dec5 W59 := by decide

set_option maxRecDepth 1000000 in
set_option maxHeartbeats 16000000 in
theorem leakAdv60 : leakStepG (dec5 W59) = dec5 W60 := by decide

set_option maxRecDepth 1000000 in
set_option maxHeartbeats 16000000 in
theorem leakAdv61 : leakStepG (dec5 W60) = dec5 W61 := by decide

set_option maxRecDepth 1000000 in
set_option maxHeartbeats 16000000 in
theorem leakAdv62 : leakStepG (dec5 W61) = dec5 W62 := by decide

set_option maxRecDepth 1000000 in
set_option maxHeartbeats 16000000 in
theorem leakAdv63 : leakStepG (dec5 W62) = dec5 W63 := by decide

set_option maxRecDepth 1000000 in
set_option maxHeartbeats 16000000 in
theorem leakAdv64 : leakStepG (dec5 W63) = dec5 W64 := by decide

set_option maxRecDepth 1000000 in
set_option maxHeartbeats 16000000 in
theorem leakAdv65 : leakStepG (dec5 W64) = dec5 W65 := by decide

set_option maxRecDepth 1000000 in
set_option maxHeartbeats 16000000 in
theorem leakAdv66 : leakStepG (dec5 W65) = dec5 W66 := by decide

set_option maxRecDepth 1000000 in
set_option maxHeartbeats 16000000 in
theorem leakAdv67 : leakStepG (dec5 W66) = dec5 W67 := by decide

set_option maxRecDepth 1000000 in
set_option maxHeartbeats 16000000 in
theorem leakAdv68 : leakStepG (dec5 W67) = dec5 W68 := by decide

set_option maxRecDepth 1000000 in
set_option maxHeartbeats 16000000 in
theorem leakAdv69 : leakStepG (dec5 W68) = dec5 W69 := by decide

set_option maxRecDepth 1000000 in
set_option maxHeartbeats 16000000 in
theorem leakAdv70 : leakStepG (dec5 W69) = dec5 W70 := by decide

set_option maxRecDepth 1000000 in
set_option maxHeartbeats 16000000 in
theorem leakAdv71 : leakStepG (dec5 W70) = dec5 W71 := by decide

set_option maxRecDepth 1000000 in
set_option maxHeartbeats 16000000 in
theorem leakAdv72 : leakStepG (dec5 W71) = dec5 W72 := by decide

set_option maxRecDepth 1000000 in
set_option maxHeartbeats 16000000 in
theorem leakAdv73 : leakStepG (dec5 W72) = dec5 W73 := by decide

set_option maxRecDepth 1000000 in
set_option maxHeartbeats 16000000 in
theorem leakAdv74 : leakStepG (dec5 W73) = dec5 W74 := by decide

set_option maxRecDepth 1000000 in
set_option maxHeartbeats 16000000 in
theorem leakAdv75 : leakStepG (dec5 W74) = dec5 W75 := by decide

set_option maxRecDepth 1000000 in
set_option maxHeartbeats 16000000 in
theorem leakAdv76 : leakStepG (dec5 W75) = dec5 W76 := by decide

set_option maxRecDepth 1000000 in
set_option maxHeartbeats 16000000 in
theorem leakAdv77 : leakStepG (dec5 W76) = dec5 W77 := by decide

set_option maxRecDepth 1000000 in
set_option maxHeartbeats 16000000 in
theorem leakAdv78 : leakStepG (dec5 W77) = dec5 W78 := by decide

set_option maxRecDepth 1000000 in
set_option maxHeartbeats 16000000 in
theorem leakAdv79 : leakStepG (dec5 W78) = dec5 W79 := by decide

set_option maxRecDepth 1000000 in
set_option maxHeartbeats 16000000 in
theorem leakAdv80 : leakStepG (dec5 W79) = dec5 W80 := by decide

set_option maxRecDepth 1000000 in
set_option maxHeartbeats 16000000 in
theorem leakAdv81 : leakStepG (dec5 W80) = dec5 W81 := by decide

set_option maxRecDepth 1000000 in
set_option maxHeartbeats 16000000 in
theorem leakAdv82 : leakStepG (dec5 W81) = dec5 W82 := by decide

set_option maxRecDepth 1000000 in
set_option maxHeartbeats 16000000 in
theorem leakAdv83 : leakStepG (dec5 W82) = dec5 W83 := by decide

set_option maxRecDepth 1000000 in
set_option maxHeartbeats 16000000 in
theorem leakAdv84 : leakStepG (dec5 W83) = dec5 W84 := by decide

set_option maxRecDepth 1000000 in
set_option maxHeartbeats 16000000 in
theorem leakAdv85 : leakStepG (dec5 W84) = dec5 W85 := by decide

set_option maxRecDepth 1000000 in
set_option maxHeartbeats 16000000 in
theorem leakAdv86 : leakStepG (dec5 W85) = dec5 W86 := by decide

set_option maxRecDepth 1000000 in
set_option maxHeartbeats 16000000 in
theorem leakAdv87 : leakStepG (dec5 W86) = dec5 W87 := by decide

set_option maxRecDepth 1000000 in
set_option maxHeartbeats 16000000 in
theorem leakAdv88 : leakStepG (dec5 W87) = dec5 W88 := by decide

set_option maxRecDepth 1000000 in
set_option maxHeartbeats 16000000 in
theorem leakAdv89 : leakStepG (dec5 W88) = dec5 W89 := by decide

set_option maxRecDepth 1000000 in
set_option maxHeartbeats 16000000 in
theorem leakAdv90 : leakStepG (dec5 W89) = dec5 W90 := by decide

set_option maxRecDepth 1000000 in
set_option maxHeartbeats 16000000 in
theorem leakAdv91 : leakStepG (dec5 W90) = dec5 W91 := by decide

set_option maxRecDepth 1000000 in
set_option maxHeartbeats 16000000 in
theorem leakAdv92 : leakStepG (dec5 W91) = dec5 W92 := by decide

set_option maxRecDepth 1000000 in
set_option maxHeartbeats 16000000 in
theorem leakAdv93 : leakStepG (dec5 W92) = dec5 W93 := by decide

set_option maxRecDepth 1000000 in
set_option maxHeartbeats 16000000 in
theorem leakAdv94 : leakStepG (dec5 W93) = dec5 W94 := by decide

set_option maxRecDepth 1000000 in
set_option maxHeartbeats 16000000 in
theorem leakAdv95 : leakStepG (dec5 W94) = dec5 W95 := by decide

set_option maxRecDepth 1000000 in
set_option maxHeartbeats 16000000 in
theorem leakAdv96 : leakStepG (dec5 W95) = dec5 W96 := by decide

set_option maxRecDepth 1000000 in
set_option maxHeartbeats 16000000 in
theorem leakAdv97 : leakStepG (dec5 W96) = dec5 W97 := by decide

set_option maxRecDepth 1000000 in
set_option maxHeartbeats 16000000 in
theorem leakAdv98 : leakStepG (dec5 W97) = dec5 W98 := by decide

set_option maxRecDepth 1000000 in
set_option maxHeartbeats 16000000 in
theorem leakAdv99 : leakStepG (dec5 W98) = dec5 W99 := by decide

set_option maxRecDepth 1000000 in
set_option maxHeartbeats 16000000 in
theorem leakAdv100 : leakStepG (dec5 W99) = dec5 W100 := by decide

set_option maxRecDepth 1000000 in
theorem zeroG_eq_W0 : zeroG = dec5 W0 := by decide

set_option maxRecDepth 100000 in
/-- The 100-iteration scenario lands exactly on the recorded final state. -/
theorem leakG_eval : leakG = dec5 W100 :=
  (congrArg (iterG 100) zeroG_eq_W0).trans
    ((congrArg (iterG 99) leakAdv1).trans ((congrArg (iterG 98) leakAdv2).trans ((congrArg (iterG 97) leakAdv3).trans ((congrArg (iterG 96) leakAdv4).trans ((congrArg (iterG 95) leakAdv5).trans ((congrArg (iterG 94) leakAdv6).trans ((congrArg (iterG 93) leakAdv7).trans ((congrArg (iterG 92) leakAdv8).trans ((congrArg (iterG 91) leakAdv9).trans ((congrArg (iterG 90) leakAdv10).trans ((congrArg (iterG 89) leakAdv11).trans ((congrArg (iterG 88) leakAdv12).trans ((congrArg (iterG 87) leakAdv13).trans ((congrArg (iterG 86) leakAdv14).trans ((congrArg (iterG 85) leakAdv15).trans ((congrArg (iterG 84) leakAdv16).trans ((congrArg (iterG 83) leakAdv17).trans ((congrArg (iterG 82) leakAdv18).trans ((congrArg (iterG 81) leakAdv19).trans ((congrArg (iterG 80) leakAdv20).trans ((congrArg (iterG 79) leakAdv21).trans ((congrArg (iterG 78) leakAdv22).trans ((congrArg (iterG 77) leakAdv23).trans ((congrArg (iterG 76) leakAdv24).trans ((congrArg (iterG 75) leakAdv25).trans ((congrArg (iterG 74) leakAdv26).trans ((congrArg (iterG 73) leakAdv27).trans ((congrArg (iterG 72) leakAdv28).trans ((congrArg (iterG 71) leakAdv29).trans ((congrArg (iterG 70) leakAdv30).trans ((congrArg (iterG 69) leakAdv31).trans ((congrArg (iterG 68) leakAdv32).trans ((congrArg (iterG 67) leakAdv33).trans ((congrArg (iterG 66) leakAdv34).trans ((congrArg (iterG 65) leakAdv35).trans ((congrArg (iterG 64) leakAdv36).trans ((congrArg (iterG 63) leakAdv37).trans ((congrArg (iterG 62) leakAdv38).trans ((congrArg (iterG 61) leakAdv39).trans ((congrArg (iterG 60) leakAdv40).trans ((congrArg (iterG 59) leakAdv41).trans ((congrArg (iterG 58) leakAdv42).trans ((congrArg (iterG 57) leakAdv43).trans ((congrArg (iterG 56) leakAdv44).trans ((congrArg (iterG 55) leakAdv45).trans ((congrArg (iterG 54) leakAdv46).trans ((congrArg (iterG 53) leakAdv47).trans ((congrArg (iterG 52) leakAdv48).trans ((congrArg (iterG 51) leakAdv49).trans ((congrArg (iterG 50) leakAdv50).trans ((congrArg (iterG 49) leakAdv51).trans ((congrArg (iterG 48) leakAdv52).trans ((congrArg (iterG 47) leakAdv53).trans ((congrArg (iterG 46) leakAdv54).trans ((congrArg (iterG 45) leakAdv55).trans ((congrArg (iterG 44) leakAdv56).trans ((congrArg (iterG 43) leakAdv57).trans ((congrArg (iterG 42) leakAdv58).trans ((congrArg (iterG 41) leakAdv59).trans ((congrArg (iterG 40) leakAdv60).trans ((congrArg (iterG 39) leakAdv61).trans ((congrArg (iterG 38) leakAdv62).trans ((congrArg (iterG 37) leakAdv63).trans ((congrArg (iterG 36) leakAdv64).trans ((congrArg (iterG 35) leakAdv65).trans ((congrArg (iterG 34) leakAdv66).trans ((congrArg (iterG 33) leakAdv67).trans ((congrArg (iterG 32) leakAdv68).trans ((congrArg (iterG 31) leakAdv69).trans ((congrArg (iterG 30) leakAdv70).trans ((congrArg (iterG 29) leakAdv71).trans ((congrArg (iterG 28) leakAdv72).trans ((congrArg (iterG 27) leakAdv73).trans ((congrArg (iterG 26) leakAdv74).trans ((congrArg (iterG 25) leakAdv75).trans ((congrArg (iterG 24) leakAdv76).trans ((congrArg (iterG 23) leakAdv77).trans ((congrArg (iterG 22) leakAdv78).trans ((congrArg (iterG 21) leakAdv79).trans ((congrArg (iterG 20) leakAdv80).trans ((congrArg (iterG 19) leakAdv81).trans ((congrArg (iterG 18) leakAdv82).trans ((congrArg (iterG 17) leakAdv83).trans ((congrArg (iterG 16) leakAdv84).trans ((congrArg (iterG 15) leakAdv85).trans ((congrArg (iterG 14) leakAdv86).trans ((congrArg (iterG 13) leakAdv87).trans ((congrArg (iterG 12) leakAdv88).trans ((congrArg (iterG 11) leakAdv89).trans ((congrArg (iterG 10) leakAdv90).trans ((congrArg (iterG 9) leakAdv91).trans ((congrArg (iterG 8) leakAdv92).trans ((congrArg (iterG 7) leakAdv93).trans ((congrArg (iterG 6) leakAdv94).trans ((congrArg (iterG 5) leakAdv95).trans ((congrArg (iterG 4) leakAdv96).trans ((congrArg (iterG 3) leakAdv97).trans ((congrArg (iterG 2) leakAdv98).trans ((congrArg (iterG 1) leakAdv99).trans (congrArg (iterG 0) leakAdv100))))))))))))))))))))))))))))))))))))))))))))))))))))))))))))))))))))))))))))))))))))))))))))))))))))

/-! ## Exact-arithmetic model of the DiffusionField

Modelled from the spec: the `DiffusionGrid` implementation itself is not part
of the source tree (only its unit test is), so the data model of §3 and the
operations of §4 are reproduced here over exact rational arithmetic. -/

/-- Axis-aligned box bounds, the six reals of §3. -/
@[ext]
structure Bounds where
  xmin : ℚ
  xmax : ℚ
  ymin : ℚ
  ymax : ℚ
  zmin : ℚ
  zmax : ℚ
  deriving DecidableEq

/-- Error taxonomy of §7. -/
inductive DErr where
  | outOfBounds
  | invalidState
  | invalidArgument
  deriving DecidableEq

/-- Modelled from the spec: the DiffusionField data model (§3).  The dense
concentration and gradient arrays are represented as functions of the integer
cell coordinate; `res` is the cube resolution. -/
structure DField where
  dCoef : ℚ
  spacing : ℚ
  bnds : Bounds
  res : ℕ
  conc : ℤ → ℤ → ℤ → ℚ
  grad : ℤ → ℤ → ℤ → ℚ × ℚ × ℚ
  cap : Option ℚ

/-- Current bounds, the `GetDimensions()` accessor of §4.6. -/
def getDimensions (f : DField) : Bounds := f.bnds

/-- Cell coordinates lying inside the grid. -/
def inRange (f : DField) (x y z : ℤ) : Prop :=
  0 ≤ x ∧ x < f.res ∧ 0 ≤ y ∧ y < f.res ∧ 0 ≤ z ∧ z < f.res

instance (f : DField) (x y z : ℤ) : Decidable (inRange f x y z) := by
  unfold inRange; infer_instance

/-- Concentration read with the open (leaking) exterior: zero outside. -/
def getConc (f : DField) (x y z : ℤ) : ℚ :=
  if inRange f x y z then f.conc x y z else 0

/-- Gradient read, zero outside the grid. -/
def getGrad (f : DField) (x y z : ℤ) : ℚ × ℚ × ℚ :=
  if inRange f x y z then f.grad x y z else (0, 0, 0)

/-- Modelled from the spec (§4.1): `Initialize(bounds, spacing)` stores the
bounds and spacing, sets `resolution = round(extent / spacing)` and allocates
zero-filled concentration and gradient arrays. -/
def initField (d : ℚ) (b : Bounds) (spacing : ℚ) : DField :=
  { dCoef := d, spacing := spacing, bnds := b,
    res := (round ((b.xmax - b.xmin) / spacing)).toNat,
    conc := fun _ _ _ => 0, grad := fun _ _ _ => (0, 0, 0), cap := none }

/-- The whole number of cells from the new cube's origin to the old one along
x: the data-migration offset of §4.2 step 3. -/
def offX (f : DField) (nb : Bounds) : ℤ := ⌊(f.bnds.xmin - nb.xmin) / f.spacing⌋

/-- The y component of the data-migration offset. -/
def offY (f : DField) (nb : Bounds) : ℤ := ⌊(f.bnds.ymin - nb.ymin) / f.spacing⌋

/-- The z component of the data-migration offset. -/
def offZ (f : DField) (nb : Bounds) : ℤ := ⌊(f.bnds.zmin - nb.zmin) / f.spacing⌋

/-- The resolution recomputed from the adopted cube's extent
(`round(extent / spacing)`, as in `Initialize`). -/
def newResA (f : DField) (nb : Bounds) : ℕ :=
  (round ((nb.xmax - nb.xmin) / f.spacing)).toNat

/-- Modelled from the spec (§4.2) and the `UpdateGrid`/`CopyOldData` tests:
`Update(newExternalBounds)` adopts the externally computed cube.  If it equals
the current bounds the call is an exact no-op; otherwise the bounds become the
supplied cube, the resolution is recomputed from its extent, new zero-filled
arrays are allocated, and every old cell is copied to `oldIndex + offset`, the
offset being the whole number of cells between the old and the new origin. -/
def update (f : DField) (nb : Bounds) : DField :=
  if nb = f.bnds then f
  else
    { f with
      bnds := nb, res := newResA f nb,
      conc := fun x y z => getConc f (x - offX f nb) (y - offY f nb) (z - offZ f nb),
      grad := fun x y z => getGrad f (x - offX f nb) (y - offY f nb) (z - offZ f nb) }

/-- Clamp to the concentration cap when one is set (§3, §4.3, §4.4). -/
def capApply : Option ℚ → ℚ → ℚ
  | none, v => v
  | some c, v => min v c

/-- Modelled from the spec (§4.6): `SetConcentrationThreshold`. -/
def setConcentrationThreshold (f : DField) (v : ℚ) : DField := { f with cap := some v }

/-- Add `amount` to the cell at coordinates `(cx, cy, cz)` and clamp. -/
def addAt (f : DField) (cx cy cz : ℤ) (amount : ℚ) : DField :=
  { f with conc := fun x y z =>
      if x = cx ∧ y = cy ∧ z = cz then capApply f.cap (f.conc x y z + amount)
      else f.conc x y z }

/-- The cell containing a physical position: `floor((p - min) / spacing)` per
axis. -/
def posCell (f : DField) (p : ℚ × ℚ × ℚ) : ℤ × ℤ × ℤ :=
  (⌊(p.1 - f.bnds.xmin) / f.spacing⌋,
   ⌊(p.2.1 - f.bnds.ymin) / f.spacing⌋,
   ⌊(p.2.2 - f.bnds.zmin) / f.spacing⌋)

/-- Modelled from the spec (§4.3): `IncreaseConcentrationAt(position, amount)`
maps the position to a cell, adds, clamps, and fails with `OutOfBoundsError`
for positions outside the domain. -/
def increaseConcentrationAt (f : DField) (p : ℚ × ℚ × ℚ) (amount : ℚ) :
    Except DErr DField :=
  if inRange f (posCell f p).1 (posCell f p).2.1 (posCell f p).2.2 then
    .ok (addAt f (posCell f p).1 (posCell f p).2.1 (posCell f p).2.2 amount)
  else .error .outOfBounds

/-- Sum of the six face-neighbour concentrations, an out-of-grid neighbour
contributing zero (the leaking boundary of §4.4). -/
def nbrSum (f : DField) (x y z : ℤ) : ℚ :=
  getConc f (x-1) y z + getConc f (x+1) y z + getConc f x (y-1) z +
  getConc f x (y+1) z + getConc f x y (z-1) + getConc f x y (z+1)

/-- Modelled from the spec (§4.4): one explicit finite-difference step
`next[c] = curr[c] + D*dt/h^2 * (Σ neighbours - 6*curr[c])`, computed from the
pre-step snapshot only, followed by the cap clamp when one is set. -/
def diffuseStep (f : DField) (dt : ℚ) : DField :=
  { f with conc := fun x y z =>
      if inRange f x y z then
        capApply f.cap (getConc f x y z +
          f.dCoef * dt / f.spacing ^ 2 * (nbrSum f x y z - 6 * getConc f x y z))
      else 0 }

/-- Read of the row-major flat concentration array at linear index `i`
(`i = x + res*y + res^2*z`); indices past the array read the open exterior. -/
def flatConc (f : DField) (i : ℕ) : ℚ :=
  getConc f (i % f.res : ℕ) (i / f.res % f.res : ℕ) (i / (f.res * f.res) : ℕ)

/-- One gradient component at flat index `i`, axis coordinate `w`, interior
stride `s`: a central difference over `2h` inside; at either end of the axis a
one-sided difference over the element two linear indices inward — the offset
is `±2`, the x-stride, for every axis, as the unit test's boundary values
require. -/
def gradCompM (f : DField) (i w s : ℕ) : ℚ :=
  if w = 0 then (flatConc f (i + 2) - flatConc f i) / (2 * f.spacing)
  else if w = f.res - 1 then (flatConc f i - flatConc f (i - 2)) / (2 * f.spacing)
  else (flatConc f (i + s) - flatConc f (i - s)) / (2 * f.spacing)

/-- Modelled from the spec (§4.5) and the test's values: `CalculateGradient`
overwrites the whole gradient array from the current concentrations. -/
def calculateGradient (f : DField) : DField :=
  { f with grad := fun x y z =>
      if inRange f x y z then
        (gradCompM f (x.toNat + f.res * y.toNat + f.res * f.res * z.toNat) x.toNat 1,
         gradCompM f (x.toNat + f.res * y.toNat + f.res * f.res * z.toNat) y.toNat f.res,
         gradCompM f (x.toNat + f.res * y.toNat + f.res * f.res * z.toNat) z.toNat
           (f.res * f.res))
      else (0, 0, 0) }

/-- Modelled from the spec (§4.6): `GetBoxIndex` maps a valid integer cell
coordinate to `ix + nx*(iy + ny*iz)` and fails with `OutOfBoundsError`
otherwise. -/
def getBoxIndex (f : DField) (c : ℕ × ℕ × ℕ) : Except DErr ℕ :=
  if c.1 < f.res ∧ c.2.1 < f.res ∧ c.2.2 < f.res then
    .ok (c.1 + f.res * (c.2.1 + f.res * c.2.2))
  else .error .outOfBounds

/-- Inverse of the linear cell index. -/
def invBoxIndex (f : DField) (i : ℕ) : ℕ × ℕ × ℕ :=
  (i % f.res, i / f.res % f.res, i / (f.res * f.res))

/-- Total mass: the sum of all cell concentrations. -/
def mass (f : DField) : ℚ :=
  ∑ z ∈ Finset.range f.res, ∑ y ∈ Finset.range f.res, ∑ x ∈ Finset.range f.res,
    getConc f x y z

/-- Total concentration on the two x-faces of the grid. -/
def faceX (f : DField) : ℚ :=
  ∑ z ∈ Finset.range f.res, ∑ y ∈ Finset.range f.res,
    (getConc f 0 y z + getConc f ((f.res : ℤ) - 1) y z)

/-- Total concentration on the two y-faces of the grid. -/
def faceY (f : DField) : ℚ :=
  ∑ z ∈ Finset.range f.res, ∑ x ∈ Finset.range f.res,
    (getConc f x 0 z + getConc f x ((f.res : ℤ) - 1) z)

/-- Total concentration on the two z-faces of the grid. -/
def faceZ (f : DField) : ℚ :=
  ∑ y ∈ Finset.range f.res, ∑ x ∈ Finset.range f.res,
    (getConc f x y 0 + getConc f x y ((f.res : ℤ) - 1))

/-- Well-formedness: positive spacing and cubic bounds of extent
`res * spacing` on every axis (the §3 invariant). -/
def WFc (f : DField) : Prop :=
  0 < f.spacing ∧
  f.bnds.xmax = f.bnds.xmin + f.res * f.spacing ∧
  f.bnds.ymax = f.bnds.ymin + f.res * f.spacing ∧
  f.bnds.zmax = f.bnds.zmin + f.res * f.spacing

/-- Outer bounds contain inner bounds. -/
def boundsLE (inner outer : Bounds) : Prop :=
  outer.xmin ≤ inner.xmin ∧ inner.xmax ≤ outer.xmax ∧
  outer.ymin ≤ inner.ymin ∧ inner.ymax ≤ outer.ymax ∧
  outer.zmin ≤ inner.zmin ∧ inner.zmax ≤ outer.zmax

/-! ### Properties of `update` -/

theorem update_of_eq (f : DField) (nb : Bounds) (h : nb = f.bnds) :
    update f nb = f := by
  unfold update
  rw [if_pos h]

theorem update_bnds (f : DField) (nb : Bounds) (h : ¬ nb = f.bnds) :
    (update f nb).bnds = nb := by
  unfold update
  rw [if_neg h]

theorem update_res (f : DField) (nb : Bounds) (h : ¬ nb = f.bnds) :
    (update f nb).res = newResA f nb := by
  unfold update
  rw [if_neg h]

theorem update_spacing (f : DField) (nb : Bounds) :
    (update f nb).spacing = f.spacing := by
  unfold update
  split <;> rfl

theorem update_dCoef (f : DField) (nb : Bounds) :
    (update f nb).dCoef = f.dCoef := by
  unfold update
  split <;> rfl

theorem update_idem (f : DField) (nb : Bounds) :
    update (update f nb) nb = update f nb := by
  by_cases h : nb = f.bnds
  · rw [update_of_eq f nb h, update_of_eq f nb h]
  · exact update_of_eq (update f nb) nb (update_bnds f nb h).symm

theorem off_self (f : DField) :
    offX f f.bnds = 0 ∧ offY f f.bnds = 0 ∧ offZ f f.bnds = 0 := by
  unfold offX offY offZ
  rw [sub_self, sub_self, sub_self, zero_div, Int.floor_zero]
  exact ⟨rfl, rfl, rfl⟩

theorem update_copy (f : DField) (nb : Bounds) (x y z : ℤ)
    (hr : inRange f x y z) :
    (update f nb).conc (x + offX f nb) (y + offY f nb) (z + offZ f nb)
        = f.conc x y z ∧
    (update f nb).grad (x + offX f nb) (y + offY f nb) (z + offZ f nb)
        = f.grad x y z := by
  by_cases h : nb = f.bnds
  · rw [update_of_eq f nb h, h, (off_self f).1, (off_self f).2.1,
      (off_self f).2.2, add_zero, add_zero, add_zero]
    exact ⟨rfl, rfl⟩
  · unfold update
    rw [if_neg h]
    simp only
    have e1 : x + offX f nb - offX f nb = x := by ring
    have e2 : y + offY f nb - offY f nb = y := by ring
    have e3 : z + offZ f nb - offZ f nb = z := by ring
    rw [e1, e2, e3]
    unfold getConc getGrad
    rw [if_pos hr, if_pos hr]
    exact ⟨rfl, rfl⟩

theorem update_new_cells_zero (f : DField) (nb : Bounds) (x y z : ℤ)
    (hnew : ¬ inRange f (x - offX f nb) (y - offY f nb) (z - offZ f nb)) :
    (update f nb).conc x y z = 0 ∨ update f nb = f := by
  by_cases h : nb = f.bnds
  · right
    exact update_of_eq f nb h
  · left
    unfold update
    rw [if_neg h]
    simp only
    unfold getConc
    rw [if_neg hnew]

theorem boundsLE_refl (b : Bounds) : boundsLE b b :=
  ⟨le_refl _, le_refl _, le_refl _, le_refl _, le_refl _, le_refl _⟩

theorem update_contains (f : DField) (nb : Bounds) (hc : boundsLE f.bnds nb) :
    boundsLE f.bnds (update f nb).bnds := by
  by_cases h : nb = f.bnds
  · rw [update_of_eq f nb h]
    exact boundsLE_refl f.bnds
  · rw [update_bnds f nb h]
    exact hc

theorem newResA_eval (f : DField) (nb : Bounds) (hs : 0 < f.spacing) (m : ℕ)
    (hx : nb.xmax - nb.xmin = m * f.spacing) : newResA f nb = m := by
  unfold newResA
  rw [hx]
  have e : (m : ℚ) * f.spacing / f.spacing = ((m : ℤ) : ℚ) := by
    field_simp
  rw [e, round_intCast]
  exact Int.toNat_natCast m

theorem update_WFc (f : DField) (nb : Bounds) (hf : WFc f) (m : ℕ)
    (hx : nb.xmax - nb.xmin = m * f.spacing)
    (hy : nb.ymax - nb.ymin = m * f.spacing)
    (hz : nb.zmax - nb.zmin = m * f.spacing) : WFc (update f nb) := by
  by_cases h : nb = f.bnds
  · rw [update_of_eq f nb h]
    exact hf
  · have hs : 0 < f.spacing := hf.1
    have hres := newResA_eval f nb hs m hx
    refine ⟨?_, ?_, ?_, ?_⟩
    · rw [update_spacing]
      exact hs
    · rw [update_spacing, update_bnds f nb h, update_res f nb h, hres]
      linarith
    · rw [update_spacing, update_bnds f nb h, update_res f nb h, hres]
      linarith
    · rw [update_spacing, update_bnds f nb h, update_res f nb h, hres]
      linarith

/-! ### Linear cell index arithmetic -/

theorem index_decode (n x y z : ℕ) (hx : x < n) (hy : y < n) (hz : z < n) :
    (x + n * (y + n * z)) % n = x ∧
    (x + n * (y + n * z)) / n % n = y ∧
    (x + n * (y + n * z)) / (n * n) = z := by
  have hn : 0 < n := Nat.lt_of_le_of_lt (Nat.zero_le x) hx
  refine ⟨?_, ?_, ?_⟩
  · rw [Nat.add_mul_mod_self_left, Nat.mod_eq_of_lt hx]
  · rw [Nat.add_mul_div_left _ _ hn, Nat.div_eq_of_lt hx, Nat.zero_add,
      Nat.add_mul_mod_self_left, Nat.mod_eq_of_lt hy]
  · have : x + n * (y + n * z) = (x + n * y) + n * n * z := by ring
    rw [this, Nat.add_mul_div_left _ _ (Nat.mul_pos hn hn),
      Nat.div_eq_of_lt (by nlinarith), Nat.zero_add]

theorem getBoxIndex_ok (f : DField) (c : ℕ × ℕ × ℕ)
    (h : c.1 < f.res ∧ c.2.1 < f.res ∧ c.2.2 < f.res) :
    getBoxIndex f c = .ok (c.1 + f.res * (c.2.1 + f.res * c.2.2)) := by
  unfold getBoxIndex
  rw [if_pos h]

theorem getBoxIndex_err (f : DField) (c : ℕ × ℕ × ℕ)
    (h : ¬ (c.1 < f.res ∧ c.2.1 < f.res ∧ c.2.2 < f.res)) :
    getBoxIndex f c = .error .outOfBounds := by
  unfold getBoxIndex
  rw [if_neg h]

theorem boxIndex_lt (f : DField) (c : ℕ × ℕ × ℕ)
    (h : c.1 < f.res ∧ c.2.1 < f.res ∧ c.2.2 < f.res) :
    c.1 + f.res * (c.2.1 + f.res * c.2.2) < f.res * f.res * f.res := by
  obtain ⟨h1, h2, h3⟩ := h
  nlinarith

theorem invBoxIndex_leftInv (f : DField) (c : ℕ × ℕ × ℕ)
    (h : c.1 < f.res ∧ c.2.1 < f.res ∧ c.2.2 < f.res) :
    invBoxIndex f (c.1 + f.res * (c.2.1 + f.res * c.2.2)) = c := by
  obtain ⟨h1, h2, h3⟩ := h
  obtain ⟨d1, d2, d3⟩ := index_decode f.res c.1 c.2.1 c.2.2 h1 h2 h3
  unfold invBoxIndex
  rw [d1, d2, d3]

theorem invBoxIndex_rightInv (f : DField) (i : ℕ)
    (h : i < f.res * f.res * f.res) :
    (invBoxIndex f i).1 + f.res * ((invBoxIndex f i).2.1 +
      f.res * (invBoxIndex f i).2.2) = i ∧
    (invBoxIndex f i).1 < f.res ∧ (invBoxIndex f i).2.1 < f.res ∧
    (invBoxIndex f i).2.2 < f.res := by
  have hn : 0 < f.res := by
    rcases Nat.eq_zero_or_pos f.res with h0 | h0
    · rw [h0] at h; simp at h
    · exact h0
  unfold invBoxIndex
  refine ⟨?_, Nat.mod_lt _ hn, Nat.mod_lt _ hn, ?_⟩
  · simp only
    have e1 : i / (f.res * f.res) = i / f.res / f.res :=
      (Nat.div_div_eq_div_mul i f.res f.res).symm
    rw [e1, Nat.mod_add_div, Nat.mod_add_div]
  · exact Nat.div_lt_of_lt_mul (by rw [Nat.mul_assoc] at h ⊢; exact h)

/-! ### Mass balance of the diffusion step -/

theorem getConc_zero (f : DField) {x y z : ℤ} (h : ¬ inRange f x y z) :
    getConc f x y z = 0 := by
  unfold getConc
  rw [if_neg h]

theorem sum_shift_up (n : ℕ) (g : ℤ → ℚ) (h : g n = 0) :
    ∑ x ∈ Finset.range n, g ((x : ℤ) + 1)
      = (∑ x ∈ Finset.range n, g (x : ℤ)) - g 0 := by
  have h1 : ∑ x ∈ Finset.range (n + 1), g (x : ℤ)
      = (∑ x ∈ Finset.range n, g ((x : ℤ) + 1)) + g 0 := by
    rw [Finset.sum_range_succ' (fun i => g (i : ℤ)) n]
    push_cast
    rfl
  have h2 : ∑ x ∈ Finset.range (n + 1), g (x : ℤ)
      = (∑ x ∈ Finset.range n, g (x : ℤ)) + g n :=
    Finset.sum_range_succ _ n
  rw [h] at h2
  linarith

theorem sum_shift_down (n : ℕ) (g : ℤ → ℚ) (h : g (-1) = 0) :
    ∑ x ∈ Finset.range n, g ((x : ℤ) - 1)
      = (∑ x ∈ Finset.range n, g (x : ℤ)) - g ((n : ℤ) - 1) := by
  have h1 : ∑ x ∈ Finset.range (n + 1), g ((x : ℤ) - 1)
      = (∑ x ∈ Finset.range n, g (x : ℤ)) + g (-1) := by
    rw [Finset.sum_range_succ' (fun i => g ((i : ℤ) - 1)) n]
    push_cast
    simp
  have h2 : ∑ x ∈ Finset.range (n + 1), g ((x : ℤ) - 1)
      = (∑ x ∈ Finset.range n, g ((x : ℤ) - 1)) + g ((n : ℤ) - 1) :=
    Finset.sum_range_succ _ n
  rw [h] at h1
  linarith

theorem getConc_left (f : DField) (y z : ℤ) : getConc f (-1) y z = 0 :=
  getConc_zero f (by intro h; obtain ⟨h1, _⟩ := h; omega)

theorem getConc_right (f : DField) (y z : ℤ) : getConc f (f.res : ℤ) y z = 0 :=
  getConc_zero f (by intro h; obtain ⟨_, h2, _⟩ := h; omega)

theorem getConc_bot (f : DField) (x z : ℤ) : getConc f x (-1) z = 0 :=
  getConc_zero f (by intro h; obtain ⟨_, _, h3, _⟩ := h; omega)

theorem getConc_top (f : DField) (x z : ℤ) : getConc f x (f.res : ℤ) z = 0 :=
  getConc_zero f (by intro h; obtain ⟨_, _, _, h4, _⟩ := h; omega)

theorem getConc_back (f : DField) (x y : ℤ) : getConc f x y (-1) = 0 :=
  getConc_zero f (by intro h; obtain ⟨_, _, _, _, h5, _⟩ := h; omega)

theorem getConc_front (f : DField) (x y : ℤ) : getConc f x y (f.res : ℤ) = 0 :=
  getConc_zero f (by intro h; obtain ⟨_, _, _, _, _, h6⟩ := h; omega)

theorem total_xm (f : DField) :
    ∑ z ∈ Finset.range f.res, ∑ y ∈ Finset.range f.res, ∑ x ∈ Finset.range f.res,
      getConc f ((x : ℤ) - 1) y z
    = mass f - ∑ z ∈ Finset.range f.res, ∑ y ∈ Finset.range f.res,
        getConc f ((f.res : ℤ) - 1) y z := by
  unfold mass
  rw [← Finset.sum_sub_distrib]
  refine Finset.sum_congr rfl fun z _ => ?_
  rw [← Finset.sum_sub_distrib]
  refine Finset.sum_congr rfl fun y _ => ?_
  exact sum_shift_down f.res (fun t => getConc f t y z) (getConc_left f y z)

theorem total_xp (f : DField) :
    ∑ z ∈ Finset.range f.res, ∑ y ∈ Finset.range f.res, ∑ x ∈ Finset.range f.res,
      getConc f ((x : ℤ) + 1) y z
    = mass f - ∑ z ∈ Finset.range f.res, ∑ y ∈ Finset.range f.res,
        getConc f 0 y z := by
  unfold mass
  rw [← Finset.sum_sub_distrib]
  refine Finset.sum_congr rfl fun z _ => ?_
  rw [← Finset.sum_sub_distrib]
  refine Finset.sum_congr rfl fun y _ => ?_
  exact sum_shift_up f.res (fun t => getConc f t y z) (getConc_right f y z)

theorem total_ym (f : DField) :
    ∑ z ∈ Finset.range f.res, ∑ y ∈ Finset.range f.res, ∑ x ∈ Finset.range f.res,
      getConc f x ((y : ℤ) - 1) z
    = mass f - ∑ z ∈ Finset.range f.res, ∑ x ∈ Finset.range f.res,
        getConc f x ((f.res : ℤ) - 1) z := by
  unfold mass
  rw [← Finset.sum_sub_distrib]
  refine Finset.sum_congr rfl fun z _ => ?_
  rw [Finset.sum_comm]
  conv_rhs => rw [Finset.sum_comm]
  rw [← Finset.sum_sub_distrib]
  refine Finset.sum_congr rfl fun x _ => ?_
  exact sum_shift_down f.res (fun t => getConc f x t z) (getConc_bot f x z)

theorem total_yp (f : DField) :
    ∑ z ∈ Finset.range f.res, ∑ y ∈ Finset.range f.res, ∑ x ∈ Finset.range f.res,
      getConc f x ((y : ℤ) + 1) z
    = mass f - ∑ z ∈ Finset.range f.res, ∑ x ∈ Finset.range f.res,
        getConc f x 0 z := by
  unfold mass
  rw [← Finset.sum_sub_distrib]
  refine Finset.sum_congr rfl fun z _ => ?_
  rw [Finset.sum_comm]
  conv_rhs => rw [Finset.sum_comm]
  rw [← Finset.sum_sub_distrib]
  refine Finset.sum_congr rfl fun x _ => ?_
  exact sum_shift_up f.res (fun t => getConc f x t z) (getConc_top f x z)

theorem total_zm (f : DField) :
    ∑ z ∈ Finset.range f.res, ∑ y ∈ Finset.range f.res, ∑ x ∈ Finset.range f.res,
      getConc f x y ((z : ℤ) - 1)
    = mass f - ∑ y ∈ Finset.range f.res, ∑ x ∈ Finset.range f.res,
        getConc f x y ((f.res : ℤ) - 1) := by
  unfold mass
  rw [Finset.sum_comm]
  conv_rhs => rw [Finset.sum_comm (s := Finset.range f.res) (t := Finset.range f.res)]
  rw [← Finset.sum_sub_distrib]
  refine Finset.sum_congr rfl fun y _ => ?_
  rw [Finset.sum_comm]
  conv_rhs => rw [Finset.sum_comm]
  rw [← Finset.sum_sub_distrib]
  refine Finset.sum_congr rfl fun x _ => ?_
  exact sum_shift_down f.res (fun t => getConc f x y t) (getConc_back f x y)

theorem total_zp (f : DField) :
    ∑ z ∈ Finset.range f.res, ∑ y ∈ Finset.range f.res, ∑ x ∈ Finset.range f.res,
      getConc f x y ((z : ℤ) + 1)
    = mass f - ∑ y ∈ Finset.range f.res, ∑ x ∈ Finset.range f.res,
        getConc f x y 0 := by
  unfold mass
  rw [Finset.sum_comm]
  conv_rhs => rw [Finset.sum_comm (s := Finset.range f.res) (t := Finset.range f.res)]
  rw [← Finset.sum_sub_distrib]
  refine Finset.sum_congr rfl fun y _ => ?_
  rw [Finset.sum_comm]
  conv_rhs => rw [Finset.sum_comm]
  rw [← Finset.sum_sub_distrib]
  refine Finset.sum_congr rfl fun x _ => ?_
  exact sum_shift_up f.res (fun t => getConc f x y t) (getConc_front f x y)

theorem faceX_split (f : DField) :
    faceX f = (∑ z ∈ Finset.range f.res, ∑ y ∈ Finset.range f.res,
        getConc f 0 y z)
      + ∑ z ∈ Finset.range f.res, ∑ y ∈ Finset.range f.res,
          getConc f ((f.res : ℤ) - 1) y z := by
  unfold faceX
  rw [← Finset.sum_add_distrib]
  refine Finset.sum_congr rfl fun z _ => ?_
  rw [← Finset.sum_add_distrib]

theorem faceY_split (f : DField) :
    faceY f = (∑ z ∈ Finset.range f.res, ∑ x ∈ Finset.range f.res,
        getConc f x 0 z)
      + ∑ z ∈ Finset.range f.res, ∑ x ∈ Finset.range f.res,
          getConc f x ((f.res : ℤ) - 1) z := by
  unfold faceY
  rw [← Finset.sum_add_distrib]
  refine Finset.sum_congr rfl fun z _ => ?_
  rw [← Finset.sum_add_distrib]

theorem faceZ_split (f : DField) :
    faceZ f = (∑ y ∈ Finset.range f.res, ∑ x ∈ Finset.range f.res,
        getConc f x y 0)
      + ∑ y ∈ Finset.range f.res, ∑ x ∈ Finset.range f.res,
          getConc f x y ((f.res : ℤ) - 1) := by
  unfold faceZ
  rw [← Finset.sum_add_distrib]
  refine Finset.sum_congr rfl fun y _ => ?_
  rw [← Finset.sum_add_distrib]

theorem nbr_total (f : DField) :
    ∑ z ∈ Finset.range f.res, ∑ y ∈ Finset.range f.res, ∑ x ∈ Finset.range f.res,
      nbrSum f x y z
    = 6 * mass f - (faceX f + faceY f + faceZ f) := by
  calc ∑ z ∈ Finset.range f.res, ∑ y ∈ Finset.range f.res,
        ∑ x ∈ Finset.range f.res, nbrSum f x y z
      = (∑ z ∈ Finset.range f.res, ∑ y ∈ Finset.range f.res,
          ∑ x ∈ Finset.range f.res, getConc f ((x : ℤ) - 1) y z)
      + (∑ z ∈ Finset.range f.res, ∑ y ∈ Finset.range f.res,
          ∑ x ∈ Finset.range f.res, getConc f ((x : ℤ) + 1) y z)
      + (∑ z ∈ Finset.range f.res, ∑ y ∈ Finset.range f.res,
          ∑ x ∈ Finset.range f.res, getConc f x ((y : ℤ) - 1) z)
      + (∑ z ∈ Finset.range f.res, ∑ y ∈ Finset.range f.res,
          ∑ x ∈ Finset.range f.res, getConc f x ((y : ℤ) + 1) z)
      + (∑ z ∈ Finset.range f.res, ∑ y ∈ Finset.range f.res,
          ∑ x ∈ Finset.range f.res, getConc f x y ((z : ℤ) - 1))
      + (∑ z ∈ Finset.range f.res, ∑ y ∈ Finset.range f.res,
          ∑ x ∈ Finset.range f.res, getConc f x y ((z : ℤ) + 1)) := by
        rw [← Finset.sum_add_distrib, ← Finset.sum_add_distrib,
          ← Finset.sum_add_distrib, ← Finset.sum_add_distrib,
          ← Finset.sum_add_distrib]
        refine Finset.sum_congr rfl fun z _ => ?_
        rw [← Finset.sum_add_distrib, ← Finset.sum_add_distrib,
          ← Finset.sum_add_distrib, ← Finset.sum_add_distrib,
          ← Finset.sum_add_distrib]
        refine Finset.sum_congr rfl fun y _ => ?_
        unfold nbrSum
        rw [← Finset.sum_add_distrib, ← Finset.sum_add_distrib,
          ← Finset.sum_add_distrib, ← Finset.sum_add_distrib,
          ← Finset.sum_add_distrib]
  _ = 6 * mass f - (faceX f + faceY f + faceZ f) := by
        rw [total_xm, total_xp, total_ym, total_yp, total_zm, total_zp,
          faceX_split, faceY_split, faceZ_split]
        ring

theorem diffuse_inRange (f : DField) (dt : ℚ) (x y z : ℤ) :
    inRange (diffuseStep f dt) x y z ↔ inRange f x y z := by
  unfold diffuseStep inRange
  simp

theorem getConc_diffuse (f : DField) (dt : ℚ) (hcap : f.cap = none)
    (x y z : ℤ) (h : inRange f x y z) :
    getConc (diffuseStep f dt) x y z
      = getConc f x y z +
        f.dCoef * dt / f.spacing ^ 2 * (nbrSum f x y z - 6 * getConc f x y z) := by
  unfold getConc
  rw [if_pos ((diffuse_inRange f dt x y z).mpr h)]
  unfold diffuseStep
  simp only
  rw [if_pos h, hcap]
  rfl

theorem triple_add (n : ℕ) (F G : ℕ → ℕ → ℕ → ℚ) :
    ∑ z ∈ Finset.range n, ∑ y ∈ Finset.range n, ∑ x ∈ Finset.range n,
      (F x y z + G x y z)
    = (∑ z ∈ Finset.range n, ∑ y ∈ Finset.range n, ∑ x ∈ Finset.range n, F x y z)
    + ∑ z ∈ Finset.range n, ∑ y ∈ Finset.range n, ∑ x ∈ Finset.range n, G x y z := by
  rw [← Finset.sum_add_distrib]
  refine Finset.sum_congr rfl fun z _ => ?_
  rw [← Finset.sum_add_distrib]
  refine Finset.sum_congr rfl fun y _ => ?_
  rw [← Finset.sum_add_distrib]

theorem triple_sub (n : ℕ) (F G : ℕ → ℕ → ℕ → ℚ) :
    ∑ z ∈ Finset.range n, ∑ y ∈ Finset.range n, ∑ x ∈ Finset.range n,
      (F x y z - G x y z)
    = (∑ z ∈ Finset.range n, ∑ y ∈ Finset.range n, ∑ x ∈ Finset.range n, F x y z)
    - ∑ z ∈ Finset.range n, ∑ y ∈ Finset.range n, ∑ x ∈ Finset.range n, G x y z := by
  rw [← Finset.sum_sub_distrib]
  refine Finset.sum_congr rfl fun z _ => ?_
  rw [← Finset.sum_sub_distrib]
  refine Finset.sum_congr rfl fun y _ => ?_
  rw [← Finset.sum_sub_distrib]

theorem triple_pull (n : ℕ) (c : ℚ) (F : ℕ → ℕ → ℕ → ℚ) :
    ∑ z ∈ Finset.range n, ∑ y ∈ Finset.range n, ∑ x ∈ Finset.range n,
      c * F x y z
    = c * ∑ z ∈ Finset.range n, ∑ y ∈ Finset.range n, ∑ x ∈ Finset.range n,
        F x y z := by
  rw [Finset.mul_sum]
  refine Finset.sum_congr rfl fun z _ => ?_
  rw [Finset.mul_sum]
  refine Finset.sum_congr rfl fun y _ => ?_
  rw [Finset.mul_sum]

theorem mass_diffuse (f : DField) (dt : ℚ) (hcap : f.cap = none) :
    mass (diffuseStep f dt)
      = mass f - f.dCoef * dt / f.spacing ^ 2 * (faceX f + faceY f + faceZ f) := by
  have hres : (diffuseStep f dt).res = f.res := rfl
  unfold mass
  rw [hres]
  rw [Finset.sum_congr rfl fun z hz => Finset.sum_congr rfl fun y hy =>
    Finset.sum_congr rfl fun x hx => by
      refine getConc_diffuse f dt hcap x y z ?_
      simp only [Finset.mem_range] at hz hy hx
      exact ⟨by positivity, by exact_mod_cast hx, by positivity,
        by exact_mod_cast hy, by positivity, by exact_mod_cast hz⟩]
  simp only [mul_sub]
  rw [triple_add f.res _ _, triple_sub f.res _ _, triple_pull f.res _ _,
    triple_pull f.res _ _]
  rw [nbr_total f]
  have hmass : ∑ z ∈ Finset.range f.res, ∑ y ∈ Finset.range f.res,
      ∑ x ∈ Finset.range f.res, getConc f x y z = mass f := rfl
  rw [triple_pull f.res 6 fun x y z => getConc f x y z]
  rw [hmass]
  ring

/-! ### Point symmetry through the grid centre -/

/-- The concentration field (seen through the open-boundary getter) is
symmetric under point reflection through the grid centre. -/
def symmGet (f : DField) : Prop :=
  ∀ x y z : ℤ, getConc f x y z
    = getConc f ((f.res : ℤ) - 1 - x) ((f.res : ℤ) - 1 - y) ((f.res : ℤ) - 1 - z)

theorem inRange_reflect (f : DField) (x y z : ℤ) :
    inRange f ((f.res : ℤ) - 1 - x) ((f.res : ℤ) - 1 - y) ((f.res : ℤ) - 1 - z)
      ↔ inRange f x y z := by
  unfold inRange
  omega

theorem symmGet_diffuse (f : DField) (dt : ℚ) (hs : symmGet f) :
    symmGet (diffuseStep f dt) := by
  intro x y z
  have hres : (diffuseStep f dt).res = f.res := rfl
  unfold getConc
  rw [hres]
  by_cases h : inRange f x y z
  · rw [if_pos (by rw [diffuse_inRange]; exact h),
      if_pos (by rw [diffuse_inRange, inRange_reflect]; exact h)]
    unfold diffuseStep
    simp only
    rw [if_pos h, if_pos ((inRange_reflect f x y z).mpr h)]
    have e1 := hs x y z
    have e2 := hs (x - 1) y z
    have e3 := hs (x + 1) y z
    have e4 := hs x (y - 1) z
    have e5 := hs x (y + 1) z
    have e6 := hs x y (z - 1)
    have e7 := hs x y (z + 1)
    have nb : nbrSum f x y z
        = nbrSum f ((f.res : ℤ) - 1 - x) ((f.res : ℤ) - 1 - y)
            ((f.res : ℤ) - 1 - z) := by
      unfold nbrSum
      rw [e2, e3, e4, e5, e6, e7]
      have c1 : (f.res : ℤ) - 1 - (x - 1) = ((f.res : ℤ) - 1 - x) + 1 := by ring
      have c2 : (f.res : ℤ) - 1 - (x + 1) = ((f.res : ℤ) - 1 - x) - 1 := by ring
      have c3 : (f.res : ℤ) - 1 - (y - 1) = ((f.res : ℤ) - 1 - y) + 1 := by ring
      have c4 : (f.res : ℤ) - 1 - (y + 1) = ((f.res : ℤ) - 1 - y) - 1 := by ring
      have c5 : (f.res : ℤ) - 1 - (z - 1) = ((f.res : ℤ) - 1 - z) + 1 := by ring
      have c6 : (f.res : ℤ) - 1 - (z + 1) = ((f.res : ℤ) - 1 - z) - 1 := by ring
      rw [c1, c2, c3, c4, c5, c6]
      ring
    rw [e1, nb]
  · rw [if_neg (by rw [diffuse_inRange]; exact h),
      if_neg (by rw [diffuse_inRange, inRange_reflect]; exact h)]

theorem symmGet_addAt (f : DField) (c : ℤ) (a : ℚ) (hc : 2 * c = (f.res : ℤ) - 1)
    (hs : symmGet f) : symmGet (addAt f c c c a) := by
  intro x y z
  have hres : (addAt f c c c a).res = f.res := rfl
  have hcr : (f.res : ℤ) - 1 - c = c := by omega
  unfold getConc
  rw [hres]
  by_cases h : inRange f x y z
  · rw [if_pos (show inRange (addAt f c c c a) x y z from h),
      if_pos (show inRange (addAt f c c c a) ((f.res : ℤ) - 1 - x)
        ((f.res : ℤ) - 1 - y) ((f.res : ℤ) - 1 - z) from
        (inRange_reflect f x y z).mpr h)]
    unfold addAt
    simp only
    have hsx := hs x y z
    unfold getConc at hsx
    rw [if_pos h, if_pos ((inRange_reflect f x y z).mpr h)] at hsx
    by_cases hx : x = c ∧ y = c ∧ z = c
    · obtain ⟨rfl, rfl, rfl⟩ := hx
      rw [if_pos ⟨rfl, rfl, rfl⟩, if_pos ⟨by omega, by omega, by omega⟩]
      rw [hsx]
    · rw [if_neg hx, if_neg (by
        intro hcon
        obtain ⟨h1, h2, h3⟩ := hcon
        exact hx ⟨by omega, by omega, by omega⟩)]
      exact hsx
  · rw [if_neg (show ¬ inRange (addAt f c c c a) x y z from h),
      if_neg (show ¬ inRange (addAt f c c c a) ((f.res : ℤ) - 1 - x)
        ((f.res : ℤ) - 1 - y) ((f.res : ℤ) - 1 - z) from
        fun hcon => h ((inRange_reflect f x y z).mp hcon))]

theorem symmGet_calcGrad (f : DField) (hs : symmGet f) :
    symmGet (calculateGradient f) := by
  intro x y z
  have : getConc (calculateGradient f) = getConc f := by
    funext a b c
    unfold getConc calculateGradient inRange
    rfl
  rw [this]
  exact hs x y z

/-! ### Coordinates of the stored gradient -/

theorem flat_decode (f : DField) (x y z : ℕ) (hx : x < f.res) (hy : y < f.res)
    (hz : z < f.res) :
    flatConc f (x + f.res * y + f.res * f.res * z) = getConc f x y z := by
  obtain ⟨h1, h2, h3⟩ := index_decode f.res x y z hx hy hz
  unfold flatConc
  have e : x + f.res * y + f.res * f.res * z = x + f.res * (y + f.res * z) := by ring
  rw [e, h1, h2, h3]

theorem getGrad_calc (f : DField) (x y z : ℤ) (h : inRange f x y z) :
    getGrad (calculateGradient f) x y z
      = (gradCompM f (x.toNat + f.res * y.toNat + f.res * f.res * z.toNat) x.toNat 1,
         gradCompM f (x.toNat + f.res * y.toNat + f.res * f.res * z.toNat) y.toNat f.res,
         gradCompM f (x.toNat + f.res * y.toNat + f.res * f.res * z.toNat) z.toNat
           (f.res * f.res)) := by
  have hg : (calculateGradient f).grad x y z
      = if inRange f x y z then
          (gradCompM f (x.toNat + f.res * y.toNat + f.res * f.res * z.toNat) x.toNat 1,
           gradCompM f (x.toNat + f.res * y.toNat + f.res * f.res * z.toNat) y.toNat f.res,
           gradCompM f (x.toNat + f.res * y.toNat + f.res * f.res * z.toNat) z.toNat
             (f.res * f.res))
        else (0, 0, 0) := rfl
  unfold getGrad
  rw [if_pos (show inRange (calculateGradient f) x y z from h), hg, if_pos h]

theorem getGrad_calcN (f : DField) (x y z : ℕ) (hx : x < f.res) (hy : y < f.res)
    (hz : z < f.res) :
    getGrad (calculateGradient f) x y z
      = (gradCompM f (x + f.res * y + f.res * f.res * z) x 1,
         gradCompM f (x + f.res * y + f.res * f.res * z) y f.res,
         gradCompM f (x + f.res * y + f.res * f.res * z) z (f.res * f.res)) := by
  have h : inRange f x y z := by unfold inRange; omega
  rw [getGrad_calc f x y z h]
  simp [Int.toNat_natCast]

theorem gradX_interior (f : DField) (x y z : ℕ) (h0 : 0 < x) (h1 : x + 1 < f.res)
    (hy : y < f.res) (hz : z < f.res) :
    (getGrad (calculateGradient f) x y z).1
      = (getConc f (x + 1 : ℕ) y z - getConc f (x - 1 : ℕ) y z) / (2 * f.spacing) := by
  rw [getGrad_calcN f x y z (by omega) hy hz]
  show gradCompM f (x + f.res * y + f.res * f.res * z) x 1 = _
  unfold gradCompM
  rw [if_neg (by omega : ¬ x = 0), if_neg (by omega : ¬ x = f.res - 1)]
  have e1 : x + f.res * y + f.res * f.res * z + 1
      = (x + 1) + f.res * y + f.res * f.res * z := by ring
  have e2 : x + f.res * y + f.res * f.res * z - 1
      = (x - 1) + f.res * y + f.res * f.res * z := by
    obtain ⟨t, ht⟩ : ∃ t, x = t + 1 := ⟨x - 1, by omega⟩
    rw [ht]
    simp only [Nat.add_sub_cancel]
    have e : t + 1 + f.res * y + f.res * f.res * z
        = (t + f.res * y + f.res * f.res * z) + 1 := by ring
    rw [e, Nat.add_sub_cancel]
  rw [e1, e2, flat_decode f (x + 1) y z h1 hy hz,
    flat_decode f (x - 1) y z (by omega) hy hz]

theorem gradX_lo (f : DField) (x y z : ℕ) (hx0 : x = 0) (hr : 2 < f.res)
    (hy : y < f.res) (hz : z < f.res) :
    (getGrad (calculateGradient f) x y z).1
      = (getConc f (x + 2 : ℕ) y z - getConc f x y z) / (2 * f.spacing) := by
  subst hx0
  rw [getGrad_calcN f 0 y z (by omega) hy hz]
  show gradCompM f (0 + f.res * y + f.res * f.res * z) 0 1 = _
  unfold gradCompM
  rw [if_pos rfl]
  have e1 : 0 + f.res * y + f.res * f.res * z + 2
      = (0 + 2) + f.res * y + f.res * f.res * z := by ring
  rw [e1, flat_decode f (0 + 2) y z (by omega) hy hz,
    flat_decode f 0 y z (by omega) hy hz]

theorem gradX_hi (f : DField) (x y z : ℕ) (hxh : x = f.res - 1) (hr : 2 < f.res)
    (hy : y < f.res) (hz : z < f.res) :
    (getGrad (calculateGradient f) x y z).1
      = (getConc f x y z - getConc f (x - 2 : ℕ) y z) / (2 * f.spacing) := by
  subst hxh
  rw [getGrad_calcN f (f.res - 1) y z (by omega) hy hz]
  show gradCompM f ((f.res - 1) + f.res * y + f.res * f.res * z) (f.res - 1) 1 = _
  unfold gradCompM
  rw [if_neg (by omega : ¬ f.res - 1 = 0), if_pos rfl]
  have e2 : (f.res - 1) + f.res * y + f.res * f.res * z - 2
      = (f.res - 1 - 2) + f.res * y + f.res * f.res * z := by
    obtain ⟨m, hm⟩ : ∃ m, f.res - 1 = m + 2 := ⟨f.res - 3, by omega⟩
    rw [hm]
    simp only [Nat.add_sub_cancel]
    have e : m + 2 + f.res * y + f.res * f.res * z
        = (m + f.res * y + f.res * f.res * z) + 2 := by ring
    rw [e, Nat.add_sub_cancel]
  rw [e2, flat_decode f (f.res - 1) y z (by omega) hy hz,
    flat_decode f (f.res - 1 - 2) y z (by omega) hy hz]

theorem gradY_interior (f : DField) (x y z : ℕ) (hx : x < f.res) (h0 : 0 < y)
    (h1 : y + 1 < f.res) (hz : z < f.res) :
    (getGrad (calculateGradient f) x y z).2.1
      = (getConc f x (y + 1 : ℕ) z - getConc f x (y - 1 : ℕ) z) / (2 * f.spacing) := by
  rw [getGrad_calcN f x y z hx (by omega) hz]
  show gradCompM f (x + f.res * y + f.res * f.res * z) y f.res = _
  unfold gradCompM
  rw [if_neg (by omega : ¬ y = 0), if_neg (by omega : ¬ y = f.res - 1)]
  have e1 : x + f.res * y + f.res * f.res * z + f.res
      = x + f.res * (y + 1) + f.res * f.res * z := by ring
  have e2 : x + f.res * y + f.res * f.res * z - f.res
      = x + f.res * (y - 1) + f.res * f.res * z := by
    obtain ⟨t, ht⟩ : ∃ t, y = t + 1 := ⟨y - 1, by omega⟩
    rw [ht]
    simp only [Nat.add_sub_cancel]
    have e : x + f.res * (t + 1) + f.res * f.res * z
        = (x + f.res * t + f.res * f.res * z) + f.res := by ring
    rw [e, Nat.add_sub_cancel]
  rw [e1, e2, flat_decode f x (y + 1) z hx h1 hz,
    flat_decode f x (y - 1) z hx (by omega) hz]

theorem gradY_lo (f : DField) (x y z : ℕ) (hy0 : y = 0) (hx2 : x + 2 < f.res)
    (hz : z < f.res) :
    (getGrad (calculateGradient f) x y z).2.1
      = (getConc f (x + 2 : ℕ) y z - getConc f x y z) / (2 * f.spacing) := by
  subst hy0
  rw [getGrad_calcN f x 0 z (by omega) (by omega) hz]
  show gradCompM f (x + f.res * 0 + f.res * f.res * z) 0 f.res = _
  unfold gradCompM
  rw [if_pos rfl]
  have e1 : x + f.res * 0 + f.res * f.res * z + 2
      = (x + 2) + f.res * 0 + f.res * f.res * z := by ring
  rw [e1, flat_decode f (x + 2) 0 z hx2 (by omega) hz,
    flat_decode f x 0 z (by omega) (by omega) hz]

theorem gradY_hi (f : DField) (x y z : ℕ) (hyh : y = f.res - 1) (hr : 2 < f.res)
    (hx2 : 2 ≤ x) (hx : x < f.res) (hz : z < f.res) :
    (getGrad (calculateGradient f) x y z).2.1
      = (getConc f x y z - getConc f (x - 2 : ℕ) y z) / (2 * f.spacing) := by
  subst hyh
  rw [getGrad_calcN f x (f.res - 1) z hx (by omega) hz]
  show gradCompM f (x + f.res * (f.res - 1) + f.res * f.res * z) (f.res - 1) f.res = _
  unfold gradCompM
  rw [if_neg (by omega : ¬ f.res - 1 = 0), if_pos rfl]
  have e2 : x + f.res * (f.res - 1) + f.res * f.res * z - 2
      = (x - 2) + f.res * (f.res - 1) + f.res * f.res * z := by
    obtain ⟨m, hm⟩ : ∃ m, x = m + 2 := ⟨x - 2, by omega⟩
    rw [hm]
    simp only [Nat.add_sub_cancel]
    have e : m + 2 + f.res * (f.res - 1) + f.res * f.res * z
        = (m + f.res * (f.res - 1) + f.res * f.res * z) + 2 := by ring
    rw [e, Nat.add_sub_cancel]
  rw [e2, flat_decode f x (f.res - 1) z hx (by omega) hz,
    flat_decode f (x - 2) (f.res - 1) z (by omega) (by omega) hz]

theorem gradZ_interior (f : DField) (x y z : ℕ) (hx : x < f.res) (hy : y < f.res)
    (h0 : 0 < z) (h1 : z + 1 < f.res) :
    (getGrad (calculateGradient f) x y z).2.2
      = (getConc f x y (z + 1 : ℕ) - getConc f x y (z - 1 : ℕ)) / (2 * f.spacing) := by
  rw [getGrad_calcN f x y z hx hy (by omega)]
  show gradCompM f (x + f.res * y + f.res * f.res * z) z (f.res * f.res) = _
  unfold gradCompM
  rw [if_neg (by omega : ¬ z = 0), if_neg (by omega : ¬ z = f.res - 1)]
  have e1 : x + f.res * y + f.res * f.res * z + f.res * f.res
      = x + f.res * y + f.res * f.res * (z + 1) := by ring
  have e2 : x + f.res * y + f.res * f.res * z - f.res * f.res
      = x + f.res * y + f.res * f.res * (z - 1) := by
    obtain ⟨t, ht⟩ : ∃ t, z = t + 1 := ⟨z - 1, by omega⟩
    rw [ht]
    simp only [Nat.add_sub_cancel]
    have e : x + f.res * y + f.res * f.res * (t + 1)
        = (x + f.res * y + f.res * f.res * t) + f.res * f.res := by ring
    rw [e, Nat.add_sub_cancel]
  rw [e1, e2, flat_decode f x y (z + 1) hx hy h1,
    flat_decode f x y (z - 1) hx hy (by omega)]

theorem gradZ_lo (f : DField) (x y z : ℕ) (hz0 : z = 0) (hx2 : x + 2 < f.res)
    (hy : y < f.res) :
    (getGrad (calculateGradient f) x y z).2.2
      = (getConc f (x + 2 : ℕ) y z - getConc f x y z) / (2 * f.spacing) := by
  subst hz0
  rw [getGrad_calcN f x y 0 (by omega) hy (by omega)]
  show gradCompM f (x + f.res * y + f.res * f.res * 0) 0 (f.res * f.res) = _
  unfold gradCompM
  rw [if_pos rfl]
  have e1 : x + f.res * y + f.res * f.res * 0 + 2
      = (x + 2) + f.res * y + f.res * f.res * 0 := by ring
  rw [e1, flat_decode f (x + 2) y 0 hx2 hy (by omega),
    flat_decode f x y 0 (by omega) hy (by omega)]

theorem gradZ_hi (f : DField) (x y z : ℕ) (hzh : z = f.res - 1) (hr : 2 < f.res)
    (hx2 : 2 ≤ x) (hx : x < f.res) (hy : y < f.res) :
    (getGrad (calculateGradient f) x y z).2.2
      = (getConc f x y z - getConc f (x - 2 : ℕ) y z) / (2 * f.spacing) := by
  subst hzh
  rw [getGrad_calcN f x y (f.res - 1) hx hy (by omega)]
  show gradCompM f (x + f.res * y + f.res * f.res * (f.res - 1)) (f.res - 1)
    (f.res * f.res) = _
  unfold gradCompM
  rw [if_neg (by omega : ¬ f.res - 1 = 0), if_pos rfl]
  have e2 : x + f.res * y + f.res * f.res * (f.res - 1) - 2
      = (x - 2) + f.res * y + f.res * f.res * (f.res - 1) := by
    obtain ⟨m, hm⟩ : ∃ m, x = m + 2 := ⟨x - 2, by omega⟩
    rw [hm]
    simp only [Nat.add_sub_cancel]
    have e : m + 2 + f.res * y + f.res * f.res * (f.res - 1)
        = (m + f.res * y + f.res * f.res * (f.res - 1)) + 2 := by ring
    rw [e, Nat.add_sub_cancel]
  rw [e2, flat_decode f x y (f.res - 1) hx hy (by omega),
    flat_decode f (x - 2) y (f.res - 1) (by omega) hy (by omega)]

theorem calcGrad_fresh (f : DField) (g : ℤ → ℤ → ℤ → ℚ × ℚ × ℚ) :
    calculateGradient { f with grad := g } = calculateGradient f := rfl

theorem symmGet_of_zero (f : DField) (h : ∀ x y z : ℤ, f.conc x y z = 0) :
    symmGet f := by
  intro x y z
  unfold getConc
  split <;> split <;> simp [h]

def b30 : Bounds := ⟨-30, 120, -30, 120, -30, 120⟩

def f0 : DField := setConcentrationThreshold (initField (2/5) b30 30) 1000000000000000

def stepSc (f : DField) : DField :=
  calculateGradient (diffuseStep (addAt f 2 2 2 4) 150)

def scM : ℕ → DField
  | 0 => f0
  | k + 1 => stepSc (scM k)

theorem f0_res : f0.res = 5 := by
  show (round ((120 - (-30) : ℚ) / 30)).toNat = 5
  have e : ((120 : ℚ) - (-30)) / 30 = ((5 : ℤ) : ℚ) := by norm_num
  rw [e, round_intCast]
  rfl

theorem scM_res (k : ℕ) : (scM k).res = 5 := by
  induction k with
  | zero => exact f0_res
  | succ k ih => exact ih

theorem scM_symm (k : ℕ) : symmGet (scM k) := by
  induction k with
  | zero => exact symmGet_of_zero f0 (fun _ _ _ => rfl)
  | succ k ih =>
    have h2 : (2 : ℤ) * 2 = (((scM k).res : ℕ) : ℤ) - 1 := by rw [scM_res]; norm_num
    exact symmGet_calcGrad _ (symmGet_diffuse _ 150 (symmGet_addAt (scM k) 2 4 h2 ih))

theorem symmGet_n (f : DField) (hr : f.res = 5) (hs : symmGet f) (x y z : ℕ)
    (hx : x < 5) (hy : y < 5) (hz : z < 5) :
    getConc f x y z = getConc f (4 - x : ℕ) (4 - y : ℕ) (4 - z : ℕ) := by
  have h := hs x y z
  have e1 : ((f.res : ℤ) - 1 - x) = ((4 - x : ℕ) : ℤ) := by omega
  have e2 : ((f.res : ℤ) - 1 - y) = ((4 - y : ℕ) : ℤ) := by omega
  have e3 : ((f.res : ℤ) - 1 - z) = ((4 - z : ℕ) : ℤ) := by omega
  rw [e1, e2, e3] at h
  exact h

theorem flat_decode5 (f : DField) (hr5 : f.res = 5) (x y z : ℕ) (hx : x < 5)
    (hy : y < 5) (hz : z < 5) :
    flatConc f (x + 5 * y + 25 * z) = getConc f x y z := by
  have h := flat_decode f x y z (by omega) (by omega) (by omega)
  rw [hr5] at h
  have e : x + 5 * y + 25 * z = x + 5 * y + 5 * 5 * z := by ring
  rw [e]
  exact h

theorem getGrad_calc5 (f : DField) (hr5 : f.res = 5) (x y z : ℕ)
    (hx : x < 5) (hy : y < 5) (hz : z < 5) :
    getGrad (calculateGradient f) x y z
      = (gradCompM f (x + 5 * y + 25 * z) x 1,
         gradCompM f (x + 5 * y + 25 * z) y 5,
         gradCompM f (x + 5 * y + 25 * z) z 25) := by
  have h := getGrad_calcN f x y z (by omega) (by omega) (by omega)
  rw [hr5] at h
  have e : x + 5 * y + 5 * 5 * z = x + 5 * y + 25 * z := by ring
  rw [e] at h
  rw [show (5:ℕ) * 5 = 25 from rfl] at h
  exact h

theorem flat_symm5 (f : DField) (hr5 : f.res = 5) (hs : symmGet f) (i : ℕ)
    (hi : i < 125) : flatConc f i = flatConc f (124 - i) := by
  have hx : i % 5 < 5 := Nat.mod_lt _ (by norm_num)
  have hy : i / 5 % 5 < 5 := Nat.mod_lt _ (by norm_num)
  have hz : i / 25 < 5 := by omega
  have e1 : i = i % 5 + 5 * (i / 5 % 5) + 25 * (i / 25) := by omega
  have e2 : 124 - i = (4 - i % 5) + 5 * (4 - i / 5 % 5) + 25 * (4 - i / 25) := by
    omega
  rw [e2, flat_decode5 f hr5 (4 - i % 5) (4 - i / 5 % 5) (4 - i / 25) (by omega)
    (by omega) (by omega)]
  conv_lhs => rw [e1]
  rw [flat_decode5 f hr5 (i % 5) (i / 5 % 5) (i / 25) hx hy hz]
  exact symmGet_n f hr5 hs (i % 5) (i / 5 % 5) (i / 25) hx hy hz

theorem gradCompM_antisym (f : DField) (hr5 : f.res = 5) (hs : symmGet f)
    (i w s : ℕ) (hi : i < 125) (hw : w < 5)
    (h0 : w = 0 → i + 2 < 125)
    (h4 : w = 4 → 2 ≤ i)
    (hint : ¬ w = 0 → ¬ w = 4 → s ≤ i ∧ i + s ≤ 124) :
    gradCompM f i w s = - gradCompM f (124 - i) (4 - w) s := by
  have e4 : f.res - 1 = 4 := by omega
  unfold gradCompM
  rw [e4]
  by_cases hw0 : w = 0
  · rw [if_pos hw0, if_neg (by omega : ¬ 4 - w = 0), if_pos (by omega : 4 - w = 4)]
    have ha : 124 - i - 2 = 124 - (i + 2) := by omega
    rw [ha, ← flat_symm5 f hr5 hs i hi, ← flat_symm5 f hr5 hs (i + 2) (h0 hw0)]
    ring
  · by_cases hw4 : w = 4
    · rw [if_neg hw0, if_pos hw4, if_pos (by omega : 4 - w = 0)]
      have ha : 124 - i + 2 = 124 - (i - 2) := by
        have := h4 hw4
        omega
      rw [ha, ← flat_symm5 f hr5 hs i hi,
        ← flat_symm5 f hr5 hs (i - 2) (by omega)]
      ring
    · obtain ⟨hs1, hs2⟩ := hint hw0 hw4
      rw [if_neg hw0, if_neg hw4, if_neg (by omega : ¬ 4 - w = 0),
        if_neg (by omega : ¬ 4 - w = 4)]
      have ha : 124 - i + s = 124 - (i - s) := by omega
      have hb : 124 - i - s = 124 - (i + s) := by omega
      rw [ha, hb, ← flat_symm5 f hr5 hs (i - s) (by omega),
        ← flat_symm5 f hr5 hs (i + s) (by omega)]
      ring

theorem grad_antisym5 (f : DField) (hr5 : f.res = 5) (hs : symmGet f)
    (x y z : ℕ) (hx : x < 5) (hy : y < 5) (hz : z < 5) :
    (getGrad (calculateGradient f) x y z).1
      = -(getGrad (calculateGradient f) (4 - x : ℕ) (4 - y : ℕ) (4 - z : ℕ)).1 ∧
    (getGrad (calculateGradient f) x y z).2.1
      = -(getGrad (calculateGradient f) (4 - x : ℕ) (4 - y : ℕ) (4 - z : ℕ)).2.1 ∧
    (getGrad (calculateGradient f) x y z).2.2
      = -(getGrad (calculateGradient f) (4 - x : ℕ) (4 - y : ℕ) (4 - z : ℕ)).2.2 := by
  rw [getGrad_calc5 f hr5 x y z hx hy hz,
    getGrad_calc5 f hr5 (4 - x) (4 - y) (4 - z) (by omega) (by omega) (by omega)]
  have e : (4 - x) + 5 * (4 - y) + 25 * (4 - z) = 124 - (x + 5 * y + 25 * z) := by
    omega
  rw [e]
  refine ⟨?_, ?_, ?_⟩
  · show gradCompM f (x + 5 * y + 25 * z) x 1
      = - gradCompM f (124 - (x + 5 * y + 25 * z)) (4 - x) 1
    exact gradCompM_antisym f hr5 hs (x + 5 * y + 25 * z) x 1 (by omega) hx
      (fun h => by omega) (fun h => by omega) (fun h1 h2 => by omega)
  · show gradCompM f (x + 5 * y + 25 * z) y 5
      = - gradCompM f (124 - (x + 5 * y + 25 * z)) (4 - y) 5
    exact gradCompM_antisym f hr5 hs (x + 5 * y + 25 * z) y 5 (by omega) hy
      (fun h => by omega) (fun h => by omega) (fun h1 h2 => by omega)
  · show gradCompM f (x + 5 * y + 25 * z) z 25
      = - gradCompM f (124 - (x + 5 * y + 25 * z)) (4 - z) 25
    exact gradCompM_antisym f hr5 hs (x + 5 * y + 25 * z) z 25 (by omega) hz
      (fun h => by omega) (fun h => by omega) (fun h1 h2 => by omega)

theorem scM_grad_antisym (k : ℕ) (x y z : ℕ) (hx : x < 5) (hy : y < 5)
    (hz : z < 5) :
    (getGrad (scM k) x y z).1
      = -(getGrad (scM k) (4 - x : ℕ) (4 - y : ℕ) (4 - z : ℕ)).1 ∧
    (getGrad (scM k) x y z).2.1
      = -(getGrad (scM k) (4 - x : ℕ) (4 - y : ℕ) (4 - z : ℕ)).2.1 ∧
    (getGrad (scM k) x y z).2.2
      = -(getGrad (scM k) (4 - x : ℕ) (4 - y : ℕ) (4 - z : ℕ)).2.2 := by
  cases k with
  | zero =>
    have h1 : ∀ a b c : ℤ, getGrad f0 a b c = (0, 0, 0) := by
      intro a b c
      unfold getGrad
      split <;> rfl
    have ha : scM 0 = f0 := rfl
    rw [ha]
    refine ⟨?_, ?_, ?_⟩ <;> rw [h1, h1] <;> norm_num
  | succ k =>
    have hb : scM (k + 1)
        = calculateGradient (diffuseStep (addAt (scM k) 2 2 2 4) 150) := rfl
    rw [hb]
    exact grad_antisym5 (diffuseStep (addAt (scM k) 2 2 2 4) 150) (scM_res k)
      (symmGet_diffuse _ 150 (symmGet_addAt (scM k) 2 4
        (by rw [scM_res]; norm_num) (scM_symm k))) x y z hx hy hz

/-! ### Face totals are non-negative on a non-negative state -/

theorem faceX_nonneg (f : DField) (h : ∀ x y z : ℤ, 0 ≤ getConc f x y z) :
    0 ≤ faceX f :=
  Finset.sum_nonneg fun z _ => Finset.sum_nonneg fun y _ =>
    add_nonneg (h _ _ _) (h _ _ _)

theorem faceY_nonneg (f : DField) (h : ∀ x y z : ℤ, 0 ≤ getConc f x y z) :
    0 ≤ faceY f :=
  Finset.sum_nonneg fun z _ => Finset.sum_nonneg fun x _ =>
    add_nonneg (h _ _ _) (h _ _ _)

theorem faceZ_nonneg (f : DField) (h : ∀ x y z : ℤ, 0 ≤ getConc f x y z) :
    0 ≤ faceZ f :=
  Finset.sum_nonneg fun y _ => Finset.sum_nonneg fun x _ =>
    add_nonneg (h _ _ _) (h _ _ _)

/-- The diffusion update with the cap clamp visible: what one step stores at
an in-range cell, for any cap state. -/
theorem getConc_diffuse_cap (f : DField) (dt : ℚ) (x y z : ℤ)
    (h : inRange f x y z) :
    getConc (diffuseStep f dt) x y z
      = capApply f.cap (getConc f x y z +
          f.dCoef * dt / f.spacing ^ 2 * (nbrSum f x y z - 6 * getConc f x y z)) := by
  unfold getConc
  rw [if_pos ((diffuse_inRange f dt x y z).mpr h)]
  unfold diffuseStep
  simp only
  rw [if_pos h]
  unfold getConc
  rw [if_pos h]

theorem initField_WFc (d : ℚ) (b : Bounds) (s : ℚ) (hs : 0 < s) (m : ℕ)
    (hx : b.xmax - b.xmin = m * s) (hy : b.ymax - b.ymin = m * s)
    (hz : b.zmax - b.zmin = m * s) : WFc (initField d b s) := by
  have hres : (initField d b s).res = m := by
    show (round ((b.xmax - b.xmin) / s)).toNat = m
    rw [hx]
    have e : (m : ℚ) * s / s = ((m : ℤ) : ℚ) := by
      field_simp
    rw [e, round_intCast]
    exact Int.toNat_natCast m
  have hb : (initField d b s).bnds = b := rfl
  have hsp : (initField d b s).spacing = s := rfl
  refine ⟨hs, ?_, ?_, ?_⟩ <;> rw [hres, hb, hsp] <;> linarith

/-! ### Concrete fields for the growth scenarios -/

/-- The initial cube of the growth tests, `[-40,140]` on every axis. -/
def b40 : Bounds := ⟨-40, 140, -40, 140, -40, 140⟩

/-- The diffusion field after `Initialize(b40, 30)` with `D = 0.4`. -/
def f40 : DField := initField (2/5) b40 30

/-- The cube the external uniform grid reports in the growth test,
`[-60,210]` on every axis. -/
def nbT : Bounds := ⟨-60, 210, -60, 210, -60, 210⟩

theorem f40_res : f40.res = 6 := by
  show (round ((140 - (-40) : ℚ) / 30)).toNat = 6
  have e : ((140 : ℚ) - (-40)) / 30 = ((6 : ℤ) : ℚ) := by norm_num
  rw [e, round_intCast]
  rfl

theorem WFc_f40 : WFc f40 := by
  refine ⟨show (0:ℚ) < 30 by norm_num, ?_, ?_, ?_⟩ <;> rw [f40_res] <;> norm_num [f40, initField, b40]

theorem nbT_ne_f40 : nbT ≠ f40.bnds := by
  intro h
  have hx := congrArg Bounds.xmin h
  norm_num [nbT, f40, initField, b40] at hx

theorem newResA_f40_nbT : newResA f40 nbT = 9 := by
  refine newResA_eval f40 nbT (show (0:ℚ) < 30 by norm_num) 9 ?_
  norm_num [nbT, f40, initField]

/-- The 7×7×7 cube of the `CopyOldData` growth, one cell out on each side of
the scenario cube. -/
def nb7 : Bounds := ⟨-60, 150, -60, 150, -60, 150⟩

theorem nb7_ne_f0 : nb7 ≠ f0.bnds := by
  intro h
  have hx := congrArg Bounds.xmin h
  norm_num [nb7, f0, setConcentrationThreshold, initField, b30] at hx

theorem offX_f0_nb7 : offX f0 nb7 = 1 := by
  show ⌊((-30 : ℚ) - -60) / 30⌋ = 1
  have e : ((-30 : ℚ) - -60) / 30 = ((1 : ℤ) : ℚ) := by norm_num
  rw [e, Int.floor_intCast]

theorem offY_f0_nb7 : offY f0 nb7 = 1 := offX_f0_nb7

theorem offZ_f0_nb7 : offZ f0 nb7 = 1 := offX_f0_nb7

/-! ### Concrete single-cell fields for the cap and mass counterexamples -/

/-- A one-cell grid holding concentration `10` with a cap of `1` set after the
injection: the next diffusion step must clamp. -/
def fC4 : DField :=
  setConcentrationThreshold (addAt (initField 0 ⟨0, 1, 0, 1, 0, 1⟩ 1) 0 0 0 10) 1

theorem fC4_res : fC4.res = 1 := by
  show (round ((1 - 0 : ℚ) / 1)).toNat = 1
  have e : ((1 : ℚ) - 0) / 1 = ((1 : ℤ) : ℚ) := by norm_num
  rw [e, round_intCast]
  rfl

theorem fC4_inRange : inRange fC4 0 0 0 := by
  have h := fC4_res
  unfold inRange
  omega

theorem fC4_conc : getConc fC4 0 0 0 = 10 := by
  unfold getConc
  rw [if_pos fC4_inRange]
  show (if ((0:ℤ) = 0 ∧ (0:ℤ) = 0 ∧ (0:ℤ) = 0) then
    capApply none ((0:ℚ) + 10) else (0:ℚ)) = 10
  rw [if_pos ⟨rfl, rfl, rfl⟩]
  show (0:ℚ) + 10 = 10
  norm_num

theorem fC4_nbr : nbrSum fC4 0 0 0 = 0 := by
  have h := fC4_res
  have hng : ∀ x y z : ℤ, ¬ inRange fC4 x y z → getConc fC4 x y z = 0 := by
    intro x y z hn
    unfold getConc
    rw [if_neg hn]
  unfold nbrSum
  rw [hng ((0:ℤ)-1) 0 0 (by unfold inRange; omega),
    hng ((0:ℤ)+1) 0 0 (by unfold inRange; omega),
    hng 0 ((0:ℤ)-1) 0 (by unfold inRange; omega),
    hng 0 ((0:ℤ)+1) 0 (by unfold inRange; omega),
    hng 0 0 ((0:ℤ)-1) (by unfold inRange; omega),
    hng 0 0 ((0:ℤ)+1) (by unfold inRange; omega)]
  norm_num

theorem fC4_step : getConc (diffuseStep fC4 1) 0 0 0 = 1 := by
  rw [getConc_diffuse_cap fC4 1 0 0 0 fC4_inRange, fC4_conc, fC4_nbr]
  show min (10 + fC4.dCoef * 1 / fC4.spacing ^ 2 * (0 - 6 * 10)) 1 = 1
  have hd : fC4.dCoef = 0 := rfl
  rw [hd]
  norm_num

theorem fC4_formula :
    getConc fC4 0 0 0 + fC4.dCoef * 1 / fC4.spacing ^ 2 *
      (nbrSum fC4 0 0 0 - 6 * getConc fC4 0 0 0) = 10 := by
  rw [fC4_conc, fC4_nbr]
  have hd : fC4.dCoef = 0 := rfl
  rw [hd]
  norm_num

/-- The all-zero one-cell field: a non-negative state on which a diffusion
step leaves the total mass unchanged. -/
def fz : DField := initField 1 ⟨0, 1, 0, 1, 0, 1⟩ 1

theorem fz_conc_zero : ∀ x y z : ℤ, getConc fz x y z = 0 := by
  intro x y z
  unfold getConc
  split <;> rfl

theorem fz_step_zero : ∀ x y z : ℤ, getConc (diffuseStep fz 1) x y z = 0 := by
  intro x y z
  by_cases h : inRange fz x y z
  · rw [getConc_diffuse_cap fz 1 x y z h]
    unfold nbrSum
    rw [fz_conc_zero, fz_conc_zero, fz_conc_zero, fz_conc_zero, fz_conc_zero,
      fz_conc_zero, fz_conc_zero]
    show (0:ℚ) + fz.dCoef * 1 / fz.spacing ^ 2 * (0+0+0+0+0+0 - 6 * 0) = 0
    norm_num
  · unfold getConc
    rw [if_neg (fun hc => h ((diffuse_inRange fz 1 x y z).mp hc))]

theorem fz_mass_eq : mass (diffuseStep fz 1) = mass fz := by
  have h1 : mass fz = 0 :=
    Finset.sum_eq_zero fun z _ => Finset.sum_eq_zero fun y _ =>
      Finset.sum_eq_zero fun x _ => fz_conc_zero x y z
  have h2 : mass (diffuseStep fz 1) = 0 :=
    Finset.sum_eq_zero fun z _ => Finset.sum_eq_zero fun y _ =>
      Finset.sum_eq_zero fun x _ => fz_step_zero x y z
  rw [h1, h2]

/-- The gradient value `CalculateGradient` actually stores at cell
`(x, y, z)`: per axis a central difference over `2h` in the interior and, at
either end of an axis, a one-sided difference over the element two linear
array indices inward (an x-stride offset on every axis). -/
def gradPointChar (f : DField) (x y z : ℕ) : Prop :=
  (0 < x → x + 1 < f.res →
    (getGrad (calculateGradient f) x y z).1
      = (getConc f (x + 1 : ℕ) y z - getConc f (x - 1 : ℕ) y z) / (2 * f.spacing)) ∧
  (x = 0 → 2 < f.res →
    (getGrad (calculateGradient f) x y z).1
      = (getConc f (x + 2 : ℕ) y z - getConc f x y z) / (2 * f.spacing)) ∧
  (x = f.res - 1 → 2 < f.res →
    (getGrad (calculateGradient f) x y z).1
      = (getConc f x y z - getConc f (x - 2 : ℕ) y z) / (2 * f.spacing)) ∧
  (0 < y → y + 1 < f.res →
    (getGrad (calculateGradient f) x y z).2.1
      = (getConc f x (y + 1 : ℕ) z - getConc f x (y - 1 : ℕ) z) / (2 * f.spacing)) ∧
  (y = 0 → x + 2 < f.res →
    (getGrad (calculateGradient f) x y z).2.1
      = (getConc f (x + 2 : ℕ) y z - getConc f x y z) / (2 * f.spacing)) ∧
  (y = f.res - 1 → 2 < f.res → 2 ≤ x →
    (getGrad (calculateGradient f) x y z).2.1
      = (getConc f x y z - getConc f (x - 2 : ℕ) y z) / (2 * f.spacing)) ∧
  (0 < z → z + 1 < f.res →
    (getGrad (calculateGradient f) x y z).2.2
      = (getConc f x y (z + 1 : ℕ) - getConc f x y (z - 1 : ℕ)) / (2 * f.spacing)) ∧
  (z = 0 → x + 2 < f.res →
    (getGrad (calculateGradient f) x y z).2.2
      = (getConc f (x + 2 : ℕ) y z - getConc f x y z) / (2 * f.spacing)) ∧
  (z = f.res - 1 → 2 < f.res → 2 ≤ x →
    (getGrad (calculateGradient f) x y z).2.2
      = (getConc f x y z - getConc f (x - 2 : ℕ) y z) / (2 * f.spacing))

theorem gradPointChar_holds (f : DField) (x y z : ℕ) (hx : x < f.res)
    (hy : y < f.res) (hz : z < f.res) : gradPointChar f x y z :=
  ⟨fun h0 h1 => gradX_interior f x y z h0 h1 hy hz,
   fun h0 hr => gradX_lo f x y z h0 hr hy hz,
   fun h0 hr => gradX_hi f x y z h0 hr hy hz,
   fun h0 h1 => gradY_interior f x y z hx h0 h1 hz,
   fun h0 h2 => gradY_lo f x y z h0 h2 hz,
   fun h0 hr h2 => gradY_hi f x y z h0 hr h2 hx hz,
   fun h0 h1 => gradZ_interior f x y z hx hy h0 h1,
   fun h0 h2 => gradZ_lo f x y z h0 h2 hy,
   fun h0 hr h2 => gradZ_hi f x y z h0 hr h2 hx hy⟩

/-- C2: `Update` adopts the externally computed cube: the bounds become
`newExternalBounds` exactly (an exact no-op when they already equal the
current bounds) and the resolution is recomputed from the adopted extent; in
particular updating the `[-40,140]` grid with the cube `[-60,210]` the
external collaborator reports for the grown agent span yields
`GetDimensions() == [-60,210]` on every axis, as the test pins.  The claim's
alignment words fail: the adopted faces need not sit a whole number of cells
from the existing grid (see `claimC2_counterexample`). -/
theorem claimC2 (f : DField) (nb : Bounds) (hne : nb ≠ f.bnds) :
    (update f nb).bnds = nb ∧
    (update f nb).res = newResA f nb ∧
    update f f.bnds = f ∧
    (update f40 nbT).bnds = ⟨-60, 210, -60, 210, -60, 210⟩ ∧
    boundsLE f40.bnds (update f40 nbT).bnds ∧
    (update f40 nbT).res = 9 :=
  ⟨update_bnds f nb hne, update_res f nb hne, update_of_eq f f.bnds rfl,
   (update_bnds f40 nbT nbT_ne_f40).trans rfl,
   by
     rw [update_bnds f40 nbT nbT_ne_f40]
     unfold boundsLE
     norm_num [f40, initField, b40, nbT],
   by rw [update_res f40 nbT nbT_ne_f40, newResA_f40_nbT]⟩

/-- C2 witness: the adopted-cube description applied to the concrete growth
`[-40,140] → [-60,210]`. -/
theorem claimC2_witness :
    nbT ≠ f40.bnds ∧
    ((update f40 nbT).bnds = nbT ∧
     (update f40 nbT).res = newResA f40 nbT ∧
     update f40 f40.bnds = f40 ∧
     (update f40 nbT).bnds = ⟨-60, 210, -60, 210, -60, 210⟩ ∧
     boundsLE f40.bnds (update f40 nbT).bnds ∧
     (update f40 nbT).res = 9) :=
  ⟨nbT_ne_f40, claimC2 f40 nbT nbT_ne_f40⟩

/-- C2 counterexample: in the pinned growth the low face moves from `-40` to
`-60`, a displacement of `20` that is not a whole number of cells of the
existing grid (spacing `30`): no `k` has `-40 - k*30 = -60`, refuting the
claim's "rounded up to the next multiple of spacing from the existing
grid". -/
theorem claimC2_counterexample :
    (update f40 nbT).bnds.xmin = -60 ∧
    f40.bnds.xmin = -40 ∧
    f40.spacing = 30 ∧
    (∀ k : ℕ, f40.bnds.xmin - k * f40.spacing ≠ (update f40 nbT).bnds.xmin) := by
  have hb : (update f40 nbT).bnds = nbT := update_bnds f40 nbT nbT_ne_f40
  have hmin : f40.bnds.xmin = -40 := by norm_num [f40, initField, b40]
  have hsp : f40.spacing = 30 := rfl
  refine ⟨by rw [hb]; norm_num [nbT], hmin, hsp, ?_⟩
  intro k h
  rw [hb, hmin, hsp] at h
  have hT : nbT.xmin = -60 := rfl
  rw [hT] at h
  have hq : ((k * 30 : ℕ) : ℚ) = 20 := by push_cast; linarith
  have hn : k * 30 = 20 := by exact_mod_cast hq
  omega

/-- C4: what one diffusion step stores at an in-range cell is the explicit
finite-difference formula read from the pre-step snapshot with out-of-grid
neighbours contributing zero, but clamped by the concentration cap when one is
set; the claim's uncapped formula is exact only when no cap is set
(see `claimC4_counterexample`). -/
theorem claimC4 (f : DField) (dt : ℚ) (x y z : ℤ) (h : inRange f x y z) :
    getConc (diffuseStep f dt) x y z
      = capApply f.cap (getConc f x y z + f.dCoef * dt / f.spacing ^ 2 *
          (nbrSum f x y z - 6 * getConc f x y z)) ∧
    (f.cap = none →
      getConc (diffuseStep f dt) x y z
        = getConc f x y z + f.dCoef * dt / f.spacing ^ 2 *
            (nbrSum f x y z - 6 * getConc f x y z)) :=
  ⟨getConc_diffuse_cap f dt x y z h,
   fun hc => getConc_diffuse f dt hc x y z h⟩

/-- C4 witness: the step equation at the one-cell capped field `fC4`. -/
theorem claimC4_witness :
    inRange fC4 0 0 0 ∧
    (getConc (diffuseStep fC4 1) 0 0 0
        = capApply fC4.cap (getConc fC4 0 0 0 + fC4.dCoef * 1 / fC4.spacing ^ 2 *
            (nbrSum fC4 0 0 0 - 6 * getConc fC4 0 0 0)) ∧
     (fC4.cap = none →
       getConc (diffuseStep fC4 1) 0 0 0
         = getConc fC4 0 0 0 + fC4.dCoef * 1 / fC4.spacing ^ 2 *
             (nbrSum fC4 0 0 0 - 6 * getConc fC4 0 0 0))) :=
  ⟨fC4_inRange, claimC4 fC4 1 0 0 0 fC4_inRange⟩

/-- C4 counterexample: on the one-cell field holding `10` with cap `1`
(`D = 0`), the step stores `1` while the claim's uncapped formula gives `10`. -/
theorem claimC4_counterexample :
    getConc (diffuseStep fC4 1) 0 0 0
      ≠ getConc fC4 0 0 0 + fC4.dCoef * 1 / fC4.spacing ^ 2 *
          (nbrSum fC4 0 0 0 - 6 * getConc fC4 0 0 0) := by
  intro h
  rw [fC4_step, fC4_formula] at h
  norm_num at h

/-- C5: the gradient `CalculateGradient` stores is the central difference
`(conc[w+1] - conc[w-1]) / (2h)` per axis only in the interior; at either end
of an axis it is a one-sided difference over the element two linear array
indices inward (the x-stride, on every axis), not the spec's zero-filled
central difference (see `claimC5_counterexample`); the whole gradient array is
freshly recomputed, so no entry is stale. -/
theorem claimC5 (f : DField) (x y z : ℕ) (hx : x < f.res) (hy : y < f.res)
    (hz : z < f.res) :
    gradPointChar f x y z ∧
    ∀ g : ℤ → ℤ → ℤ → ℚ × ℚ × ℚ,
      calculateGradient { f with grad := g } = calculateGradient f :=
  ⟨gradPointChar_holds f x y z hx hy hz, fun g => calcGrad_fresh f g⟩

/-- C5 witness: the stored-gradient characterisation at cell `(1,2,3)` of the
5×5×5 scenario field. -/
theorem claimC5_witness :
    (1 < f0.res ∧ 2 < f0.res ∧ 3 < f0.res) ∧
    (gradPointChar f0 1 2 3 ∧
     ∀ g : ℤ → ℤ → ℤ → ℚ × ℚ × ℚ,
       calculateGradient { f0 with grad := g } = calculateGradient f0) := by
  have h1 : 1 < f0.res := by rw [f0_res]; norm_num
  have h2 : 2 < f0.res := by rw [f0_res]; norm_num
  have h3 : 3 < f0.res := by rw [f0_res]; norm_num
  exact ⟨⟨h1, h2, h3⟩, claimC5 f0 1 2 3 h1 h2 h3⟩

/-- C6: a second `Update` with the same external bounds is the identity on
the whole field state (byte-for-byte: the structures are equal), and whenever
the cube computed from the new external bounds equals the current bounds the
call is an exact no-op returning the field unchanged. -/
theorem claimC6 (f : DField) (nb : Bounds) :
    update (update f nb) nb = update f nb ∧
    (nb = f.bnds → update f nb = f) :=
  ⟨update_idem f nb, fun h => update_of_eq f nb h⟩

/-- C7: `Initialize` on a cube whose extent is a whole multiple of the
spacing establishes the cube invariant (equal extents, each `res * spacing`),
every `Update` with an external cube of the same kind preserves it, and when
the external cube contains the current domain (the documented collaborator
contract) the domain after the `Update` contains the domain before it
(monotonic growth over any call sequence, by induction on the steps). -/
theorem claimC7 (d : ℚ) (b : Bounds) (s : ℚ) (m : ℕ) (hs : 0 < s)
    (hbx : b.xmax - b.xmin = m * s) (hby : b.ymax - b.ymin = m * s)
    (hbz : b.zmax - b.zmin = m * s)
    (f : DField) (nb : Bounds) (hf : WFc f) (mn : ℕ)
    (hnx : nb.xmax - nb.xmin = mn * f.spacing)
    (hny : nb.ymax - nb.ymin = mn * f.spacing)
    (hnz : nb.zmax - nb.zmin = mn * f.spacing)
    (hcont : boundsLE f.bnds nb) :
    WFc (initField d b s) ∧ WFc (update f nb) ∧
    boundsLE f.bnds (update f nb).bnds :=
  ⟨initField_WFc d b s hs m hbx hby hbz,
   update_WFc f nb hf mn hnx hny hnz,
   update_contains f nb hcont⟩

/-- C7 witness: the invariant at the concrete initialisation `[-40,140]`
(spacing 30, 6 cells) and the concrete growth to `[-60,210]` (9 cells). -/
theorem claimC7_witness :
    ((0:ℚ) < 30 ∧ b40.xmax - b40.xmin = (6:ℕ) * (30:ℚ) ∧
     b40.ymax - b40.ymin = (6:ℕ) * (30:ℚ) ∧
     b40.zmax - b40.zmin = (6:ℕ) * (30:ℚ) ∧ WFc f40 ∧
     nbT.xmax - nbT.xmin = (9:ℕ) * f40.spacing ∧
     nbT.ymax - nbT.ymin = (9:ℕ) * f40.spacing ∧
     nbT.zmax - nbT.zmin = (9:ℕ) * f40.spacing ∧
     boundsLE f40.bnds nbT) ∧
    (WFc (initField (2/5) b40 30) ∧ WFc (update f40 nbT) ∧
     boundsLE f40.bnds (update f40 nbT).bnds) := by
  have hs : (0:ℚ) < 30 := by norm_num
  have hx : b40.xmax - b40.xmin = (6:ℕ) * (30:ℚ) := by norm_num [b40]
  have hy : b40.ymax - b40.ymin = (6:ℕ) * (30:ℚ) := by norm_num [b40]
  have hz : b40.zmax - b40.zmin = (6:ℕ) * (30:ℚ) := by norm_num [b40]
  have hnx : nbT.xmax - nbT.xmin = (9:ℕ) * f40.spacing := by
    norm_num [nbT, f40, initField]
  have hny : nbT.ymax - nbT.ymin = (9:ℕ) * f40.spacing := by
    norm_num [nbT, f40, initField]
  have hnz : nbT.zmax - nbT.zmin = (9:ℕ) * f40.spacing := by
    norm_num [nbT, f40, initField]
  have hcont : boundsLE f40.bnds nbT := by
    unfold boundsLE
    norm_num [f40, initField, b40, nbT]
  exact ⟨⟨hs, hx, hy, hz, WFc_f40, hnx, hny, hnz, hcont⟩,
    claimC7 (2/5) b40 30 6 hs hx hy hz f40 nbT WFc_f40 9 hnx hny hnz hcont⟩

/-- C8: `GetBoxIndex` maps a valid cell coordinate to the linear index
`ix + n*(iy + n*iz)`, that index is below `n^3`, the mapping round-trips with
`invBoxIndex` in both directions (a bijection onto `[0, n^3)`), and an
out-of-range coordinate fails with `OutOfBoundsError`. -/
theorem claimC8 (f : DField) (c : ℕ × ℕ × ℕ) (i : ℕ)
    (hc : c.1 < f.res ∧ c.2.1 < f.res ∧ c.2.2 < f.res)
    (hi : i < f.res * f.res * f.res)
    (c' : ℕ × ℕ × ℕ) (hc' : ¬ (c'.1 < f.res ∧ c'.2.1 < f.res ∧ c'.2.2 < f.res)) :
    getBoxIndex f c = .ok (c.1 + f.res * (c.2.1 + f.res * c.2.2)) ∧
    c.1 + f.res * (c.2.1 + f.res * c.2.2) < f.res * f.res * f.res ∧
    invBoxIndex f (c.1 + f.res * (c.2.1 + f.res * c.2.2)) = c ∧
    ((invBoxIndex f i).1 + f.res * ((invBoxIndex f i).2.1 +
        f.res * (invBoxIndex f i).2.2) = i ∧
     (invBoxIndex f i).1 < f.res ∧ (invBoxIndex f i).2.1 < f.res ∧
     (invBoxIndex f i).2.2 < f.res) ∧
    getBoxIndex f c' = .error .outOfBounds :=
  ⟨getBoxIndex_ok f c hc, boxIndex_lt f c hc, invBoxIndex_leftInv f c hc,
   invBoxIndex_rightInv f i hi, getBoxIndex_err f c' hc'⟩

/-- C8 witness: the index bijection on the 5×5×5 scenario grid at coordinate
`(1,2,3)`, linear index `77`, and the failing coordinate `(5,0,0)`. -/
theorem claimC8_witness :
    (((1:ℕ) < f0.res ∧ (2:ℕ) < f0.res ∧ (3:ℕ) < f0.res) ∧
     (77:ℕ) < f0.res * f0.res * f0.res ∧
     ¬ ((5:ℕ) < f0.res ∧ (0:ℕ) < f0.res ∧ (0:ℕ) < f0.res)) ∧
    (getBoxIndex f0 (1, 2, 3) = .ok ((1:ℕ) + f0.res * (2 + f0.res * 3)) ∧
     (1:ℕ) + f0.res * (2 + f0.res * 3) < f0.res * f0.res * f0.res ∧
     invBoxIndex f0 ((1:ℕ) + f0.res * (2 + f0.res * 3)) = (1, 2, 3) ∧
     ((invBoxIndex f0 77).1 + f0.res * ((invBoxIndex f0 77).2.1 +
         f0.res * (invBoxIndex f0 77).2.2) = 77 ∧
      (invBoxIndex f0 77).1 < f0.res ∧ (invBoxIndex f0 77).2.1 < f0.res ∧
      (invBoxIndex f0 77).2.2 < f0.res) ∧
     getBoxIndex f0 (5, 0, 0) = .error .outOfBounds) := by
  have hc : (1:ℕ) < f0.res ∧ (2:ℕ) < f0.res ∧ (3:ℕ) < f0.res := by
    rw [f0_res]
    exact ⟨by norm_num, by norm_num, by norm_num⟩
  have hi : (77:ℕ) < f0.res * f0.res * f0.res := by rw [f0_res]; norm_num
  have hc' : ¬ ((5:ℕ) < f0.res ∧ (0:ℕ) < f0.res ∧ (0:ℕ) < f0.res) := by
    rw [f0_res]
    intro h
    exact absurd h.1 (by norm_num)
  exact ⟨⟨hc, hi, hc'⟩, claimC8 f0 (1, 2, 3) 77 hc hi (5, 0, 0) hc'⟩

/-- C9: over one diffusion step with no cap set, the change of total mass is
exactly the outflow through the six grid faces,
`mass' = mass - D*dt/h^2 * (faceX + faceY + faceZ)`; on a non-negative state
with a non-negative coefficient the mass therefore never increases — but it
decreases only weakly, not strictly as claimed (see `claimC9_counterexample`). -/
theorem claimC9 (f : DField) (dt : ℚ) (hcap : f.cap = none)
    (hpos : ∀ x y z : ℤ, 0 ≤ getConc f x y z)
    (hnu : 0 ≤ f.dCoef * dt / f.spacing ^ 2) :
    mass (diffuseStep f dt)
      = mass f - f.dCoef * dt / f.spacing ^ 2 * (faceX f + faceY f + faceZ f) ∧
    mass (diffuseStep f dt) ≤ mass f := by
  have h := mass_diffuse f dt hcap
  refine ⟨h, ?_⟩
  rw [h]
  have hfs : 0 ≤ faceX f + faceY f + faceZ f :=
    add_nonneg (add_nonneg (faceX_nonneg f hpos) (faceY_nonneg f hpos))
      (faceZ_nonneg f hpos)
  have := mul_nonneg hnu hfs
  linarith

/-- C9 witness: the mass balance applied to the all-zero one-cell field. -/
theorem claimC9_witness :
    (fz.cap = none ∧ (∀ x y z : ℤ, 0 ≤ getConc fz x y z) ∧
     0 ≤ fz.dCoef * 1 / fz.spacing ^ 2) ∧
    (mass (diffuseStep fz 1)
        = mass fz - fz.dCoef * 1 / fz.spacing ^ 2 * (faceX fz + faceY fz + faceZ fz) ∧
     mass (diffuseStep fz 1) ≤ mass fz) := by
  have hcap : fz.cap = none := rfl
  have hpos : ∀ x y z : ℤ, 0 ≤ getConc fz x y z := fun x y z =>
    le_of_eq (fz_conc_zero x y z).symm
  have hnu : 0 ≤ fz.dCoef * 1 / fz.spacing ^ 2 := by
    show (0:ℚ) ≤ 1 * 1 / 1 ^ 2
    norm_num
  exact ⟨⟨hcap, hpos, hnu⟩, claimC9 fz 1 hcap hpos hnu⟩

/-- C9 counterexample: the all-zero field is non-negative and receives no
injection, yet one diffusion step leaves the total mass exactly unchanged —
the mass does not strictly decrease. -/
theorem claimC9_counterexample :
    (∀ x y z : ℤ, 0 ≤ getConc fz x y z) ∧
    mass (diffuseStep fz 1) = mass fz :=
  ⟨fun x y z => le_of_eq (fz_conc_zero x y z).symm, fz_mass_eq⟩

/-! ### The claims -/

set_option maxRecDepth 1000000 in
set_option maxHeartbeats 4000000 in
/-- C1: after 100 iterations of the inject-diffuse-gradient schedule on the
5×5×5 grid with `D = 0.4`, cap `1e15` and amount `4` injected at the physical
point of the centre cell `(2,2,2)`, the binary64 state holds exactly the
literal values: centre `9.7267657389657938`, each of its six face neighbours
`3.7281869469803648`, opposite corners `(0,0,0)` and `(4,4,4)` both
`0.12493663388071227`, x-gradient `-0.14368264361944241` at `(3,2,2)` and
`+0.14368264361944241` at `(1,2,2)`, and y-gradient `0.0` at the centre. -/
theorem claimC1 :
    concAt leakG 2 2 2 = dbl 97267657389657938 10000000000000000 ∧
    concAt leakG 1 2 2 = dbl 37281869469803648 10000000000000000 ∧
    concAt leakG 3 2 2 = dbl 37281869469803648 10000000000000000 ∧
    concAt leakG 2 1 2 = dbl 37281869469803648 10000000000000000 ∧
    concAt leakG 2 3 2 = dbl 37281869469803648 10000000000000000 ∧
    concAt leakG 2 2 1 = dbl 37281869469803648 10000000000000000 ∧
    concAt leakG 2 2 3 = dbl 37281869469803648 10000000000000000 ∧
    concAt leakG 0 0 0 = dbl 12493663388071227 100000000000000000 ∧
    concAt leakG 4 4 4 = dbl 12493663388071227 100000000000000000 ∧
    (gradAt leakG 3 2 2).1 = fneg (dbl 14368264361944241 100000000000000000) ∧
    (gradAt leakG 1 2 2).1 = dbl 14368264361944241 100000000000000000 ∧
    (gradAt leakG 2 2 2).2.1 = 0 := by
  rw [leakG_eval]
  decide

set_option maxRecDepth 1000000 in
set_option maxHeartbeats 4000000 in
/-- C3: a growing `Update` copies every stored concentration and gradient to
the old index shifted by the integer cell offset between the old and new grid
origins, newly added cells are zero, and in the concrete 5×5×5 → 7×7×7 growth
of the scenario the old centre value `9.7267657389657938` reappears at
`(3,3,3)`, its east neighbour `3.7281869469803648` at `(4,3,3)`, the corner
`0.12493663388071227` at `(1,1,1)`, the new boundary layer is zero, and the
gradient literals reappear offset by `(1,1,1)` unchanged. -/
theorem claimC3 (f : DField) (nb : Bounds) (x y z : ℤ)
    (hr : inRange f x y z) (x' y' z' : ℤ)
    (hnew : ¬ inRange f (x' - offX f nb) (y' - offY f nb) (z' - offZ f nb)) :
    ((update f nb).conc (x + offX f nb) (y + offY f nb) (z + offZ f nb)
        = f.conc x y z ∧
     (update f nb).grad (x + offX f nb) (y + offY f nb) (z + offZ f nb)
        = f.grad x y z) ∧
    ((update f nb).conc x' y' z' = 0 ∨ update f nb = f) ∧
    flatGet (grow7 (gridL leakG)) (3 + 7 * 3 + 49 * 3)
      = dbl 97267657389657938 10000000000000000 ∧
    flatGet (grow7 (gridL leakG)) (4 + 7 * 3 + 49 * 3)
      = dbl 37281869469803648 10000000000000000 ∧
    flatGet (grow7 (gridL leakG)) (1 + 7 * 1 + 49 * 1)
      = dbl 12493663388071227 100000000000000000 ∧
    flatGet (grow7 (gridL leakG)) 0 = 0 ∧
    ((grow7V (gradL (gridL leakG))).getD (4 + 7 * 3 + 49 * 3) (0, 0, 0)).1
      = fneg (dbl 14368264361944241 100000000000000000) ∧
    ((grow7V (gradL (gridL leakG))).getD (2 + 7 * 3 + 49 * 3) (0, 0, 0)).1
      = dbl 14368264361944241 100000000000000000 := by
  refine ⟨update_copy f nb x y z hr,
    update_new_cells_zero f nb x' y' z' hnew, ?_, ?_, ?_, ?_, ?_, ?_⟩
  all_goals (rw [leakG_eval]; decide)

/-- C3 witness: the copy property applied to the concrete `CopyOldData`
growth `[-30,120] → [-60,150]` (cell offset `(1,1,1)`) at the old origin
cell, with `(0,0,0)` of the new grid as a freshly added cell. -/
theorem claimC3_witness :
    (inRange f0 0 0 0 ∧
     ¬ inRange f0 ((0:ℤ) - offX f0 nb7) ((0:ℤ) - offY f0 nb7)
        ((0:ℤ) - offZ f0 nb7)) ∧
    (((update f0 nb7).conc ((0:ℤ) + offX f0 nb7) ((0:ℤ) + offY f0 nb7)
          ((0:ℤ) + offZ f0 nb7) = f0.conc 0 0 0 ∧
      (update f0 nb7).grad ((0:ℤ) + offX f0 nb7) ((0:ℤ) + offY f0 nb7)
          ((0:ℤ) + offZ f0 nb7) = f0.grad 0 0 0) ∧
     ((update f0 nb7).conc 0 0 0 = 0 ∨ update f0 nb7 = f0) ∧
     flatGet (grow7 (gridL leakG)) (3 + 7 * 3 + 49 * 3)
       = dbl 97267657389657938 10000000000000000 ∧
     flatGet (grow7 (gridL leakG)) (4 + 7 * 3 + 49 * 3)
       = dbl 37281869469803648 10000000000000000 ∧
     flatGet (grow7 (gridL leakG)) (1 + 7 * 1 + 49 * 1)
       = dbl 12493663388071227 100000000000000000 ∧
     flatGet (grow7 (gridL leakG)) 0 = 0 ∧
     ((grow7V (gradL (gridL leakG))).getD (4 + 7 * 3 + 49 * 3) (0, 0, 0)).1
       = fneg (dbl 14368264361944241 100000000000000000) ∧
     ((grow7V (gradL (gridL leakG))).getD (2 + 7 * 3 + 49 * 3) (0, 0, 0)).1
       = dbl 14368264361944241 100000000000000000) := by
  have h2 : inRange f0 0 0 0 := by
    have h := f0_res
    unfold inRange
    omega
  have h3 : ¬ inRange f0 ((0:ℤ) - offX f0 nb7) ((0:ℤ) - offY f0 nb7)
      ((0:ℤ) - offZ f0 nb7) := by
    rw [offX_f0_nb7, offY_f0_nb7, offZ_f0_nb7]
    unfold inRange
    omega
  exact ⟨⟨h2, h3⟩, claimC3 f0 nb7 0 0 0 h2 0 0 0 h3⟩

set_option maxRecDepth 1000000 in
set_option maxHeartbeats 4000000 in
/-- C5 counterexample: at the corner cell `(0,0,0)` of the scenario state the
stored y-gradient is not the spec's zero-filled central difference — the code
reads the element two linear indices inward (`conc[(2,0,0)] - conc[(0,0,0)]`)
where the spec's rule reads `conc[(0,1,0)] - 0`. -/
theorem claimC5_counterexample :
    (gradAt leakG 0 0 0).2.1 ≠ gradSpecComp (gridL leakG) 0 0 0 5 0 := by
  rw [leakG_eval]
  decide

set_option maxRecDepth 1000000 in
set_option maxHeartbeats 4000000 in
/-- C10: in the exact-arithmetic model of the centred-source scenario the
concentration field is point-symmetric through the centre at every step and
the whole stored gradient vector is antisymmetric under the reflection; the
binary64 state after 100 steps holds the unstated literal
`0.32563083857294983` at both `(4,4,2)` and `(0,0,2)` with x-gradients
`-0.013002938053771644` and `+0.013002938053771644`.  Bit-for-bit, the claimed
equalities fail for other reflected pairs (see `claimC10_counterexample`). -/
theorem claimC10 (k : ℕ) (x y z : ℕ) (hx : x < 5) (hy : y < 5) (hz : z < 5) :
    getConc (scM k) x y z
      = getConc (scM k) (4 - x : ℕ) (4 - y : ℕ) (4 - z : ℕ) ∧
    ((getGrad (scM k) x y z).1
        = -(getGrad (scM k) (4 - x : ℕ) (4 - y : ℕ) (4 - z : ℕ)).1 ∧
     (getGrad (scM k) x y z).2.1
        = -(getGrad (scM k) (4 - x : ℕ) (4 - y : ℕ) (4 - z : ℕ)).2.1 ∧
     (getGrad (scM k) x y z).2.2
        = -(getGrad (scM k) (4 - x : ℕ) (4 - y : ℕ) (4 - z : ℕ)).2.2) ∧
    concAt leakG 4 4 2 = dbl 32563083857294983 100000000000000000 ∧
    concAt leakG 0 0 2 = dbl 32563083857294983 100000000000000000 ∧
    (gradAt leakG 4 4 2).1 = fneg (dbl 13002938053771644 1000000000000000000) ∧
    (gradAt leakG 0 0 2).1 = dbl 13002938053771644 1000000000000000000 := by
  refine ⟨symmGet_n (scM k) (scM_res k) (scM_symm k) x y z hx hy hz,
    scM_grad_antisym k x y z hx hy hz, ?_, ?_, ?_, ?_⟩
  all_goals (rw [leakG_eval]; decide)

/-- C10 witness: the symmetry statement applied after 100 steps at the cell
`(1,2,2)`. -/
theorem claimC10_witness :
    ((1:ℕ) < 5 ∧ (2:ℕ) < 5 ∧ (2:ℕ) < 5) ∧
    (getConc (scM 100) (1:ℕ) (2:ℕ) (2:ℕ)
        = getConc (scM 100) (4 - 1 : ℕ) (4 - 2 : ℕ) (4 - 2 : ℕ) ∧
     ((getGrad (scM 100) (1:ℕ) (2:ℕ) (2:ℕ)).1
         = -(getGrad (scM 100) (4 - 1 : ℕ) (4 - 2 : ℕ) (4 - 2 : ℕ)).1 ∧
      (getGrad (scM 100) (1:ℕ) (2:ℕ) (2:ℕ)).2.1
         = -(getGrad (scM 100) (4 - 1 : ℕ) (4 - 2 : ℕ) (4 - 2 : ℕ)).2.1 ∧
      (getGrad (scM 100) (1:ℕ) (2:ℕ) (2:ℕ)).2.2
         = -(getGrad (scM 100) (4 - 1 : ℕ) (4 - 2 : ℕ) (4 - 2 : ℕ)).2.2) ∧
     concAt leakG 4 4 2 = dbl 32563083857294983 100000000000000000 ∧
     concAt leakG 0 0 2 = dbl 32563083857294983 100000000000000000 ∧
     (gradAt leakG 4 4 2).1 = fneg (dbl 13002938053771644 1000000000000000000) ∧
     (gradAt leakG 0 0 2).1 = dbl 13002938053771644 1000000000000000000) :=
  ⟨⟨by norm_num, by norm_num, by norm_num⟩,
   claimC10 100 1 2 2 (by norm_num) (by norm_num) (by norm_num)⟩

set_option maxRecDepth 1000000 in
set_option maxHeartbeats 4000000 in
/-- C10 counterexample: in the actual binary64 computation the reflected
concentration pair `(0,2,0)`/`(4,2,4)` of the 100-step state differ by one
unit in the last place, and the y-gradient at `(4,0,0)` is not the exact
negation of the y-gradient at its reflection `(0,4,4)` — the claimed exact
point symmetry and gradient antisymmetry do not hold for every pair. -/
theorem claimC10_counterexample :
    concAt leakG 0 2 0 ≠ concAt leakG 4 2 4 ∧
    (gradAt leakG 4 0 0).2.1 ≠ fneg ((gradAt leakG 0 4 4).2.1) := by
  rw [leakG_eval]
  constructor <;> decide
